import Mathlib

/-
Formal model of the DuckChain MCP server (src/src/duckchain/server.py).

The program is a BlockScout API client (`DuckChainAPI`) together with the
FastMCP tool, resource and prompt handlers defined inside `create_server`.
The network is modelled as an oracle `Upstream` that maps each outgoing GET
request (absolute URL plus query parameters, exactly the data handed to
`httpx.AsyncClient.get`) to either a transport-level failure or an HTTP
response carrying a status code, a raw body, and the JSON decoding of the
body when the body is valid JSON.  Exceptions raised by the client are
modelled by the `Except ApiError` monad; handlers are total functions, so a
tool invocation that returned an `Except.error` internally still produces a
`String` result, mirroring the `try/except` blocks of the source.  The
module-level mutable singleton (`nonlocal api_client`) is modelled by
explicit state passing of an `Option DuckChainAPI` value.
-/

/-- Model of the `httpx.AsyncClient` connection pool handle created in
`DuckChainAPI.__init__` (server.py line 24): it records the timeout it was
constructed with and whether `aclose` has been called on it. -/
structure HttpClient where
  timeout : Nat
  closed : Bool
deriving DecidableEq, Repr

/-- The `DuckChainAPI` object (server.py lines 18-24): a base URL, a timeout
value and the connection pool handle. -/
structure DuckChainAPI where
  base_url : String
  timeout : Nat
  client : HttpClient
deriving DecidableEq, Repr

/-- Embeds `DuckChainAPI.__init__` (server.py lines 21-24).  The constructor
takes no arguments: `base_url` is the fixed literal
`"https://scan.duckchain.io/api/v2"`, `self.timeout` is the literal `30`, and
the pool is created as `httpx.AsyncClient(timeout=self.timeout)`. -/
def DuckChainAPI.init : DuckChainAPI :=
  { base_url := "https://scan.duckchain.io/api/v2"
  , timeout := 30
  , client := { timeout := 30, closed := false } }

/-- Embeds `DuckChainAPI.close` (server.py lines 263-265): `await
self.client.aclose()` closes the pool. -/
def DuckChainAPI.close (api : DuckChainAPI) : DuckChainAPI :=
  { api with client := { api.client with closed := true } }

/-- The data of one outgoing GET request: the absolute URL string and the
query-parameter mapping, exactly the two arguments of
`self.client.get(url, params=params or \x7b\x7d)` (server.py line 30).  The
parameter mapping is a Python dict built by insertion; it is modelled as an
association list in insertion order. -/
structure Request where
  url : String
  params : List (String × String)
deriving DecidableEq, Repr

/-- An untyped JSON-decoded value, the result of `response.json()`: object,
array, string, number, boolean or null. -/
inductive Json where
  | null : Json
  | bool (b : Bool) : Json
  | num (n : Int) : Json
  | str (s : String) : Json
  | arr (elems : List Json) : Json
  | obj (fields : List (String × Json)) : Json

mutual

/-- Rendering of a decoded JSON value into the result message, the embedding
of Python string interpolation `f"...\x7bresult\x7d"` (which calls `str` on
the decoded object, printing dicts and lists in Python notation). -/
def Json.render : Json → String
  | .null => "None"
  | .bool true => "True"
  | .bool false => "False"
  | .num n => toString n
  | .str s => "\x27" ++ s ++ "\x27"
  | .arr elems => "[" ++ Json.renderElems elems ++ "]"
  | .obj fields => "\x7b" ++ Json.renderFields fields ++ "\x7d"

/-- Comma-separated rendering of the elements of a JSON array. -/
def Json.renderElems : List Json → String
  | [] => ""
  | [j] => Json.render j
  | j :: rest => Json.render j ++ ", " ++ Json.renderElems rest

/-- Comma-separated rendering of the key/value pairs of a JSON object. -/
def Json.renderFields : List (String × Json) → String
  | [] => ""
  | [(k, j)] => "\x27" ++ k ++ "\x27: " ++ Json.render j
  | (k, j) :: rest => "\x27" ++ k ++ "\x27: " ++ Json.render j ++ ", " ++ Json.renderFields rest

end

/-- What the network does with one GET request: either the request fails at
the transport level (connection, DNS, timeout - the `httpx.TransportError`
family), or an HTTP response arrives with a status code and a body; `json`
is the JSON decoding of the body when the body is valid JSON and `none`
otherwise. -/
inductive UpstreamResult where
  | transportError (msg : String) : UpstreamResult
  | response (status : Nat) (body : String) (json : Option Json) : UpstreamResult

/-- The network oracle: the behaviour of the upstream explorer host (plus the
transport between the process and it) on each request. -/
abbrev Upstream := Request → UpstreamResult

/-- The kinds of exception the API client can raise into a tool handler:
transport failures and JSON-decoding failures from `httpx`, HTTP-status
errors from `response.raise_for_status()`, and argument-handling errors.
Each carries the data its `str(e)` rendering is built from. -/
inductive ApiError where
  | transport (msg : String) : ApiError
  | httpStatus (status : Nat) (body : String) : ApiError
  | decode (msg : String) : ApiError
  | argument (msg : String) : ApiError
deriving DecidableEq, Repr

/-- Modelled from the spec: the `str(e)` text of each raised error kind.  The
raising code lives in the `httpx` library, outside this repository; the spec
describes the HTTP-status error as "carrying the status code and response
body", so its message is rendered from exactly those two fields. -/
def ApiError.message : ApiError → String
  | .transport msg => msg
  | .httpStatus status body => "HTTP status " ++ toString status ++ ": " ++ body
  | .decode msg => msg
  | .argument msg => msg

/-- What `_make_request` does with the value the network returned (server.py
lines 30-32): a transport failure propagates as a raised transport error;
otherwise `response.raise_for_status()` raises an HTTP-status error unless
the status is a success (2xx) status; on a success status `response.json()`
returns the decoded body, raising a decode error when the body is not valid
JSON. -/
def processResponse : UpstreamResult → Except ApiError Json
  | .transportError msg => .error (.transport msg)
  | .response status body json =>
    if 200 ≤ status ∧ status ≤ 299 then
      match json with
      | some j => .ok j
      | none => .error (.decode body)
    else .error (.httpStatus status body)

/-- Embeds `DuckChainAPI._make_request` (server.py lines 26-32): build
`url = f"\x7bself.base_url\x7d\x7bendpoint\x7d"`, issue
`self.client.get(url, params=params or \x7b\x7d)`, then
`raise_for_status` and `json()` as captured by `processResponse`. -/
def DuckChainAPI.make_request (api : DuckChainAPI) (u : Upstream)
    (endpoint : String) (params : List (String × String)) : Except ApiError Json :=
  let url := api.base_url ++ endpoint
  processResponse (u { url := url, params := params })

/-- The optional-query-parameter idiom of the source
(`if filter_type: params["filter"] = filter_type`, server.py lines 49-55):
the entry is added exactly when the argument is present and truthy, i.e. not
`None` and not the empty string. -/
def optQueryParam (name : String) : Option String → List (String × String)
  | none => []
  | some v => if v = "" then [] else [(name, v)]

/-- The MCP request context handed to tool handlers by the FastMCP host.  Its
content is opaque to this program (no handler reads any of its fields); the
single abstract field keeps distinct contexts distinguishable.  Handlers whose
signature defaults the context (`ctx: Context = None`) can also receive no
context at all, so handlers take an `Option Context`. -/
structure Context where
  data : Nat
deriving DecidableEq, Repr

namespace Tools

/-- Embeds `get_api_client` (server.py lines 277-282), the lazy accessor for
the `nonlocal api_client` singleton of the `create_server` closure: when the
state is `none` a fresh `DuckChainAPI()` is constructed and stored, otherwise
the stored instance is returned unchanged.  The result pairs the client the
caller uses with the state after the call.  The `ctx` argument is received
but never read. -/
def get_api_client (ctx : Option Context) (st : Option DuckChainAPI) :
    DuckChainAPI × Option DuckChainAPI :=
  match st with
  | none => (DuckChainAPI.init, some DuckChainAPI.init)
  | some c => (c, some c)

/-- The `try/except` shape every tool handler shares (e.g. server.py lines
291-296): on a successful API-client call the handler formats the decoded
JSON with its success template; on any raised error `e` it returns
`f"Error <doing the operation>: \x7bstr(e)\x7d"`. -/
def toolResult (call : Except ApiError Json) (success : Json → String)
    (errLabel : String) : String :=
  match call with
  | .ok j => success j
  | .error e => "Error " ++ errLabel ++ ": " ++ e.message

end Tools
/-- Embeds `DuckChainAPI.search` (server.py lines 34-36). -/
def DuckChainAPI.search (api : DuckChainAPI) (u : Upstream) (q : String) : Except ApiError Json :=
  api.make_request u ("/search") ([("q", q)])

/-- Embeds `DuckChainAPI.search_redirect` (server.py lines 38-40). -/
def DuckChainAPI.search_redirect (api : DuckChainAPI) (u : Upstream) (q : String) : Except ApiError Json :=
  api.make_request u ("/search/check-redirect") ([("q", q)])

/-- Embeds `DuckChainAPI.get_transactions` (server.py lines 42-56). -/
def DuckChainAPI.get_transactions (api : DuckChainAPI) (u : Upstream) (filter_type : Option String) (type : Option String) (method : Option String) : Except ApiError Json :=
  api.make_request u ("/transactions") (optQueryParam "filter" filter_type ++ optQueryParam "type" type ++ optQueryParam "method" method)

/-- Embeds `DuckChainAPI.get_blocks` (server.py lines 58-63). -/
def DuckChainAPI.get_blocks (api : DuckChainAPI) (u : Upstream) (type : Option String) : Except ApiError Json :=
  api.make_request u ("/blocks") (optQueryParam "type" type)

/-- Embeds `DuckChainAPI.get_block` (server.py lines 65-67). -/
def DuckChainAPI.get_block (api : DuckChainAPI) (u : Upstream) (block_number_or_hash : String) : Except ApiError Json :=
  api.make_request u ("/blocks/" ++ block_number_or_hash) ([])

/-- Embeds `DuckChainAPI.get_block_transactions` (server.py lines 69-71). -/
def DuckChainAPI.get_block_transactions (api : DuckChainAPI) (u : Upstream) (block_number_or_hash : String) : Except ApiError Json :=
  api.make_request u ("/blocks/" ++ block_number_or_hash ++ "/transactions") ([])

/-- Embeds `DuckChainAPI.get_block_withdrawals` (server.py lines 73-75). -/
def DuckChainAPI.get_block_withdrawals (api : DuckChainAPI) (u : Upstream) (block_number_or_hash : String) : Except ApiError Json :=
  api.make_request u ("/blocks/" ++ block_number_or_hash ++ "/withdrawals") ([])

/-- Embeds `DuckChainAPI.get_token_transfers` (server.py lines 77-79). -/
def DuckChainAPI.get_token_transfers (api : DuckChainAPI) (u : Upstream) : Except ApiError Json :=
  api.make_request u ("/token-transfers") ([])

/-- Embeds `DuckChainAPI.get_internal_transactions` (server.py lines 81-83). -/
def DuckChainAPI.get_internal_transactions (api : DuckChainAPI) (u : Upstream) : Except ApiError Json :=
  api.make_request u ("/internal-transactions") ([])

/-- Embeds `DuckChainAPI.get_addresses` (server.py lines 86-88). -/
def DuckChainAPI.get_addresses (api : DuckChainAPI) (u : Upstream) : Except ApiError Json :=
  api.make_request u ("/addresses") ([])

/-- Embeds `DuckChainAPI.get_address` (server.py lines 90-92). -/
def DuckChainAPI.get_address (api : DuckChainAPI) (u : Upstream) (address_hash : String) : Except ApiError Json :=
  api.make_request u ("/addresses/" ++ address_hash) ([])

/-- Embeds `DuckChainAPI.get_address_counters` (server.py lines 94-96). -/
def DuckChainAPI.get_address_counters (api : DuckChainAPI) (u : Upstream) (address_hash : String) : Except ApiError Json :=
  api.make_request u ("/addresses/" ++ address_hash ++ "/counters") ([])

/-- Embeds `DuckChainAPI.get_address_transactions` (server.py lines 98-100). -/
def DuckChainAPI.get_address_transactions (api : DuckChainAPI) (u : Upstream) (address_hash : String) : Except ApiError Json :=
  api.make_request u ("/addresses/" ++ address_hash ++ "/transactions") ([])

/-- Embeds `DuckChainAPI.get_address_token_transfers` (server.py lines 102-104). -/
def DuckChainAPI.get_address_token_transfers (api : DuckChainAPI) (u : Upstream) (address_hash : String) : Except ApiError Json :=
  api.make_request u ("/addresses/" ++ address_hash ++ "/token-transfers") ([])

/-- Embeds `DuckChainAPI.get_address_internal_transactions` (server.py lines 106-108). -/
def DuckChainAPI.get_address_internal_transactions (api : DuckChainAPI) (u : Upstream) (address_hash : String) : Except ApiError Json :=
  api.make_request u ("/addresses/" ++ address_hash ++ "/internal-transactions") ([])

/-- Embeds `DuckChainAPI.get_address_logs` (server.py lines 110-112). -/
def DuckChainAPI.get_address_logs (api : DuckChainAPI) (u : Upstream) (address_hash : String) : Except ApiError Json :=
  api.make_request u ("/addresses/" ++ address_hash ++ "/logs") ([])

/-- Embeds `DuckChainAPI.get_address_blocks_validated` (server.py lines 114-116). -/
def DuckChainAPI.get_address_blocks_validated (api : DuckChainAPI) (u : Upstream) (address_hash : String) : Except ApiError Json :=
  api.make_request u ("/addresses/" ++ address_hash ++ "/blocks-validated") ([])

/-- Embeds `DuckChainAPI.get_address_token_balances` (server.py lines 118-120). -/
def DuckChainAPI.get_address_token_balances (api : DuckChainAPI) (u : Upstream) (address_hash : String) : Except ApiError Json :=
  api.make_request u ("/addresses/" ++ address_hash ++ "/token-balances") ([])

/-- Embeds `DuckChainAPI.get_address_tokens` (server.py lines 122-124). -/
def DuckChainAPI.get_address_tokens (api : DuckChainAPI) (u : Upstream) (address_hash : String) : Except ApiError Json :=
  api.make_request u ("/addresses/" ++ address_hash ++ "/tokens") ([])

/-- Embeds `DuckChainAPI.get_address_coin_balance_history` (server.py lines 126-128). -/
def DuckChainAPI.get_address_coin_balance_history (api : DuckChainAPI) (u : Upstream) (address_hash : String) : Except ApiError Json :=
  api.make_request u ("/addresses/" ++ address_hash ++ "/coin-balance-history") ([])

/-- Embeds `DuckChainAPI.get_address_coin_balance_history_by_day` (server.py lines 130-132). -/
def DuckChainAPI.get_address_coin_balance_history_by_day (api : DuckChainAPI) (u : Upstream) (address_hash : String) : Except ApiError Json :=
  api.make_request u ("/addresses/" ++ address_hash ++ "/coin-balance-history-by-day") ([])

/-- Embeds `DuckChainAPI.get_address_withdrawals` (server.py lines 134-136). -/
def DuckChainAPI.get_address_withdrawals (api : DuckChainAPI) (u : Upstream) (address_hash : String) : Except ApiError Json :=
  api.make_request u ("/addresses/" ++ address_hash ++ "/withdrawals") ([])

/-- Embeds `DuckChainAPI.get_address_nft` (server.py lines 138-140). -/
def DuckChainAPI.get_address_nft (api : DuckChainAPI) (u : Upstream) (address_hash : String) : Except ApiError Json :=
  api.make_request u ("/addresses/" ++ address_hash ++ "/nft") ([])

/-- Embeds `DuckChainAPI.get_address_nft_collections` (server.py lines 142-144). -/
def DuckChainAPI.get_address_nft_collections (api : DuckChainAPI) (u : Upstream) (address_hash : String) : Except ApiError Json :=
  api.make_request u ("/addresses/" ++ address_hash ++ "/nft/collections") ([])

/-- Embeds `DuckChainAPI.get_tokens` (server.py lines 147-149). -/
def DuckChainAPI.get_tokens (api : DuckChainAPI) (u : Upstream) : Except ApiError Json :=
  api.make_request u ("/tokens") ([])

/-- Embeds `DuckChainAPI.get_token` (server.py lines 151-153). -/
def DuckChainAPI.get_token (api : DuckChainAPI) (u : Upstream) (address_hash : String) : Except ApiError Json :=
  api.make_request u ("/tokens/" ++ address_hash) ([])

/-- Embeds `DuckChainAPI.get_token_transfers_by_token` (server.py lines 155-157). -/
def DuckChainAPI.get_token_transfers_by_token (api : DuckChainAPI) (u : Upstream) (address_hash : String) : Except ApiError Json :=
  api.make_request u ("/tokens/" ++ address_hash ++ "/transfers") ([])

/-- Embeds `DuckChainAPI.get_token_holders` (server.py lines 159-161). -/
def DuckChainAPI.get_token_holders (api : DuckChainAPI) (u : Upstream) (address_hash : String) : Except ApiError Json :=
  api.make_request u ("/tokens/" ++ address_hash ++ "/holders") ([])

/-- Embeds `DuckChainAPI.get_token_counters` (server.py lines 163-165). -/
def DuckChainAPI.get_token_counters (api : DuckChainAPI) (u : Upstream) (address_hash : String) : Except ApiError Json :=
  api.make_request u ("/tokens/" ++ address_hash ++ "/counters") ([])

/-- Embeds `DuckChainAPI.get_token_instances` (server.py lines 167-169). -/
def DuckChainAPI.get_token_instances (api : DuckChainAPI) (u : Upstream) (address_hash : String) : Except ApiError Json :=
  api.make_request u ("/tokens/" ++ address_hash ++ "/instances") ([])

/-- Embeds `DuckChainAPI.get_token_instance` (server.py lines 171-173). -/
def DuckChainAPI.get_token_instance (api : DuckChainAPI) (u : Upstream) (address_hash : String) (instance_id : String) : Except ApiError Json :=
  api.make_request u ("/tokens/" ++ address_hash ++ "/instances/" ++ instance_id) ([])

/-- Embeds `DuckChainAPI.get_token_instance_transfers` (server.py lines 175-177). -/
def DuckChainAPI.get_token_instance_transfers (api : DuckChainAPI) (u : Upstream) (address_hash : String) (instance_id : String) : Except ApiError Json :=
  api.make_request u ("/tokens/" ++ address_hash ++ "/instances/" ++ instance_id ++ "/transfers") ([])

/-- Embeds `DuckChainAPI.get_token_instance_holders` (server.py lines 179-181). -/
def DuckChainAPI.get_token_instance_holders (api : DuckChainAPI) (u : Upstream) (address_hash : String) (instance_id : String) : Except ApiError Json :=
  api.make_request u ("/tokens/" ++ address_hash ++ "/instances/" ++ instance_id ++ "/holders") ([])

/-- Embeds `DuckChainAPI.get_token_instance_transfers_count` (server.py lines 183-185). -/
def DuckChainAPI.get_token_instance_transfers_count (api : DuckChainAPI) (u : Upstream) (address_hash : String) (instance_id : String) : Except ApiError Json :=
  api.make_request u ("/tokens/" ++ address_hash ++ "/instances/" ++ instance_id ++ "/transfers-count") ([])

/-- Embeds `DuckChainAPI.refetch_token_instance_metadata` (server.py lines 187-189). -/
def DuckChainAPI.refetch_token_instance_metadata (api : DuckChainAPI) (u : Upstream) (address_hash : String) (instance_id : String) : Except ApiError Json :=
  api.make_request u ("/tokens/" ++ address_hash ++ "/instances/" ++ instance_id ++ "/refetch-metadata") ([])

/-- Embeds `DuckChainAPI.get_smart_contracts` (server.py lines 192-194). -/
def DuckChainAPI.get_smart_contracts (api : DuckChainAPI) (u : Upstream) : Except ApiError Json :=
  api.make_request u ("/smart-contracts") ([])

/-- Embeds `DuckChainAPI.get_smart_contracts_counters` (server.py lines 196-198). -/
def DuckChainAPI.get_smart_contracts_counters (api : DuckChainAPI) (u : Upstream) : Except ApiError Json :=
  api.make_request u ("/smart-contracts/counters") ([])

/-- Embeds `DuckChainAPI.get_smart_contract` (server.py lines 200-202). -/
def DuckChainAPI.get_smart_contract (api : DuckChainAPI) (u : Upstream) (address_hash : String) : Except ApiError Json :=
  api.make_request u ("/smart-contracts/" ++ address_hash) ([])

/-- Embeds `DuckChainAPI.get_main_page_transactions` (server.py lines 204-206). -/
def DuckChainAPI.get_main_page_transactions (api : DuckChainAPI) (u : Upstream) : Except ApiError Json :=
  api.make_request u ("/main-page/transactions") ([])

/-- Embeds `DuckChainAPI.get_main_page_blocks` (server.py lines 208-210). -/
def DuckChainAPI.get_main_page_blocks (api : DuckChainAPI) (u : Upstream) : Except ApiError Json :=
  api.make_request u ("/main-page/blocks") ([])

/-- Embeds `DuckChainAPI.get_indexing_status` (server.py lines 212-214). -/
def DuckChainAPI.get_indexing_status (api : DuckChainAPI) (u : Upstream) : Except ApiError Json :=
  api.make_request u ("/main-page/indexing-status") ([])

/-- Embeds `DuckChainAPI.get_stats` (server.py lines 216-218). -/
def DuckChainAPI.get_stats (api : DuckChainAPI) (u : Upstream) : Except ApiError Json :=
  api.make_request u ("/stats") ([])

/-- Embeds `DuckChainAPI.get_transactions_chart` (server.py lines 220-222). -/
def DuckChainAPI.get_transactions_chart (api : DuckChainAPI) (u : Upstream) : Except ApiError Json :=
  api.make_request u ("/stats/charts/transactions") ([])

/-- Embeds `DuckChainAPI.get_market_chart` (server.py lines 224-226). -/
def DuckChainAPI.get_market_chart (api : DuckChainAPI) (u : Upstream) : Except ApiError Json :=
  api.make_request u ("/stats/charts/market") ([])

/-- Embeds `DuckChainAPI.get_transaction` (server.py lines 228-230). -/
def DuckChainAPI.get_transaction (api : DuckChainAPI) (u : Upstream) (transaction_hash : String) : Except ApiError Json :=
  api.make_request u ("/transactions/" ++ transaction_hash) ([])

/-- Embeds `DuckChainAPI.get_transaction_token_transfers` (server.py lines 232-241). -/
def DuckChainAPI.get_transaction_token_transfers (api : DuckChainAPI) (u : Upstream) (transaction_hash : String) (type : Option String) : Except ApiError Json :=
  api.make_request u ("/transactions/" ++ transaction_hash ++ "/token-transfers") (optQueryParam "type" type)

/-- Embeds `DuckChainAPI.get_transaction_internal_transactions` (server.py lines 243-245). -/
def DuckChainAPI.get_transaction_internal_transactions (api : DuckChainAPI) (u : Upstream) (transaction_hash : String) : Except ApiError Json :=
  api.make_request u ("/transactions/" ++ transaction_hash ++ "/internal-transactions") ([])

/-- Embeds `DuckChainAPI.get_transaction_logs` (server.py lines 247-249). -/
def DuckChainAPI.get_transaction_logs (api : DuckChainAPI) (u : Upstream) (transaction_hash : String) : Except ApiError Json :=
  api.make_request u ("/transactions/" ++ transaction_hash ++ "/logs") ([])

/-- Embeds `DuckChainAPI.get_transaction_raw_trace` (server.py lines 251-253). -/
def DuckChainAPI.get_transaction_raw_trace (api : DuckChainAPI) (u : Upstream) (transaction_hash : String) : Except ApiError Json :=
  api.make_request u ("/transactions/" ++ transaction_hash ++ "/raw-trace") ([])

/-- Embeds `DuckChainAPI.get_transaction_state_changes` (server.py lines 255-257). -/
def DuckChainAPI.get_transaction_state_changes (api : DuckChainAPI) (u : Upstream) (transaction_hash : String) : Except ApiError Json :=
  api.make_request u ("/transactions/" ++ transaction_hash ++ "/state-changes") ([])

/-- Embeds `DuckChainAPI.get_transaction_summary` (server.py lines 259-261). -/
def DuckChainAPI.get_transaction_summary (api : DuckChainAPI) (u : Upstream) (transaction_hash : String) : Except ApiError Json :=
  api.make_request u ("/transactions/" ++ transaction_hash ++ "/summary") ([])

namespace Tools

/-- Embeds the `search_blockchain` tool handler of `create_server` (server.py lines 285-296). -/
def search_blockchain (query : String) (ctx : Option Context) (st : Option DuckChainAPI) (u : Upstream) :
    String × Option DuckChainAPI :=
  let r := get_api_client ctx st
  (toolResult (r.1.search u query) (fun result => "Search results for \x27" ++ query ++ "\x27:\n" ++ result.render) "searching blockchain", r.2)

/-- Embeds the `check_search_redirect` tool handler of `create_server` (server.py lines 298-309). -/
def check_search_redirect (query : String) (ctx : Option Context) (st : Option DuckChainAPI) (u : Upstream) :
    String × Option DuckChainAPI :=
  let r := get_api_client ctx st
  (toolResult (r.1.search_redirect u query) (fun result => "Search redirect check for \x27" ++ query ++ "\x27:\n" ++ result.render) "checking search redirect", r.2)

/-- Embeds the `get_transactions` tool handler of `create_server` (server.py lines 312-325). -/
def get_transactions (filter_type : Option String) (transaction_type : Option String) (method : Option String) (ctx : Option Context) (st : Option DuckChainAPI) (u : Upstream) :
    String × Option DuckChainAPI :=
  let r := get_api_client ctx st
  (toolResult (r.1.get_transactions u filter_type transaction_type method) (fun result => "Transactions:\n" ++ result.render) "getting transactions", r.2)

/-- Embeds the `get_transaction_details` tool handler of `create_server` (server.py lines 327-338). -/
def get_transaction_details (transaction_hash : String) (ctx : Option Context) (st : Option DuckChainAPI) (u : Upstream) :
    String × Option DuckChainAPI :=
  let r := get_api_client ctx st
  (toolResult (r.1.get_transaction u transaction_hash) (fun result => "Transaction details for " ++ transaction_hash ++ ":\n" ++ result.render) "getting transaction details", r.2)

/-- Embeds the `get_transaction_token_transfers` tool handler of `create_server` (server.py lines 340-352). -/
def get_transaction_token_transfers (transaction_hash : String) (token_type : Option String) (ctx : Option Context) (st : Option DuckChainAPI) (u : Upstream) :
    String × Option DuckChainAPI :=
  let r := get_api_client ctx st
  (toolResult (r.1.get_transaction_token_transfers u transaction_hash token_type) (fun result => "Token transfers for transaction " ++ transaction_hash ++ ":\n" ++ result.render) "getting transaction token transfers", r.2)

/-- Embeds the `get_transaction_internal_transactions` tool handler of `create_server` (server.py lines 354-365). -/
def get_transaction_internal_transactions (transaction_hash : String) (ctx : Option Context) (st : Option DuckChainAPI) (u : Upstream) :
    String × Option DuckChainAPI :=
  let r := get_api_client ctx st
  (toolResult (r.1.get_transaction_internal_transactions u transaction_hash) (fun result => "Internal transactions for transaction " ++ transaction_hash ++ ":\n" ++ result.render) "getting transaction internal transactions", r.2)

/-- Embeds the `get_transaction_logs` tool handler of `create_server` (server.py lines 367-378). -/
def get_transaction_logs (transaction_hash : String) (ctx : Option Context) (st : Option DuckChainAPI) (u : Upstream) :
    String × Option DuckChainAPI :=
  let r := get_api_client ctx st
  (toolResult (r.1.get_transaction_logs u transaction_hash) (fun result => "Logs for transaction " ++ transaction_hash ++ ":\n" ++ result.render) "getting transaction logs", r.2)

/-- Embeds the `get_transaction_raw_trace` tool handler of `create_server` (server.py lines 380-391). -/
def get_transaction_raw_trace (transaction_hash : String) (ctx : Option Context) (st : Option DuckChainAPI) (u : Upstream) :
    String × Option DuckChainAPI :=
  let r := get_api_client ctx st
  (toolResult (r.1.get_transaction_raw_trace u transaction_hash) (fun result => "Raw trace for transaction " ++ transaction_hash ++ ":\n" ++ result.render) "getting transaction raw trace", r.2)

/-- Embeds the `get_transaction_state_changes` tool handler of `create_server` (server.py lines 393-404). -/
def get_transaction_state_changes (transaction_hash : String) (ctx : Option Context) (st : Option DuckChainAPI) (u : Upstream) :
    String × Option DuckChainAPI :=
  let r := get_api_client ctx st
  (toolResult (r.1.get_transaction_state_changes u transaction_hash) (fun result => "State changes for transaction " ++ transaction_hash ++ ":\n" ++ result.render) "getting transaction state changes", r.2)

/-- Embeds the `get_transaction_summary` tool handler of `create_server` (server.py lines 406-417). -/
def get_transaction_summary (transaction_hash : String) (ctx : Option Context) (st : Option DuckChainAPI) (u : Upstream) :
    String × Option DuckChainAPI :=
  let r := get_api_client ctx st
  (toolResult (r.1.get_transaction_summary u transaction_hash) (fun result => "Summary for transaction " ++ transaction_hash ++ ":\n" ++ result.render) "getting transaction summary", r.2)

/-- Embeds the `get_blocks` tool handler of `create_server` (server.py lines 420-431). -/
def get_blocks (block_type : Option String) (ctx : Option Context) (st : Option DuckChainAPI) (u : Upstream) :
    String × Option DuckChainAPI :=
  let r := get_api_client ctx st
  (toolResult (r.1.get_blocks u block_type) (fun result => "Blocks:\n" ++ result.render) "getting blocks", r.2)

/-- Embeds the `get_block_details` tool handler of `create_server` (server.py lines 433-444). -/
def get_block_details (block_number_or_hash : String) (ctx : Option Context) (st : Option DuckChainAPI) (u : Upstream) :
    String × Option DuckChainAPI :=
  let r := get_api_client ctx st
  (toolResult (r.1.get_block u block_number_or_hash) (fun result => "Block details for " ++ block_number_or_hash ++ ":\n" ++ result.render) "getting block details", r.2)

/-- Embeds the `get_block_transactions` tool handler of `create_server` (server.py lines 446-457). -/
def get_block_transactions (block_number_or_hash : String) (ctx : Option Context) (st : Option DuckChainAPI) (u : Upstream) :
    String × Option DuckChainAPI :=
  let r := get_api_client ctx st
  (toolResult (r.1.get_block_transactions u block_number_or_hash) (fun result => "Transactions for block " ++ block_number_or_hash ++ ":\n" ++ result.render) "getting block transactions", r.2)

/-- Embeds the `get_block_withdrawals` tool handler of `create_server` (server.py lines 459-470). -/
def get_block_withdrawals (block_number_or_hash : String) (ctx : Option Context) (st : Option DuckChainAPI) (u : Upstream) :
    String × Option DuckChainAPI :=
  let r := get_api_client ctx st
  (toolResult (r.1.get_block_withdrawals u block_number_or_hash) (fun result => "Withdrawals for block " ++ block_number_or_hash ++ ":\n" ++ result.render) "getting block withdrawals", r.2)

/-- Embeds the `get_token_transfers` tool handler of `create_server` (server.py lines 473-481). -/
def get_token_transfers (ctx : Option Context) (st : Option DuckChainAPI) (u : Upstream) :
    String × Option DuckChainAPI :=
  let r := get_api_client ctx st
  (toolResult (r.1.get_token_transfers u) (fun result => "Token transfers:\n" ++ result.render) "getting token transfers", r.2)

/-- Embeds the `get_internal_transactions` tool handler of `create_server` (server.py lines 484-492). -/
def get_internal_transactions (ctx : Option Context) (st : Option DuckChainAPI) (u : Upstream) :
    String × Option DuckChainAPI :=
  let r := get_api_client ctx st
  (toolResult (r.1.get_internal_transactions u) (fun result => "Internal transactions:\n" ++ result.render) "getting internal transactions", r.2)

/-- Embeds the `get_main_page_transactions` tool handler of `create_server` (server.py lines 495-503). -/
def get_main_page_transactions (ctx : Option Context) (st : Option DuckChainAPI) (u : Upstream) :
    String × Option DuckChainAPI :=
  let r := get_api_client ctx st
  (toolResult (r.1.get_main_page_transactions u) (fun result => "Main page transactions:\n" ++ result.render) "getting main page transactions", r.2)

/-- Embeds the `get_main_page_blocks` tool handler of `create_server` (server.py lines 505-513). -/
def get_main_page_blocks (ctx : Option Context) (st : Option DuckChainAPI) (u : Upstream) :
    String × Option DuckChainAPI :=
  let r := get_api_client ctx st
  (toolResult (r.1.get_main_page_blocks u) (fun result => "Main page blocks:\n" ++ result.render) "getting main page blocks", r.2)

/-- Embeds the `get_indexing_status` tool handler of `create_server` (server.py lines 515-523). -/
def get_indexing_status (ctx : Option Context) (st : Option DuckChainAPI) (u : Upstream) :
    String × Option DuckChainAPI :=
  let r := get_api_client ctx st
  (toolResult (r.1.get_indexing_status u) (fun result => "Indexing status:\n" ++ result.render) "getting indexing status", r.2)

/-- Embeds the `get_blockchain_stats` tool handler of `create_server` (server.py lines 526-534). -/
def get_blockchain_stats (ctx : Option Context) (st : Option DuckChainAPI) (u : Upstream) :
    String × Option DuckChainAPI :=
  let r := get_api_client ctx st
  (toolResult (r.1.get_stats u) (fun result => "Blockchain statistics:\n" ++ result.render) "getting blockchain stats", r.2)

/-- Embeds the `get_transactions_chart` tool handler of `create_server` (server.py lines 536-544). -/
def get_transactions_chart (ctx : Option Context) (st : Option DuckChainAPI) (u : Upstream) :
    String × Option DuckChainAPI :=
  let r := get_api_client ctx st
  (toolResult (r.1.get_transactions_chart u) (fun result => "Transactions chart data:\n" ++ result.render) "getting transactions chart", r.2)

/-- Embeds the `get_market_chart` tool handler of `create_server` (server.py lines 546-554). -/
def get_market_chart (ctx : Option Context) (st : Option DuckChainAPI) (u : Upstream) :
    String × Option DuckChainAPI :=
  let r := get_api_client ctx st
  (toolResult (r.1.get_market_chart u) (fun result => "Market chart data:\n" ++ result.render) "getting market chart", r.2)

/-- Embeds the `get_addresses_list` tool handler of `create_server` (server.py lines 557-565). -/
def get_addresses_list (ctx : Option Context) (st : Option DuckChainAPI) (u : Upstream) :
    String × Option DuckChainAPI :=
  let r := get_api_client ctx st
  (toolResult (r.1.get_addresses u) (fun result => "Addresses list:\n" ++ result.render) "getting addresses list", r.2)

/-- Embeds the `get_address_details` tool handler of `create_server` (server.py lines 567-578). -/
def get_address_details (address_hash : String) (ctx : Option Context) (st : Option DuckChainAPI) (u : Upstream) :
    String × Option DuckChainAPI :=
  let r := get_api_client ctx st
  (toolResult (r.1.get_address u address_hash) (fun result => "Address details for " ++ address_hash ++ ":\n" ++ result.render) "getting address details", r.2)

/-- Embeds the `get_address_counters` tool handler of `create_server` (server.py lines 580-591). -/
def get_address_counters (address_hash : String) (ctx : Option Context) (st : Option DuckChainAPI) (u : Upstream) :
    String × Option DuckChainAPI :=
  let r := get_api_client ctx st
  (toolResult (r.1.get_address_counters u address_hash) (fun result => "Address counters for " ++ address_hash ++ ":\n" ++ result.render) "getting address counters", r.2)

/-- Embeds the `get_address_transactions` tool handler of `create_server` (server.py lines 593-604). -/
def get_address_transactions (address_hash : String) (ctx : Option Context) (st : Option DuckChainAPI) (u : Upstream) :
    String × Option DuckChainAPI :=
  let r := get_api_client ctx st
  (toolResult (r.1.get_address_transactions u address_hash) (fun result => "Transactions for address " ++ address_hash ++ ":\n" ++ result.render) "getting address transactions", r.2)

/-- Embeds the `get_address_token_transfers` tool handler of `create_server` (server.py lines 606-617). -/
def get_address_token_transfers (address_hash : String) (ctx : Option Context) (st : Option DuckChainAPI) (u : Upstream) :
    String × Option DuckChainAPI :=
  let r := get_api_client ctx st
  (toolResult (r.1.get_address_token_transfers u address_hash) (fun result => "Token transfers for address " ++ address_hash ++ ":\n" ++ result.render) "getting address token transfers", r.2)

/-- Embeds the `get_address_internal_transactions` tool handler of `create_server` (server.py lines 619-630). -/
def get_address_internal_transactions (address_hash : String) (ctx : Option Context) (st : Option DuckChainAPI) (u : Upstream) :
    String × Option DuckChainAPI :=
  let r := get_api_client ctx st
  (toolResult (r.1.get_address_internal_transactions u address_hash) (fun result => "Internal transactions for address " ++ address_hash ++ ":\n" ++ result.render) "getting address internal transactions", r.2)

/-- Embeds the `get_address_logs` tool handler of `create_server` (server.py lines 632-643). -/
def get_address_logs (address_hash : String) (ctx : Option Context) (st : Option DuckChainAPI) (u : Upstream) :
    String × Option DuckChainAPI :=
  let r := get_api_client ctx st
  (toolResult (r.1.get_address_logs u address_hash) (fun result => "Logs for address " ++ address_hash ++ ":\n" ++ result.render) "getting address logs", r.2)

/-- Embeds the `get_address_blocks_validated` tool handler of `create_server` (server.py lines 645-656). -/
def get_address_blocks_validated (address_hash : String) (ctx : Option Context) (st : Option DuckChainAPI) (u : Upstream) :
    String × Option DuckChainAPI :=
  let r := get_api_client ctx st
  (toolResult (r.1.get_address_blocks_validated u address_hash) (fun result => "Blocks validated by address " ++ address_hash ++ ":\n" ++ result.render) "getting address blocks validated", r.2)

/-- Embeds the `get_address_token_balances` tool handler of `create_server` (server.py lines 658-669). -/
def get_address_token_balances (address_hash : String) (ctx : Option Context) (st : Option DuckChainAPI) (u : Upstream) :
    String × Option DuckChainAPI :=
  let r := get_api_client ctx st
  (toolResult (r.1.get_address_token_balances u address_hash) (fun result => "Token balances for address " ++ address_hash ++ ":\n" ++ result.render) "getting address token balances", r.2)

/-- Embeds the `get_address_tokens` tool handler of `create_server` (server.py lines 671-682). -/
def get_address_tokens (address_hash : String) (ctx : Option Context) (st : Option DuckChainAPI) (u : Upstream) :
    String × Option DuckChainAPI :=
  let r := get_api_client ctx st
  (toolResult (r.1.get_address_tokens u address_hash) (fun result => "Tokens for address " ++ address_hash ++ ":\n" ++ result.render) "getting address tokens", r.2)

/-- Embeds the `get_address_coin_balance_history` tool handler of `create_server` (server.py lines 684-695). -/
def get_address_coin_balance_history (address_hash : String) (ctx : Option Context) (st : Option DuckChainAPI) (u : Upstream) :
    String × Option DuckChainAPI :=
  let r := get_api_client ctx st
  (toolResult (r.1.get_address_coin_balance_history u address_hash) (fun result => "Coin balance history for address " ++ address_hash ++ ":\n" ++ result.render) "getting address coin balance history", r.2)

/-- Embeds the `get_address_coin_balance_history_by_day` tool handler of `create_server` (server.py lines 697-708). -/
def get_address_coin_balance_history_by_day (address_hash : String) (ctx : Option Context) (st : Option DuckChainAPI) (u : Upstream) :
    String × Option DuckChainAPI :=
  let r := get_api_client ctx st
  (toolResult (r.1.get_address_coin_balance_history_by_day u address_hash) (fun result => "Coin balance history by day for address " ++ address_hash ++ ":\n" ++ result.render) "getting address coin balance history by day", r.2)

/-- Embeds the `get_address_withdrawals` tool handler of `create_server` (server.py lines 710-721). -/
def get_address_withdrawals (address_hash : String) (ctx : Option Context) (st : Option DuckChainAPI) (u : Upstream) :
    String × Option DuckChainAPI :=
  let r := get_api_client ctx st
  (toolResult (r.1.get_address_withdrawals u address_hash) (fun result => "Withdrawals for address " ++ address_hash ++ ":\n" ++ result.render) "getting address withdrawals", r.2)

/-- Embeds the `get_address_nft` tool handler of `create_server` (server.py lines 723-734). -/
def get_address_nft (address_hash : String) (ctx : Option Context) (st : Option DuckChainAPI) (u : Upstream) :
    String × Option DuckChainAPI :=
  let r := get_api_client ctx st
  (toolResult (r.1.get_address_nft u address_hash) (fun result => "NFT for address " ++ address_hash ++ ":\n" ++ result.render) "getting address NFT", r.2)

/-- Embeds the `get_address_nft_collections` tool handler of `create_server` (server.py lines 736-747). -/
def get_address_nft_collections (address_hash : String) (ctx : Option Context) (st : Option DuckChainAPI) (u : Upstream) :
    String × Option DuckChainAPI :=
  let r := get_api_client ctx st
  (toolResult (r.1.get_address_nft_collections u address_hash) (fun result => "NFT collections for address " ++ address_hash ++ ":\n" ++ result.render) "getting address NFT collections", r.2)

/-- Embeds the `get_tokens_list` tool handler of `create_server` (server.py lines 750-758). -/
def get_tokens_list (ctx : Option Context) (st : Option DuckChainAPI) (u : Upstream) :
    String × Option DuckChainAPI :=
  let r := get_api_client ctx st
  (toolResult (r.1.get_tokens u) (fun result => "Tokens list:\n" ++ result.render) "getting tokens list", r.2)

/-- Embeds the `get_token_details` tool handler of `create_server` (server.py lines 760-771). -/
def get_token_details (address_hash : String) (ctx : Option Context) (st : Option DuckChainAPI) (u : Upstream) :
    String × Option DuckChainAPI :=
  let r := get_api_client ctx st
  (toolResult (r.1.get_token u address_hash) (fun result => "Token details for " ++ address_hash ++ ":\n" ++ result.render) "getting token details", r.2)

/-- Embeds the `get_token_transfers_by_token` tool handler of `create_server` (server.py lines 773-784). -/
def get_token_transfers_by_token (address_hash : String) (ctx : Option Context) (st : Option DuckChainAPI) (u : Upstream) :
    String × Option DuckChainAPI :=
  let r := get_api_client ctx st
  (toolResult (r.1.get_token_transfers_by_token u address_hash) (fun result => "Transfers for token " ++ address_hash ++ ":\n" ++ result.render) "getting token transfers", r.2)

/-- Embeds the `get_token_holders` tool handler of `create_server` (server.py lines 786-797). -/
def get_token_holders (address_hash : String) (ctx : Option Context) (st : Option DuckChainAPI) (u : Upstream) :
    String × Option DuckChainAPI :=
  let r := get_api_client ctx st
  (toolResult (r.1.get_token_holders u address_hash) (fun result => "Holders for token " ++ address_hash ++ ":\n" ++ result.render) "getting token holders", r.2)

/-- Embeds the `get_token_counters` tool handler of `create_server` (server.py lines 799-810). -/
def get_token_counters (address_hash : String) (ctx : Option Context) (st : Option DuckChainAPI) (u : Upstream) :
    String × Option DuckChainAPI :=
  let r := get_api_client ctx st
  (toolResult (r.1.get_token_counters u address_hash) (fun result => "Counters for token " ++ address_hash ++ ":\n" ++ result.render) "getting token counters", r.2)

/-- Embeds the `get_token_instances` tool handler of `create_server` (server.py lines 812-823). -/
def get_token_instances (address_hash : String) (ctx : Option Context) (st : Option DuckChainAPI) (u : Upstream) :
    String × Option DuckChainAPI :=
  let r := get_api_client ctx st
  (toolResult (r.1.get_token_instances u address_hash) (fun result => "Instances for token " ++ address_hash ++ ":\n" ++ result.render) "getting token instances", r.2)

/-- Embeds the `get_token_instance_details` tool handler of `create_server` (server.py lines 825-837). -/
def get_token_instance_details (address_hash : String) (instance_id : String) (ctx : Option Context) (st : Option DuckChainAPI) (u : Upstream) :
    String × Option DuckChainAPI :=
  let r := get_api_client ctx st
  (toolResult (r.1.get_token_instance u address_hash instance_id) (fun result => "Token instance details for " ++ address_hash ++ "/" ++ instance_id ++ ":\n" ++ result.render) "getting token instance details", r.2)

/-- Embeds the `get_token_instance_transfers` tool handler of `create_server` (server.py lines 839-851). -/
def get_token_instance_transfers (address_hash : String) (instance_id : String) (ctx : Option Context) (st : Option DuckChainAPI) (u : Upstream) :
    String × Option DuckChainAPI :=
  let r := get_api_client ctx st
  (toolResult (r.1.get_token_instance_transfers u address_hash instance_id) (fun result => "Transfers for token instance " ++ address_hash ++ "/" ++ instance_id ++ ":\n" ++ result.render) "getting token instance transfers", r.2)

/-- Embeds the `get_token_instance_holders` tool handler of `create_server` (server.py lines 853-865). -/
def get_token_instance_holders (address_hash : String) (instance_id : String) (ctx : Option Context) (st : Option DuckChainAPI) (u : Upstream) :
    String × Option DuckChainAPI :=
  let r := get_api_client ctx st
  (toolResult (r.1.get_token_instance_holders u address_hash instance_id) (fun result => "Holders for token instance " ++ address_hash ++ "/" ++ instance_id ++ ":\n" ++ result.render) "getting token instance holders", r.2)

/-- Embeds the `get_token_instance_transfers_count` tool handler of `create_server` (server.py lines 867-879). -/
def get_token_instance_transfers_count (address_hash : String) (instance_id : String) (ctx : Option Context) (st : Option DuckChainAPI) (u : Upstream) :
    String × Option DuckChainAPI :=
  let r := get_api_client ctx st
  (toolResult (r.1.get_token_instance_transfers_count u address_hash instance_id) (fun result => "Transfers count for token instance " ++ address_hash ++ "/" ++ instance_id ++ ":\n" ++ result.render) "getting token instance transfers count", r.2)

/-- Embeds the `refetch_token_instance_metadata_tool` tool handler of `create_server` (server.py lines 881-893). -/
def refetch_token_instance_metadata_tool (address_hash : String) (instance_id : String) (ctx : Option Context) (st : Option DuckChainAPI) (u : Upstream) :
    String × Option DuckChainAPI :=
  let r := get_api_client ctx st
  (toolResult (r.1.refetch_token_instance_metadata u address_hash instance_id) (fun result => "Metadata refetch result for token instance " ++ address_hash ++ "/" ++ instance_id ++ ":\n" ++ result.render) "refetching token instance metadata", r.2)

/-- Embeds the `get_smart_contracts_list` tool handler of `create_server` (server.py lines 896-904). -/
def get_smart_contracts_list (ctx : Option Context) (st : Option DuckChainAPI) (u : Upstream) :
    String × Option DuckChainAPI :=
  let r := get_api_client ctx st
  (toolResult (r.1.get_smart_contracts u) (fun result => "Smart contracts list:\n" ++ result.render) "getting smart contracts list", r.2)

/-- Embeds the `get_smart_contracts_counters` tool handler of `create_server` (server.py lines 906-914). -/
def get_smart_contracts_counters (ctx : Option Context) (st : Option DuckChainAPI) (u : Upstream) :
    String × Option DuckChainAPI :=
  let r := get_api_client ctx st
  (toolResult (r.1.get_smart_contracts_counters u) (fun result => "Smart contracts counters:\n" ++ result.render) "getting smart contracts counters", r.2)

/-- Embeds the `get_smart_contract_details` tool handler of `create_server` (server.py lines 916-927). -/
def get_smart_contract_details (address_hash : String) (ctx : Option Context) (st : Option DuckChainAPI) (u : Upstream) :
    String × Option DuckChainAPI :=
  let r := get_api_client ctx st
  (toolResult (r.1.get_smart_contract u address_hash) (fun result => "Smart contract details for " ++ address_hash ++ ":\n" ++ result.render) "getting smart contract details", r.2)

end Tools


/-- One message of a generated prompt, the embedding of the
`dict(role=..., content=...)` entries returned by the prompt handlers. -/
structure PromptMessage where
  role : String
  content : String
deriving DecidableEq, Repr

namespace Resources

/-- Embeds the `api_documentation` resource handler (server.py lines 930-1009).
The handler is defined inside the `create_server` closure, where the
`nonlocal api_client` state and the network are in scope; that environment is
made explicit as the two arguments, and the body - faithfully to the source,
which references neither - ignores both and returns the fixed text. -/
def api_documentation (st : Option DuckChainAPI) (u : Upstream) : String :=
  "
        DuckChain MCP Server - BlockScout API v2 Integration
        
        Available Tools:
        
        Search:
        - search_blockchain: Search for addresses, tokens, blocks, or transactions
        - check_search_redirect: Check if search should redirect to specific page
        
        Transactions:
        - get_transactions: Get transactions with filtering options
        - get_transaction_details: Get detailed transaction information
        - get_transaction_token_transfers: Get token transfers for a transaction
        - get_transaction_internal_transactions: Get internal transactions for a transaction
        - get_transaction_logs: Get logs for a transaction
        - get_transaction_raw_trace: Get raw trace for a transaction
        - get_transaction_state_changes: Get state changes for a transaction
        - get_transaction_summary: Get summary for a transaction
        
        Blocks:
        - get_blocks: Get blocks with optional type filtering
        - get_block_details: Get specific block details by number or hash
        - get_block_transactions: Get transactions for a specific block
        - get_block_withdrawals: Get withdrawals for a specific block
        
        Address Operations:
        - get_addresses_list: Get addresses list
        - get_address_details: Get address details by hash
        - get_address_counters: Get address counters
        - get_address_transactions: Get transactions for a specific address
        - get_address_token_transfers: Get token transfers for a specific address
        - get_address_internal_transactions: Get internal transactions for a specific address
        - get_address_logs: Get logs for a specific address
        - get_address_blocks_validated: Get blocks validated by a specific address
        - get_address_token_balances: Get token balances for a specific address
        - get_address_tokens: Get tokens for a specific address
        - get_address_coin_balance_history: Get coin balance history for a specific address
        - get_address_coin_balance_history_by_day: Get coin balance history by day for a specific address
        - get_address_withdrawals: Get withdrawals for a specific address
        - get_address_nft: Get NFT for a specific address
        - get_address_nft_collections: Get NFT collections for a specific address
        
        Token Operations:
        - get_token_transfers: Get all token transfers
        - get_tokens_list: Get tokens list
        - get_token_details: Get token details by address hash
        - get_token_transfers_by_token: Get transfers for a specific token
        - get_token_holders: Get holders for a specific token
        - get_token_counters: Get counters for a specific token
        - get_token_instances: Get instances for a specific token
        - get_token_instance_details: Get specific token instance details
        - get_token_instance_transfers: Get transfers for a specific token instance
        - get_token_instance_holders: Get holders for a specific token instance
        - get_token_instance_transfers_count: Get transfers count for a specific token instance
        - refetch_token_instance_metadata_tool: Refetch metadata for a specific token instance
        
        Smart Contract Operations:
        - get_smart_contracts_list: Get smart contracts list
        - get_smart_contracts_counters: Get smart contracts counters
        - get_smart_contract_details: Get smart contract details by address hash
        
        Internal Operations:
        - get_internal_transactions: Get internal transactions
        
        Main Page Data:
        - get_main_page_transactions: Get transactions for main page
        - get_main_page_blocks: Get blocks for main page
        - get_indexing_status: Get blockchain indexing status
        
        Statistics:
        - get_blockchain_stats: Get blockchain statistics
        - get_transactions_chart: Get transaction chart data
        - get_market_chart: Get market chart data
        
         Configuration:
         - No configuration required - uses default settings
        "

/-- Embeds the `supported_chains` resource handler (server.py lines 1011-1028);
the closure environment is explicit as in `api_documentation` and is ignored. -/
def supported_chains (st : Option DuckChainAPI) (u : Upstream) : String :=
  "
        Supported BlockScout Networks:
        
        - Ethereum Mainnet (blockscout.com/eth/mainnet)
        - Ethereum Goerli (blockscout.com/eth/goerli)
        - Polygon (blockscout.com/matic/mainnet)
        - BSC (blockscout.com/bsc/mainnet)
        - Arbitrum (blockscout.com/arbitrum/mainnet)
        - Optimism (blockscout.com/optimism/mainnet)
        - Avalanche (blockscout.com/avax/mainnet)
        - Fantom (blockscout.com/ftm/mainnet)
        - Gnosis Chain (blockscout.com/gnosis/mainnet)
        - POA Core (blockscout.com/poa/core) - Default
        
        "

end Resources

namespace Prompts

/-- Embeds the `analyze_transaction` prompt handler (server.py lines
1031-1039); the closure environment is explicit and ignored. -/
def analyze_transaction (st : Option DuckChainAPI) (u : Upstream)
    (transaction_hash : String) : List PromptMessage :=
  [ { role := "user"
    , content := "Analyze this blockchain transaction: " ++ transaction_hash ++
        ". Provide details about the transaction, its purpose, gas usage, and any token transfers involved." } ]

/-- Embeds the `explore_address` prompt handler (server.py lines 1041-1049);
the closure environment is explicit and ignored. -/
def explore_address (st : Option DuckChainAPI) (u : Upstream)
    (address : String) : List PromptMessage :=
  [ { role := "user"
    , content := "Explore this blockchain address: " ++ address ++
        ". Find information about its transactions, token holdings, and activity patterns." } ]

/-- Embeds the `research_token` prompt handler (server.py lines 1051-1059);
the closure environment is explicit and ignored. -/
def research_token (st : Option DuckChainAPI) (u : Upstream)
    (token_symbol : String) : List PromptMessage :=
  [ { role := "user"
    , content := "Research the token " ++ token_symbol ++
        ". Find its contract address, market data, holders, and recent activity." } ]

end Prompts

/-- Modelled from the spec: the constructor configuration the spec describes
for the API client - one recognized numeric option, the request timeout in
seconds, defaulting to 30 when not supplied.  The source constructor
(`DuckChainAPI.init`) takes no such option; this definition exists to be
compared with it. -/
def initSpecTimeout : Option Nat → Nat
  | none => 30
  | some t => t

/-- A network on which every request fails at the transport level. -/
def errUpstream : Upstream := fun _ => .transportError "connection refused"

/-- A network on which every request succeeds with status 200 and the JSON
body `[]`. -/
def okUpstream : Upstream := fun _ => .response 200 "[]" (some (Json.arr []))

/-- A network on which every request draws an HTTP 404 with a plain-text
body (not valid JSON). -/
def notFoundUpstream : Upstream := fun _ => .response 404 "Block not found" none

/-- A spy network: every request fails at the transport level with a message
that serialises the request itself (URL followed by the query parameters),
so equalities about tool results on this network pin down exactly which
request the tool sent. -/
def spyUpstream : Upstream := fun r =>
  .transportError (r.params.foldl (fun acc p => acc ++ "&" ++ p.1 ++ "=" ++ p.2) r.url)

/-- The clients returned by a single-threaded sequence of `get_api_client`
calls (one per tool invocation, each passing its own context), starting from
the given singleton state: each call returns a client and the next call runs
in the state the previous one left. -/
def runClients : List (Option Context) → Option DuckChainAPI → List DuckChainAPI
  | [], _ => []
  | ctx :: rest, st =>
    (Tools.get_api_client ctx st).1 :: runClients rest (Tools.get_api_client ctx st).2

/-- Whether one `get_api_client` call executes the `DuckChainAPI()`
construction: exactly when the stored singleton is still `None`
(server.py lines 280-281). -/
def constructedHere : Option DuckChainAPI → Nat
  | none => 1
  | some _ => 0

/-- How many `DuckChainAPI()` constructions a single-threaded sequence of
`get_api_client` calls performs, starting from the given singleton state. -/
def countConstructions : List (Option Context) → Option DuckChainAPI → Nat
  | [], _ => 0
  | ctx :: rest, st => constructedHere st + countConstructions rest (Tools.get_api_client ctx st).2

/-- A tool handler maps a failed API-client call to its error string. -/
theorem toolResult_error (call : Except ApiError Json) (success : Json → String)
    (errLabel : String) (e : ApiError) (h : call = .error e) :
    Tools.toolResult call success errLabel = "Error " ++ errLabel ++ ": " ++ e.message := by
  rw [h]
  rfl

/-- A tool handler maps a successful API-client call to its success string. -/
theorem toolResult_ok (call : Except ApiError Json) (success : Json → String)
    (errLabel : String) (j : Json) (h : call = .ok j) :
    Tools.toolResult call success errLabel = success j := by
  rw [h]
  rfl

/-- A 2xx response whose body decodes as JSON yields the decoded value. -/
theorem processResponse_success (status : Nat) (body : String) (j : Json)
    (h : 200 ≤ status ∧ status ≤ 299) :
    processResponse (.response status body (some j)) = Except.ok j := by
  show (if 200 ≤ status ∧ status ≤ 299 then Except.ok j
    else Except.error (ApiError.httpStatus status body)) = Except.ok j
  rw [if_pos h]

/-- A non-2xx response raises the HTTP-status error carrying the status code
and the response body. -/
theorem processResponse_nonsuccess (status : Nat) (body : String) (js : Option Json)
    (h : ¬ (200 ≤ status ∧ status ≤ 299)) :
    processResponse (.response status body js) = Except.error (ApiError.httpStatus status body) := by
  show (if 200 ≤ status ∧ status ≤ 299 then
      (match js with
        | some j => Except.ok j
        | none => Except.error (ApiError.decode body))
    else Except.error (ApiError.httpStatus status body)) =
      Except.error (ApiError.httpStatus status body)
  rw [if_neg h]

/-- A string other than `""` has positive length. -/
theorem length_pos_of_ne_empty (s : String) (h : ¬ s = "") : 0 < s.length := by
  cases s with
  | mk data =>
    cases data with
    | nil => exact absurd rfl h
    | cons c cs => exact Nat.succ_pos cs.length

/-- Membership in an optional-query-parameter list: the name/value pair is
sent iff the argument was supplied, truthy (non-empty), and has exactly that
parameter name and value. -/
theorem mem_optQueryParam (name : String) (o : Option String) (n v : String) :
    (n, v) ∈ optQueryParam name o ↔ n = name ∧ o = some v ∧ 0 < v.length := by
  cases o with
  | none => simp [optQueryParam]
  | some a =>
    show (n, v) ∈ (if a = "" then ([] : List (String × String)) else [(name, a)]) ↔
      n = name ∧ some a = some v ∧ 0 < v.length
    by_cases h : a = ""
    · rw [if_pos h]
      subst h
      constructor
      · intro hmem
        exact absurd hmem (List.not_mem_nil _)
      · rintro ⟨-, hv, hl⟩
        rw [Option.some.injEq] at hv
        rw [← hv] at hl
        exact absurd hl (by decide)
    · rw [if_neg h]
      rw [List.mem_singleton, Prod.mk.injEq]
      constructor
      · rintro ⟨h1, h2⟩
        exact ⟨h1, by rw [h2], by rw [h2]; exact length_pos_of_ne_empty a h⟩
      · rintro ⟨h1, h2, -⟩
        rw [Option.some.injEq] at h2
        exact ⟨h1, h2.symm⟩

/-- A sequence of `get_api_client` calls that starts with the singleton
already present returns that same instance every time and never constructs. -/
theorem runClients_some (ctxs : List (Option Context)) (c : DuckChainAPI) :
    runClients ctxs (some c) = List.replicate ctxs.length c := by
  induction ctxs with
  | nil => rfl
  | cons hd tl ih =>
    show c :: runClients tl (some c) = c :: List.replicate tl.length c
    rw [ih]

/-- A sequence of `get_api_client` calls that starts with the singleton
already present performs no construction. -/
theorem countConstructions_some (ctxs : List (Option Context)) (c : DuckChainAPI) :
    countConstructions ctxs (some c) = 0 := by
  induction ctxs with
  | nil => rfl
  | cons hd tl ih =>
    show constructedHere (some c) + countConstructions tl (some c) = 0
    rw [ih]
    rfl
/-- C1: every tool handler catches every error the API client raises during its
execution (transport, HTTP-status, JSON-decode or argument error alike) and
returns the string `"Error <doing the operation>: <message>"` as its ordinary
result; being total functions into `String`, the handlers let no exception
propagate past the tool boundary. -/
theorem c1_tools_wrap_client_errors :
    (∀ (query : String) (ctx : Option Context) (st : Option DuckChainAPI) (u : Upstream) (e : ApiError),
      (Tools.get_api_client ctx st).1.search u query = .error e →
      (Tools.search_blockchain query ctx st u).1 = "Error " ++ "searching blockchain" ++ ": " ++ e.message) ∧
    (∀ (query : String) (ctx : Option Context) (st : Option DuckChainAPI) (u : Upstream) (e : ApiError),
      (Tools.get_api_client ctx st).1.search_redirect u query = .error e →
      (Tools.check_search_redirect query ctx st u).1 = "Error " ++ "checking search redirect" ++ ": " ++ e.message) ∧
    (∀ (filter_type : Option String) (transaction_type : Option String) (method : Option String) (ctx : Option Context) (st : Option DuckChainAPI) (u : Upstream) (e : ApiError),
      (Tools.get_api_client ctx st).1.get_transactions u filter_type transaction_type method = .error e →
      (Tools.get_transactions filter_type transaction_type method ctx st u).1 = "Error " ++ "getting transactions" ++ ": " ++ e.message) ∧
    (∀ (transaction_hash : String) (ctx : Option Context) (st : Option DuckChainAPI) (u : Upstream) (e : ApiError),
      (Tools.get_api_client ctx st).1.get_transaction u transaction_hash = .error e →
      (Tools.get_transaction_details transaction_hash ctx st u).1 = "Error " ++ "getting transaction details" ++ ": " ++ e.message) ∧
    (∀ (transaction_hash : String) (token_type : Option String) (ctx : Option Context) (st : Option DuckChainAPI) (u : Upstream) (e : ApiError),
      (Tools.get_api_client ctx st).1.get_transaction_token_transfers u transaction_hash token_type = .error e →
      (Tools.get_transaction_token_transfers transaction_hash token_type ctx st u).1 = "Error " ++ "getting transaction token transfers" ++ ": " ++ e.message) ∧
    (∀ (transaction_hash : String) (ctx : Option Context) (st : Option DuckChainAPI) (u : Upstream) (e : ApiError),
      (Tools.get_api_client ctx st).1.get_transaction_internal_transactions u transaction_hash = .error e →
      (Tools.get_transaction_internal_transactions transaction_hash ctx st u).1 = "Error " ++ "getting transaction internal transactions" ++ ": " ++ e.message) ∧
    (∀ (transaction_hash : String) (ctx : Option Context) (st : Option DuckChainAPI) (u : Upstream) (e : ApiError),
      (Tools.get_api_client ctx st).1.get_transaction_logs u transaction_hash = .error e →
      (Tools.get_transaction_logs transaction_hash ctx st u).1 = "Error " ++ "getting transaction logs" ++ ": " ++ e.message) ∧
    (∀ (transaction_hash : String) (ctx : Option Context) (st : Option DuckChainAPI) (u : Upstream) (e : ApiError),
      (Tools.get_api_client ctx st).1.get_transaction_raw_trace u transaction_hash = .error e →
      (Tools.get_transaction_raw_trace transaction_hash ctx st u).1 = "Error " ++ "getting transaction raw trace" ++ ": " ++ e.message) ∧
    (∀ (transaction_hash : String) (ctx : Option Context) (st : Option DuckChainAPI) (u : Upstream) (e : ApiError),
      (Tools.get_api_client ctx st).1.get_transaction_state_changes u transaction_hash = .error e →
      (Tools.get_transaction_state_changes transaction_hash ctx st u).1 = "Error " ++ "getting transaction state changes" ++ ": " ++ e.message) ∧
    (∀ (transaction_hash : String) (ctx : Option Context) (st : Option DuckChainAPI) (u : Upstream) (e : ApiError),
      (Tools.get_api_client ctx st).1.get_transaction_summary u transaction_hash = .error e →
      (Tools.get_transaction_summary transaction_hash ctx st u).1 = "Error " ++ "getting transaction summary" ++ ": " ++ e.message) ∧
    (∀ (block_type : Option String) (ctx : Option Context) (st : Option DuckChainAPI) (u : Upstream) (e : ApiError),
      (Tools.get_api_client ctx st).1.get_blocks u block_type = .error e →
      (Tools.get_blocks block_type ctx st u).1 = "Error " ++ "getting blocks" ++ ": " ++ e.message) ∧
    (∀ (block_number_or_hash : String) (ctx : Option Context) (st : Option DuckChainAPI) (u : Upstream) (e : ApiError),
      (Tools.get_api_client ctx st).1.get_block u block_number_or_hash = .error e →
      (Tools.get_block_details block_number_or_hash ctx st u).1 = "Error " ++ "getting block details" ++ ": " ++ e.message) ∧
    (∀ (block_number_or_hash : String) (ctx : Option Context) (st : Option DuckChainAPI) (u : Upstream) (e : ApiError),
      (Tools.get_api_client ctx st).1.get_block_transactions u block_number_or_hash = .error e →
      (Tools.get_block_transactions block_number_or_hash ctx st u).1 = "Error " ++ "getting block transactions" ++ ": " ++ e.message) ∧
    (∀ (block_number_or_hash : String) (ctx : Option Context) (st : Option DuckChainAPI) (u : Upstream) (e : ApiError),
      (Tools.get_api_client ctx st).1.get_block_withdrawals u block_number_or_hash = .error e →
      (Tools.get_block_withdrawals block_number_or_hash ctx st u).1 = "Error " ++ "getting block withdrawals" ++ ": " ++ e.message) ∧
    (∀ (ctx : Option Context) (st : Option DuckChainAPI) (u : Upstream) (e : ApiError),
      (Tools.get_api_client ctx st).1.get_token_transfers u = .error e →
      (Tools.get_token_transfers ctx st u).1 = "Error " ++ "getting token transfers" ++ ": " ++ e.message) ∧
    (∀ (ctx : Option Context) (st : Option DuckChainAPI) (u : Upstream) (e : ApiError),
      (Tools.get_api_client ctx st).1.get_internal_transactions u = .error e →
      (Tools.get_internal_transactions ctx st u).1 = "Error " ++ "getting internal transactions" ++ ": " ++ e.message) ∧
    (∀ (ctx : Option Context) (st : Option DuckChainAPI) (u : Upstream) (e : ApiError),
      (Tools.get_api_client ctx st).1.get_main_page_transactions u = .error e →
      (Tools.get_main_page_transactions ctx st u).1 = "Error " ++ "getting main page transactions" ++ ": " ++ e.message) ∧
    (∀ (ctx : Option Context) (st : Option DuckChainAPI) (u : Upstream) (e : ApiError),
      (Tools.get_api_client ctx st).1.get_main_page_blocks u = .error e →
      (Tools.get_main_page_blocks ctx st u).1 = "Error " ++ "getting main page blocks" ++ ": " ++ e.message) ∧
    (∀ (ctx : Option Context) (st : Option DuckChainAPI) (u : Upstream) (e : ApiError),
      (Tools.get_api_client ctx st).1.get_indexing_status u = .error e →
      (Tools.get_indexing_status ctx st u).1 = "Error " ++ "getting indexing status" ++ ": " ++ e.message) ∧
    (∀ (ctx : Option Context) (st : Option DuckChainAPI) (u : Upstream) (e : ApiError),
      (Tools.get_api_client ctx st).1.get_stats u = .error e →
      (Tools.get_blockchain_stats ctx st u).1 = "Error " ++ "getting blockchain stats" ++ ": " ++ e.message) ∧
    (∀ (ctx : Option Context) (st : Option DuckChainAPI) (u : Upstream) (e : ApiError),
      (Tools.get_api_client ctx st).1.get_transactions_chart u = .error e →
      (Tools.get_transactions_chart ctx st u).1 = "Error " ++ "getting transactions chart" ++ ": " ++ e.message) ∧
    (∀ (ctx : Option Context) (st : Option DuckChainAPI) (u : Upstream) (e : ApiError),
      (Tools.get_api_client ctx st).1.get_market_chart u = .error e →
      (Tools.get_market_chart ctx st u).1 = "Error " ++ "getting market chart" ++ ": " ++ e.message) ∧
    (∀ (ctx : Option Context) (st : Option DuckChainAPI) (u : Upstream) (e : ApiError),
      (Tools.get_api_client ctx st).1.get_addresses u = .error e →
      (Tools.get_addresses_list ctx st u).1 = "Error " ++ "getting addresses list" ++ ": " ++ e.message) ∧
    (∀ (address_hash : String) (ctx : Option Context) (st : Option DuckChainAPI) (u : Upstream) (e : ApiError),
      (Tools.get_api_client ctx st).1.get_address u address_hash = .error e →
      (Tools.get_address_details address_hash ctx st u).1 = "Error " ++ "getting address details" ++ ": " ++ e.message) ∧
    (∀ (address_hash : String) (ctx : Option Context) (st : Option DuckChainAPI) (u : Upstream) (e : ApiError),
      (Tools.get_api_client ctx st).1.get_address_counters u address_hash = .error e →
      (Tools.get_address_counters address_hash ctx st u).1 = "Error " ++ "getting address counters" ++ ": " ++ e.message) ∧
    (∀ (address_hash : String) (ctx : Option Context) (st : Option DuckChainAPI) (u : Upstream) (e : ApiError),
      (Tools.get_api_client ctx st).1.get_address_transactions u address_hash = .error e →
      (Tools.get_address_transactions address_hash ctx st u).1 = "Error " ++ "getting address transactions" ++ ": " ++ e.message) ∧
    (∀ (address_hash : String) (ctx : Option Context) (st : Option DuckChainAPI) (u : Upstream) (e : ApiError),
      (Tools.get_api_client ctx st).1.get_address_token_transfers u address_hash = .error e →
      (Tools.get_address_token_transfers address_hash ctx st u).1 = "Error " ++ "getting address token transfers" ++ ": " ++ e.message) ∧
    (∀ (address_hash : String) (ctx : Option Context) (st : Option DuckChainAPI) (u : Upstream) (e : ApiError),
      (Tools.get_api_client ctx st).1.get_address_internal_transactions u address_hash = .error e →
      (Tools.get_address_internal_transactions address_hash ctx st u).1 = "Error " ++ "getting address internal transactions" ++ ": " ++ e.message) ∧
    (∀ (address_hash : String) (ctx : Option Context) (st : Option DuckChainAPI) (u : Upstream) (e : ApiError),
      (Tools.get_api_client ctx st).1.get_address_logs u address_hash = .error e →
      (Tools.get_address_logs address_hash ctx st u).1 = "Error " ++ "getting address logs" ++ ": " ++ e.message) ∧
    (∀ (address_hash : String) (ctx : Option Context) (st : Option DuckChainAPI) (u : Upstream) (e : ApiError),
      (Tools.get_api_client ctx st).1.get_address_blocks_validated u address_hash = .error e →
      (Tools.get_address_blocks_validated address_hash ctx st u).1 = "Error " ++ "getting address blocks validated" ++ ": " ++ e.message) ∧
    (∀ (address_hash : String) (ctx : Option Context) (st : Option DuckChainAPI) (u : Upstream) (e : ApiError),
      (Tools.get_api_client ctx st).1.get_address_token_balances u address_hash = .error e →
      (Tools.get_address_token_balances address_hash ctx st u).1 = "Error " ++ "getting address token balances" ++ ": " ++ e.message) ∧
    (∀ (address_hash : String) (ctx : Option Context) (st : Option DuckChainAPI) (u : Upstream) (e : ApiError),
      (Tools.get_api_client ctx st).1.get_address_tokens u address_hash = .error e →
      (Tools.get_address_tokens address_hash ctx st u).1 = "Error " ++ "getting address tokens" ++ ": " ++ e.message) ∧
    (∀ (address_hash : String) (ctx : Option Context) (st : Option DuckChainAPI) (u : Upstream) (e : ApiError),
      (Tools.get_api_client ctx st).1.get_address_coin_balance_history u address_hash = .error e →
      (Tools.get_address_coin_balance_history address_hash ctx st u).1 = "Error " ++ "getting address coin balance history" ++ ": " ++ e.message) ∧
    (∀ (address_hash : String) (ctx : Option Context) (st : Option DuckChainAPI) (u : Upstream) (e : ApiError),
      (Tools.get_api_client ctx st).1.get_address_coin_balance_history_by_day u address_hash = .error e →
      (Tools.get_address_coin_balance_history_by_day address_hash ctx st u).1 = "Error " ++ "getting address coin balance history by day" ++ ": " ++ e.message) ∧
    (∀ (address_hash : String) (ctx : Option Context) (st : Option DuckChainAPI) (u : Upstream) (e : ApiError),
      (Tools.get_api_client ctx st).1.get_address_withdrawals u address_hash = .error e →
      (Tools.get_address_withdrawals address_hash ctx st u).1 = "Error " ++ "getting address withdrawals" ++ ": " ++ e.message) ∧
    (∀ (address_hash : String) (ctx : Option Context) (st : Option DuckChainAPI) (u : Upstream) (e : ApiError),
      (Tools.get_api_client ctx st).1.get_address_nft u address_hash = .error e →
      (Tools.get_address_nft address_hash ctx st u).1 = "Error " ++ "getting address NFT" ++ ": " ++ e.message) ∧
    (∀ (address_hash : String) (ctx : Option Context) (st : Option DuckChainAPI) (u : Upstream) (e : ApiError),
      (Tools.get_api_client ctx st).1.get_address_nft_collections u address_hash = .error e →
      (Tools.get_address_nft_collections address_hash ctx st u).1 = "Error " ++ "getting address NFT collections" ++ ": " ++ e.message) ∧
    (∀ (ctx : Option Context) (st : Option DuckChainAPI) (u : Upstream) (e : ApiError),
      (Tools.get_api_client ctx st).1.get_tokens u = .error e →
      (Tools.get_tokens_list ctx st u).1 = "Error " ++ "getting tokens list" ++ ": " ++ e.message) ∧
    (∀ (address_hash : String) (ctx : Option Context) (st : Option DuckChainAPI) (u : Upstream) (e : ApiError),
      (Tools.get_api_client ctx st).1.get_token u address_hash = .error e →
      (Tools.get_token_details address_hash ctx st u).1 = "Error " ++ "getting token details" ++ ": " ++ e.message) ∧
    (∀ (address_hash : String) (ctx : Option Context) (st : Option DuckChainAPI) (u : Upstream) (e : ApiError),
      (Tools.get_api_client ctx st).1.get_token_transfers_by_token u address_hash = .error e →
      (Tools.get_token_transfers_by_token address_hash ctx st u).1 = "Error " ++ "getting token transfers" ++ ": " ++ e.message) ∧
    (∀ (address_hash : String) (ctx : Option Context) (st : Option DuckChainAPI) (u : Upstream) (e : ApiError),
      (Tools.get_api_client ctx st).1.get_token_holders u address_hash = .error e →
      (Tools.get_token_holders address_hash ctx st u).1 = "Error " ++ "getting token holders" ++ ": " ++ e.message) ∧
    (∀ (address_hash : String) (ctx : Option Context) (st : Option DuckChainAPI) (u : Upstream) (e : ApiError),
      (Tools.get_api_client ctx st).1.get_token_counters u address_hash = .error e →
      (Tools.get_token_counters address_hash ctx st u).1 = "Error " ++ "getting token counters" ++ ": " ++ e.message) ∧
    (∀ (address_hash : String) (ctx : Option Context) (st : Option DuckChainAPI) (u : Upstream) (e : ApiError),
      (Tools.get_api_client ctx st).1.get_token_instances u address_hash = .error e →
      (Tools.get_token_instances address_hash ctx st u).1 = "Error " ++ "getting token instances" ++ ": " ++ e.message) ∧
    (∀ (address_hash : String) (instance_id : String) (ctx : Option Context) (st : Option DuckChainAPI) (u : Upstream) (e : ApiError),
      (Tools.get_api_client ctx st).1.get_token_instance u address_hash instance_id = .error e →
      (Tools.get_token_instance_details address_hash instance_id ctx st u).1 = "Error " ++ "getting token instance details" ++ ": " ++ e.message) ∧
    (∀ (address_hash : String) (instance_id : String) (ctx : Option Context) (st : Option DuckChainAPI) (u : Upstream) (e : ApiError),
      (Tools.get_api_client ctx st).1.get_token_instance_transfers u address_hash instance_id = .error e →
      (Tools.get_token_instance_transfers address_hash instance_id ctx st u).1 = "Error " ++ "getting token instance transfers" ++ ": " ++ e.message) ∧
    (∀ (address_hash : String) (instance_id : String) (ctx : Option Context) (st : Option DuckChainAPI) (u : Upstream) (e : ApiError),
      (Tools.get_api_client ctx st).1.get_token_instance_holders u address_hash instance_id = .error e →
      (Tools.get_token_instance_holders address_hash instance_id ctx st u).1 = "Error " ++ "getting token instance holders" ++ ": " ++ e.message) ∧
    (∀ (address_hash : String) (instance_id : String) (ctx : Option Context) (st : Option DuckChainAPI) (u : Upstream) (e : ApiError),
      (Tools.get_api_client ctx st).1.get_token_instance_transfers_count u address_hash instance_id = .error e →
      (Tools.get_token_instance_transfers_count address_hash instance_id ctx st u).1 = "Error " ++ "getting token instance transfers count" ++ ": " ++ e.message) ∧
    (∀ (address_hash : String) (instance_id : String) (ctx : Option Context) (st : Option DuckChainAPI) (u : Upstream) (e : ApiError),
      (Tools.get_api_client ctx st).1.refetch_token_instance_metadata u address_hash instance_id = .error e →
      (Tools.refetch_token_instance_metadata_tool address_hash instance_id ctx st u).1 = "Error " ++ "refetching token instance metadata" ++ ": " ++ e.message) ∧
    (∀ (ctx : Option Context) (st : Option DuckChainAPI) (u : Upstream) (e : ApiError),
      (Tools.get_api_client ctx st).1.get_smart_contracts u = .error e →
      (Tools.get_smart_contracts_list ctx st u).1 = "Error " ++ "getting smart contracts list" ++ ": " ++ e.message) ∧
    (∀ (ctx : Option Context) (st : Option DuckChainAPI) (u : Upstream) (e : ApiError),
      (Tools.get_api_client ctx st).1.get_smart_contracts_counters u = .error e →
      (Tools.get_smart_contracts_counters ctx st u).1 = "Error " ++ "getting smart contracts counters" ++ ": " ++ e.message) ∧
    (∀ (address_hash : String) (ctx : Option Context) (st : Option DuckChainAPI) (u : Upstream) (e : ApiError),
      (Tools.get_api_client ctx st).1.get_smart_contract u address_hash = .error e →
      (Tools.get_smart_contract_details address_hash ctx st u).1 = "Error " ++ "getting smart contract details" ++ ": " ++ e.message) := by
  refine ⟨?_, ?_, ?_, ?_, ?_, ?_, ?_, ?_, ?_, ?_, ?_, ?_, ?_, ?_, ?_, ?_, ?_, ?_, ?_, ?_, ?_, ?_, ?_, ?_, ?_, ?_, ?_, ?_, ?_, ?_, ?_, ?_, ?_, ?_, ?_, ?_, ?_, ?_, ?_, ?_, ?_, ?_, ?_, ?_, ?_, ?_, ?_, ?_, ?_, ?_, ?_⟩
  · exact fun query ctx st u e h => toolResult_error _ _ _ e h
  · exact fun query ctx st u e h => toolResult_error _ _ _ e h
  · exact fun filter_type transaction_type method ctx st u e h => toolResult_error _ _ _ e h
  · exact fun transaction_hash ctx st u e h => toolResult_error _ _ _ e h
  · exact fun transaction_hash token_type ctx st u e h => toolResult_error _ _ _ e h
  · exact fun transaction_hash ctx st u e h => toolResult_error _ _ _ e h
  · exact fun transaction_hash ctx st u e h => toolResult_error _ _ _ e h
  · exact fun transaction_hash ctx st u e h => toolResult_error _ _ _ e h
  · exact fun transaction_hash ctx st u e h => toolResult_error _ _ _ e h
  · exact fun transaction_hash ctx st u e h => toolResult_error _ _ _ e h
  · exact fun block_type ctx st u e h => toolResult_error _ _ _ e h
  · exact fun block_number_or_hash ctx st u e h => toolResult_error _ _ _ e h
  · exact fun block_number_or_hash ctx st u e h => toolResult_error _ _ _ e h
  · exact fun block_number_or_hash ctx st u e h => toolResult_error _ _ _ e h
  · exact fun ctx st u e h => toolResult_error _ _ _ e h
  · exact fun ctx st u e h => toolResult_error _ _ _ e h
  · exact fun ctx st u e h => toolResult_error _ _ _ e h
  · exact fun ctx st u e h => toolResult_error _ _ _ e h
  · exact fun ctx st u e h => toolResult_error _ _ _ e h
  · exact fun ctx st u e h => toolResult_error _ _ _ e h
  · exact fun ctx st u e h => toolResult_error _ _ _ e h
  · exact fun ctx st u e h => toolResult_error _ _ _ e h
  · exact fun ctx st u e h => toolResult_error _ _ _ e h
  · exact fun address_hash ctx st u e h => toolResult_error _ _ _ e h
  · exact fun address_hash ctx st u e h => toolResult_error _ _ _ e h
  · exact fun address_hash ctx st u e h => toolResult_error _ _ _ e h
  · exact fun address_hash ctx st u e h => toolResult_error _ _ _ e h
  · exact fun address_hash ctx st u e h => toolResult_error _ _ _ e h
  · exact fun address_hash ctx st u e h => toolResult_error _ _ _ e h
  · exact fun address_hash ctx st u e h => toolResult_error _ _ _ e h
  · exact fun address_hash ctx st u e h => toolResult_error _ _ _ e h
  · exact fun address_hash ctx st u e h => toolResult_error _ _ _ e h
  · exact fun address_hash ctx st u e h => toolResult_error _ _ _ e h
  · exact fun address_hash ctx st u e h => toolResult_error _ _ _ e h
  · exact fun address_hash ctx st u e h => toolResult_error _ _ _ e h
  · exact fun address_hash ctx st u e h => toolResult_error _ _ _ e h
  · exact fun address_hash ctx st u e h => toolResult_error _ _ _ e h
  · exact fun ctx st u e h => toolResult_error _ _ _ e h
  · exact fun address_hash ctx st u e h => toolResult_error _ _ _ e h
  · exact fun address_hash ctx st u e h => toolResult_error _ _ _ e h
  · exact fun address_hash ctx st u e h => toolResult_error _ _ _ e h
  · exact fun address_hash ctx st u e h => toolResult_error _ _ _ e h
  · exact fun address_hash ctx st u e h => toolResult_error _ _ _ e h
  · exact fun address_hash instance_id ctx st u e h => toolResult_error _ _ _ e h
  · exact fun address_hash instance_id ctx st u e h => toolResult_error _ _ _ e h
  · exact fun address_hash instance_id ctx st u e h => toolResult_error _ _ _ e h
  · exact fun address_hash instance_id ctx st u e h => toolResult_error _ _ _ e h
  · exact fun address_hash instance_id ctx st u e h => toolResult_error _ _ _ e h
  · exact fun ctx st u e h => toolResult_error _ _ _ e h
  · exact fun ctx st u e h => toolResult_error _ _ _ e h
  · exact fun address_hash ctx st u e h => toolResult_error _ _ _ e h

/-- C2: for every tool handler, when the upstream answers the handler's request
with a 2xx status and a body that decodes as JSON, the handler returns its
success label followed by the rendering of the exact decoded JSON value, and
(being a total function) does not raise. -/
theorem c2_tools_format_success :
    (∀ (query : String) (ctx : Option Context) (st : Option DuckChainAPI) (u : Upstream)
      (status : Nat) (body : String) (j : Json),
      u ⟨(Tools.get_api_client ctx st).1.base_url ++ ("/search"), [("q", query)]⟩ = .response status body (some j) →
      200 ≤ status ∧ status ≤ 299 →
      (Tools.search_blockchain query ctx st u).1 = "Search results for \x27" ++ query ++ "\x27:\n" ++ j.render) ∧
    (∀ (query : String) (ctx : Option Context) (st : Option DuckChainAPI) (u : Upstream)
      (status : Nat) (body : String) (j : Json),
      u ⟨(Tools.get_api_client ctx st).1.base_url ++ ("/search/check-redirect"), [("q", query)]⟩ = .response status body (some j) →
      200 ≤ status ∧ status ≤ 299 →
      (Tools.check_search_redirect query ctx st u).1 = "Search redirect check for \x27" ++ query ++ "\x27:\n" ++ j.render) ∧
    (∀ (filter_type : Option String) (transaction_type : Option String) (method : Option String) (ctx : Option Context) (st : Option DuckChainAPI) (u : Upstream)
      (status : Nat) (body : String) (j : Json),
      u ⟨(Tools.get_api_client ctx st).1.base_url ++ ("/transactions"), optQueryParam "filter" filter_type ++ optQueryParam "type" transaction_type ++ optQueryParam "method" method⟩ = .response status body (some j) →
      200 ≤ status ∧ status ≤ 299 →
      (Tools.get_transactions filter_type transaction_type method ctx st u).1 = "Transactions:\n" ++ j.render) ∧
    (∀ (transaction_hash : String) (ctx : Option Context) (st : Option DuckChainAPI) (u : Upstream)
      (status : Nat) (body : String) (j : Json),
      u ⟨(Tools.get_api_client ctx st).1.base_url ++ ("/transactions/" ++ transaction_hash), []⟩ = .response status body (some j) →
      200 ≤ status ∧ status ≤ 299 →
      (Tools.get_transaction_details transaction_hash ctx st u).1 = "Transaction details for " ++ transaction_hash ++ ":\n" ++ j.render) ∧
    (∀ (transaction_hash : String) (token_type : Option String) (ctx : Option Context) (st : Option DuckChainAPI) (u : Upstream)
      (status : Nat) (body : String) (j : Json),
      u ⟨(Tools.get_api_client ctx st).1.base_url ++ ("/transactions/" ++ transaction_hash ++ "/token-transfers"), optQueryParam "type" token_type⟩ = .response status body (some j) →
      200 ≤ status ∧ status ≤ 299 →
      (Tools.get_transaction_token_transfers transaction_hash token_type ctx st u).1 = "Token transfers for transaction " ++ transaction_hash ++ ":\n" ++ j.render) ∧
    (∀ (transaction_hash : String) (ctx : Option Context) (st : Option DuckChainAPI) (u : Upstream)
      (status : Nat) (body : String) (j : Json),
      u ⟨(Tools.get_api_client ctx st).1.base_url ++ ("/transactions/" ++ transaction_hash ++ "/internal-transactions"), []⟩ = .response status body (some j) →
      200 ≤ status ∧ status ≤ 299 →
      (Tools.get_transaction_internal_transactions transaction_hash ctx st u).1 = "Internal transactions for transaction " ++ transaction_hash ++ ":\n" ++ j.render) ∧
    (∀ (transaction_hash : String) (ctx : Option Context) (st : Option DuckChainAPI) (u : Upstream)
      (status : Nat) (body : String) (j : Json),
      u ⟨(Tools.get_api_client ctx st).1.base_url ++ ("/transactions/" ++ transaction_hash ++ "/logs"), []⟩ = .response status body (some j) →
      200 ≤ status ∧ status ≤ 299 →
      (Tools.get_transaction_logs transaction_hash ctx st u).1 = "Logs for transaction " ++ transaction_hash ++ ":\n" ++ j.render) ∧
    (∀ (transaction_hash : String) (ctx : Option Context) (st : Option DuckChainAPI) (u : Upstream)
      (status : Nat) (body : String) (j : Json),
      u ⟨(Tools.get_api_client ctx st).1.base_url ++ ("/transactions/" ++ transaction_hash ++ "/raw-trace"), []⟩ = .response status body (some j) →
      200 ≤ status ∧ status ≤ 299 →
      (Tools.get_transaction_raw_trace transaction_hash ctx st u).1 = "Raw trace for transaction " ++ transaction_hash ++ ":\n" ++ j.render) ∧
    (∀ (transaction_hash : String) (ctx : Option Context) (st : Option DuckChainAPI) (u : Upstream)
      (status : Nat) (body : String) (j : Json),
      u ⟨(Tools.get_api_client ctx st).1.base_url ++ ("/transactions/" ++ transaction_hash ++ "/state-changes"), []⟩ = .response status body (some j) →
      200 ≤ status ∧ status ≤ 299 →
      (Tools.get_transaction_state_changes transaction_hash ctx st u).1 = "State changes for transaction " ++ transaction_hash ++ ":\n" ++ j.render) ∧
    (∀ (transaction_hash : String) (ctx : Option Context) (st : Option DuckChainAPI) (u : Upstream)
      (status : Nat) (body : String) (j : Json),
      u ⟨(Tools.get_api_client ctx st).1.base_url ++ ("/transactions/" ++ transaction_hash ++ "/summary"), []⟩ = .response status body (some j) →
      200 ≤ status ∧ status ≤ 299 →
      (Tools.get_transaction_summary transaction_hash ctx st u).1 = "Summary for transaction " ++ transaction_hash ++ ":\n" ++ j.render) ∧
    (∀ (block_type : Option String) (ctx : Option Context) (st : Option DuckChainAPI) (u : Upstream)
      (status : Nat) (body : String) (j : Json),
      u ⟨(Tools.get_api_client ctx st).1.base_url ++ ("/blocks"), optQueryParam "type" block_type⟩ = .response status body (some j) →
      200 ≤ status ∧ status ≤ 299 →
      (Tools.get_blocks block_type ctx st u).1 = "Blocks:\n" ++ j.render) ∧
    (∀ (block_number_or_hash : String) (ctx : Option Context) (st : Option DuckChainAPI) (u : Upstream)
      (status : Nat) (body : String) (j : Json),
      u ⟨(Tools.get_api_client ctx st).1.base_url ++ ("/blocks/" ++ block_number_or_hash), []⟩ = .response status body (some j) →
      200 ≤ status ∧ status ≤ 299 →
      (Tools.get_block_details block_number_or_hash ctx st u).1 = "Block details for " ++ block_number_or_hash ++ ":\n" ++ j.render) ∧
    (∀ (block_number_or_hash : String) (ctx : Option Context) (st : Option DuckChainAPI) (u : Upstream)
      (status : Nat) (body : String) (j : Json),
      u ⟨(Tools.get_api_client ctx st).1.base_url ++ ("/blocks/" ++ block_number_or_hash ++ "/transactions"), []⟩ = .response status body (some j) →
      200 ≤ status ∧ status ≤ 299 →
      (Tools.get_block_transactions block_number_or_hash ctx st u).1 = "Transactions for block " ++ block_number_or_hash ++ ":\n" ++ j.render) ∧
    (∀ (block_number_or_hash : String) (ctx : Option Context) (st : Option DuckChainAPI) (u : Upstream)
      (status : Nat) (body : String) (j : Json),
      u ⟨(Tools.get_api_client ctx st).1.base_url ++ ("/blocks/" ++ block_number_or_hash ++ "/withdrawals"), []⟩ = .response status body (some j) →
      200 ≤ status ∧ status ≤ 299 →
      (Tools.get_block_withdrawals block_number_or_hash ctx st u).1 = "Withdrawals for block " ++ block_number_or_hash ++ ":\n" ++ j.render) ∧
    (∀ (ctx : Option Context) (st : Option DuckChainAPI) (u : Upstream)
      (status : Nat) (body : String) (j : Json),
      u ⟨(Tools.get_api_client ctx st).1.base_url ++ ("/token-transfers"), []⟩ = .response status body (some j) →
      200 ≤ status ∧ status ≤ 299 →
      (Tools.get_token_transfers ctx st u).1 = "Token transfers:\n" ++ j.render) ∧
    (∀ (ctx : Option Context) (st : Option DuckChainAPI) (u : Upstream)
      (status : Nat) (body : String) (j : Json),
      u ⟨(Tools.get_api_client ctx st).1.base_url ++ ("/internal-transactions"), []⟩ = .response status body (some j) →
      200 ≤ status ∧ status ≤ 299 →
      (Tools.get_internal_transactions ctx st u).1 = "Internal transactions:\n" ++ j.render) ∧
    (∀ (ctx : Option Context) (st : Option DuckChainAPI) (u : Upstream)
      (status : Nat) (body : String) (j : Json),
      u ⟨(Tools.get_api_client ctx st).1.base_url ++ ("/main-page/transactions"), []⟩ = .response status body (some j) →
      200 ≤ status ∧ status ≤ 299 →
      (Tools.get_main_page_transactions ctx st u).1 = "Main page transactions:\n" ++ j.render) ∧
    (∀ (ctx : Option Context) (st : Option DuckChainAPI) (u : Upstream)
      (status : Nat) (body : String) (j : Json),
      u ⟨(Tools.get_api_client ctx st).1.base_url ++ ("/main-page/blocks"), []⟩ = .response status body (some j) →
      200 ≤ status ∧ status ≤ 299 →
      (Tools.get_main_page_blocks ctx st u).1 = "Main page blocks:\n" ++ j.render) ∧
    (∀ (ctx : Option Context) (st : Option DuckChainAPI) (u : Upstream)
      (status : Nat) (body : String) (j : Json),
      u ⟨(Tools.get_api_client ctx st).1.base_url ++ ("/main-page/indexing-status"), []⟩ = .response status body (some j) →
      200 ≤ status ∧ status ≤ 299 →
      (Tools.get_indexing_status ctx st u).1 = "Indexing status:\n" ++ j.render) ∧
    (∀ (ctx : Option Context) (st : Option DuckChainAPI) (u : Upstream)
      (status : Nat) (body : String) (j : Json),
      u ⟨(Tools.get_api_client ctx st).1.base_url ++ ("/stats"), []⟩ = .response status body (some j) →
      200 ≤ status ∧ status ≤ 299 →
      (Tools.get_blockchain_stats ctx st u).1 = "Blockchain statistics:\n" ++ j.render) ∧
    (∀ (ctx : Option Context) (st : Option DuckChainAPI) (u : Upstream)
      (status : Nat) (body : String) (j : Json),
      u ⟨(Tools.get_api_client ctx st).1.base_url ++ ("/stats/charts/transactions"), []⟩ = .response status body (some j) →
      200 ≤ status ∧ status ≤ 299 →
      (Tools.get_transactions_chart ctx st u).1 = "Transactions chart data:\n" ++ j.render) ∧
    (∀ (ctx : Option Context) (st : Option DuckChainAPI) (u : Upstream)
      (status : Nat) (body : String) (j : Json),
      u ⟨(Tools.get_api_client ctx st).1.base_url ++ ("/stats/charts/market"), []⟩ = .response status body (some j) →
      200 ≤ status ∧ status ≤ 299 →
      (Tools.get_market_chart ctx st u).1 = "Market chart data:\n" ++ j.render) ∧
    (∀ (ctx : Option Context) (st : Option DuckChainAPI) (u : Upstream)
      (status : Nat) (body : String) (j : Json),
      u ⟨(Tools.get_api_client ctx st).1.base_url ++ ("/addresses"), []⟩ = .response status body (some j) →
      200 ≤ status ∧ status ≤ 299 →
      (Tools.get_addresses_list ctx st u).1 = "Addresses list:\n" ++ j.render) ∧
    (∀ (address_hash : String) (ctx : Option Context) (st : Option DuckChainAPI) (u : Upstream)
      (status : Nat) (body : String) (j : Json),
      u ⟨(Tools.get_api_client ctx st).1.base_url ++ ("/addresses/" ++ address_hash), []⟩ = .response status body (some j) →
      200 ≤ status ∧ status ≤ 299 →
      (Tools.get_address_details address_hash ctx st u).1 = "Address details for " ++ address_hash ++ ":\n" ++ j.render) ∧
    (∀ (address_hash : String) (ctx : Option Context) (st : Option DuckChainAPI) (u : Upstream)
      (status : Nat) (body : String) (j : Json),
      u ⟨(Tools.get_api_client ctx st).1.base_url ++ ("/addresses/" ++ address_hash ++ "/counters"), []⟩ = .response status body (some j) →
      200 ≤ status ∧ status ≤ 299 →
      (Tools.get_address_counters address_hash ctx st u).1 = "Address counters for " ++ address_hash ++ ":\n" ++ j.render) ∧
    (∀ (address_hash : String) (ctx : Option Context) (st : Option DuckChainAPI) (u : Upstream)
      (status : Nat) (body : String) (j : Json),
      u ⟨(Tools.get_api_client ctx st).1.base_url ++ ("/addresses/" ++ address_hash ++ "/transactions"), []⟩ = .response status body (some j) →
      200 ≤ status ∧ status ≤ 299 →
      (Tools.get_address_transactions address_hash ctx st u).1 = "Transactions for address " ++ address_hash ++ ":\n" ++ j.render) ∧
    (∀ (address_hash : String) (ctx : Option Context) (st : Option DuckChainAPI) (u : Upstream)
      (status : Nat) (body : String) (j : Json),
      u ⟨(Tools.get_api_client ctx st).1.base_url ++ ("/addresses/" ++ address_hash ++ "/token-transfers"), []⟩ = .response status body (some j) →
      200 ≤ status ∧ status ≤ 299 →
      (Tools.get_address_token_transfers address_hash ctx st u).1 = "Token transfers for address " ++ address_hash ++ ":\n" ++ j.render) ∧
    (∀ (address_hash : String) (ctx : Option Context) (st : Option DuckChainAPI) (u : Upstream)
      (status : Nat) (body : String) (j : Json),
      u ⟨(Tools.get_api_client ctx st).1.base_url ++ ("/addresses/" ++ address_hash ++ "/internal-transactions"), []⟩ = .response status body (some j) →
      200 ≤ status ∧ status ≤ 299 →
      (Tools.get_address_internal_transactions address_hash ctx st u).1 = "Internal transactions for address " ++ address_hash ++ ":\n" ++ j.render) ∧
    (∀ (address_hash : String) (ctx : Option Context) (st : Option DuckChainAPI) (u : Upstream)
      (status : Nat) (body : String) (j : Json),
      u ⟨(Tools.get_api_client ctx st).1.base_url ++ ("/addresses/" ++ address_hash ++ "/logs"), []⟩ = .response status body (some j) →
      200 ≤ status ∧ status ≤ 299 →
      (Tools.get_address_logs address_hash ctx st u).1 = "Logs for address " ++ address_hash ++ ":\n" ++ j.render) ∧
    (∀ (address_hash : String) (ctx : Option Context) (st : Option DuckChainAPI) (u : Upstream)
      (status : Nat) (body : String) (j : Json),
      u ⟨(Tools.get_api_client ctx st).1.base_url ++ ("/addresses/" ++ address_hash ++ "/blocks-validated"), []⟩ = .response status body (some j) →
      200 ≤ status ∧ status ≤ 299 →
      (Tools.get_address_blocks_validated address_hash ctx st u).1 = "Blocks validated by address " ++ address_hash ++ ":\n" ++ j.render) ∧
    (∀ (address_hash : String) (ctx : Option Context) (st : Option DuckChainAPI) (u : Upstream)
      (status : Nat) (body : String) (j : Json),
      u ⟨(Tools.get_api_client ctx st).1.base_url ++ ("/addresses/" ++ address_hash ++ "/token-balances"), []⟩ = .response status body (some j) →
      200 ≤ status ∧ status ≤ 299 →
      (Tools.get_address_token_balances address_hash ctx st u).1 = "Token balances for address " ++ address_hash ++ ":\n" ++ j.render) ∧
    (∀ (address_hash : String) (ctx : Option Context) (st : Option DuckChainAPI) (u : Upstream)
      (status : Nat) (body : String) (j : Json),
      u ⟨(Tools.get_api_client ctx st).1.base_url ++ ("/addresses/" ++ address_hash ++ "/tokens"), []⟩ = .response status body (some j) →
      200 ≤ status ∧ status ≤ 299 →
      (Tools.get_address_tokens address_hash ctx st u).1 = "Tokens for address " ++ address_hash ++ ":\n" ++ j.render) ∧
    (∀ (address_hash : String) (ctx : Option Context) (st : Option DuckChainAPI) (u : Upstream)
      (status : Nat) (body : String) (j : Json),
      u ⟨(Tools.get_api_client ctx st).1.base_url ++ ("/addresses/" ++ address_hash ++ "/coin-balance-history"), []⟩ = .response status body (some j) →
      200 ≤ status ∧ status ≤ 299 →
      (Tools.get_address_coin_balance_history address_hash ctx st u).1 = "Coin balance history for address " ++ address_hash ++ ":\n" ++ j.render) ∧
    (∀ (address_hash : String) (ctx : Option Context) (st : Option DuckChainAPI) (u : Upstream)
      (status : Nat) (body : String) (j : Json),
      u ⟨(Tools.get_api_client ctx st).1.base_url ++ ("/addresses/" ++ address_hash ++ "/coin-balance-history-by-day"), []⟩ = .response status body (some j) →
      200 ≤ status ∧ status ≤ 299 →
      (Tools.get_address_coin_balance_history_by_day address_hash ctx st u).1 = "Coin balance history by day for address " ++ address_hash ++ ":\n" ++ j.render) ∧
    (∀ (address_hash : String) (ctx : Option Context) (st : Option DuckChainAPI) (u : Upstream)
      (status : Nat) (body : String) (j : Json),
      u ⟨(Tools.get_api_client ctx st).1.base_url ++ ("/addresses/" ++ address_hash ++ "/withdrawals"), []⟩ = .response status body (some j) →
      200 ≤ status ∧ status ≤ 299 →
      (Tools.get_address_withdrawals address_hash ctx st u).1 = "Withdrawals for address " ++ address_hash ++ ":\n" ++ j.render) ∧
    (∀ (address_hash : String) (ctx : Option Context) (st : Option DuckChainAPI) (u : Upstream)
      (status : Nat) (body : String) (j : Json),
      u ⟨(Tools.get_api_client ctx st).1.base_url ++ ("/addresses/" ++ address_hash ++ "/nft"), []⟩ = .response status body (some j) →
      200 ≤ status ∧ status ≤ 299 →
      (Tools.get_address_nft address_hash ctx st u).1 = "NFT for address " ++ address_hash ++ ":\n" ++ j.render) ∧
    (∀ (address_hash : String) (ctx : Option Context) (st : Option DuckChainAPI) (u : Upstream)
      (status : Nat) (body : String) (j : Json),
      u ⟨(Tools.get_api_client ctx st).1.base_url ++ ("/addresses/" ++ address_hash ++ "/nft/collections"), []⟩ = .response status body (some j) →
      200 ≤ status ∧ status ≤ 299 →
      (Tools.get_address_nft_collections address_hash ctx st u).1 = "NFT collections for address " ++ address_hash ++ ":\n" ++ j.render) ∧
    (∀ (ctx : Option Context) (st : Option DuckChainAPI) (u : Upstream)
      (status : Nat) (body : String) (j : Json),
      u ⟨(Tools.get_api_client ctx st).1.base_url ++ ("/tokens"), []⟩ = .response status body (some j) →
      200 ≤ status ∧ status ≤ 299 →
      (Tools.get_tokens_list ctx st u).1 = "Tokens list:\n" ++ j.render) ∧
    (∀ (address_hash : String) (ctx : Option Context) (st : Option DuckChainAPI) (u : Upstream)
      (status : Nat) (body : String) (j : Json),
      u ⟨(Tools.get_api_client ctx st).1.base_url ++ ("/tokens/" ++ address_hash), []⟩ = .response status body (some j) →
      200 ≤ status ∧ status ≤ 299 →
      (Tools.get_token_details address_hash ctx st u).1 = "Token details for " ++ address_hash ++ ":\n" ++ j.render) ∧
    (∀ (address_hash : String) (ctx : Option Context) (st : Option DuckChainAPI) (u : Upstream)
      (status : Nat) (body : String) (j : Json),
      u ⟨(Tools.get_api_client ctx st).1.base_url ++ ("/tokens/" ++ address_hash ++ "/transfers"), []⟩ = .response status body (some j) →
      200 ≤ status ∧ status ≤ 299 →
      (Tools.get_token_transfers_by_token address_hash ctx st u).1 = "Transfers for token " ++ address_hash ++ ":\n" ++ j.render) ∧
    (∀ (address_hash : String) (ctx : Option Context) (st : Option DuckChainAPI) (u : Upstream)
      (status : Nat) (body : String) (j : Json),
      u ⟨(Tools.get_api_client ctx st).1.base_url ++ ("/tokens/" ++ address_hash ++ "/holders"), []⟩ = .response status body (some j) →
      200 ≤ status ∧ status ≤ 299 →
      (Tools.get_token_holders address_hash ctx st u).1 = "Holders for token " ++ address_hash ++ ":\n" ++ j.render) ∧
    (∀ (address_hash : String) (ctx : Option Context) (st : Option DuckChainAPI) (u : Upstream)
      (status : Nat) (body : String) (j : Json),
      u ⟨(Tools.get_api_client ctx st).1.base_url ++ ("/tokens/" ++ address_hash ++ "/counters"), []⟩ = .response status body (some j) →
      200 ≤ status ∧ status ≤ 299 →
      (Tools.get_token_counters address_hash ctx st u).1 = "Counters for token " ++ address_hash ++ ":\n" ++ j.render) ∧
    (∀ (address_hash : String) (ctx : Option Context) (st : Option DuckChainAPI) (u : Upstream)
      (status : Nat) (body : String) (j : Json),
      u ⟨(Tools.get_api_client ctx st).1.base_url ++ ("/tokens/" ++ address_hash ++ "/instances"), []⟩ = .response status body (some j) →
      200 ≤ status ∧ status ≤ 299 →
      (Tools.get_token_instances address_hash ctx st u).1 = "Instances for token " ++ address_hash ++ ":\n" ++ j.render) ∧
    (∀ (address_hash : String) (instance_id : String) (ctx : Option Context) (st : Option DuckChainAPI) (u : Upstream)
      (status : Nat) (body : String) (j : Json),
      u ⟨(Tools.get_api_client ctx st).1.base_url ++ ("/tokens/" ++ address_hash ++ "/instances/" ++ instance_id), []⟩ = .response status body (some j) →
      200 ≤ status ∧ status ≤ 299 →
      (Tools.get_token_instance_details address_hash instance_id ctx st u).1 = "Token instance details for " ++ address_hash ++ "/" ++ instance_id ++ ":\n" ++ j.render) ∧
    (∀ (address_hash : String) (instance_id : String) (ctx : Option Context) (st : Option DuckChainAPI) (u : Upstream)
      (status : Nat) (body : String) (j : Json),
      u ⟨(Tools.get_api_client ctx st).1.base_url ++ ("/tokens/" ++ address_hash ++ "/instances/" ++ instance_id ++ "/transfers"), []⟩ = .response status body (some j) →
      200 ≤ status ∧ status ≤ 299 →
      (Tools.get_token_instance_transfers address_hash instance_id ctx st u).1 = "Transfers for token instance " ++ address_hash ++ "/" ++ instance_id ++ ":\n" ++ j.render) ∧
    (∀ (address_hash : String) (instance_id : String) (ctx : Option Context) (st : Option DuckChainAPI) (u : Upstream)
      (status : Nat) (body : String) (j : Json),
      u ⟨(Tools.get_api_client ctx st).1.base_url ++ ("/tokens/" ++ address_hash ++ "/instances/" ++ instance_id ++ "/holders"), []⟩ = .response status body (some j) →
      200 ≤ status ∧ status ≤ 299 →
      (Tools.get_token_instance_holders address_hash instance_id ctx st u).1 = "Holders for token instance " ++ address_hash ++ "/" ++ instance_id ++ ":\n" ++ j.render) ∧
    (∀ (address_hash : String) (instance_id : String) (ctx : Option Context) (st : Option DuckChainAPI) (u : Upstream)
      (status : Nat) (body : String) (j : Json),
      u ⟨(Tools.get_api_client ctx st).1.base_url ++ ("/tokens/" ++ address_hash ++ "/instances/" ++ instance_id ++ "/transfers-count"), []⟩ = .response status body (some j) →
      200 ≤ status ∧ status ≤ 299 →
      (Tools.get_token_instance_transfers_count address_hash instance_id ctx st u).1 = "Transfers count for token instance " ++ address_hash ++ "/" ++ instance_id ++ ":\n" ++ j.render) ∧
    (∀ (address_hash : String) (instance_id : String) (ctx : Option Context) (st : Option DuckChainAPI) (u : Upstream)
      (status : Nat) (body : String) (j : Json),
      u ⟨(Tools.get_api_client ctx st).1.base_url ++ ("/tokens/" ++ address_hash ++ "/instances/" ++ instance_id ++ "/refetch-metadata"), []⟩ = .response status body (some j) →
      200 ≤ status ∧ status ≤ 299 →
      (Tools.refetch_token_instance_metadata_tool address_hash instance_id ctx st u).1 = "Metadata refetch result for token instance " ++ address_hash ++ "/" ++ instance_id ++ ":\n" ++ j.render) ∧
    (∀ (ctx : Option Context) (st : Option DuckChainAPI) (u : Upstream)
      (status : Nat) (body : String) (j : Json),
      u ⟨(Tools.get_api_client ctx st).1.base_url ++ ("/smart-contracts"), []⟩ = .response status body (some j) →
      200 ≤ status ∧ status ≤ 299 →
      (Tools.get_smart_contracts_list ctx st u).1 = "Smart contracts list:\n" ++ j.render) ∧
    (∀ (ctx : Option Context) (st : Option DuckChainAPI) (u : Upstream)
      (status : Nat) (body : String) (j : Json),
      u ⟨(Tools.get_api_client ctx st).1.base_url ++ ("/smart-contracts/counters"), []⟩ = .response status body (some j) →
      200 ≤ status ∧ status ≤ 299 →
      (Tools.get_smart_contracts_counters ctx st u).1 = "Smart contracts counters:\n" ++ j.render) ∧
    (∀ (address_hash : String) (ctx : Option Context) (st : Option DuckChainAPI) (u : Upstream)
      (status : Nat) (body : String) (j : Json),
      u ⟨(Tools.get_api_client ctx st).1.base_url ++ ("/smart-contracts/" ++ address_hash), []⟩ = .response status body (some j) →
      200 ≤ status ∧ status ≤ 299 →
      (Tools.get_smart_contract_details address_hash ctx st u).1 = "Smart contract details for " ++ address_hash ++ ":\n" ++ j.render) := by
  refine ⟨?_, ?_, ?_, ?_, ?_, ?_, ?_, ?_, ?_, ?_, ?_, ?_, ?_, ?_, ?_, ?_, ?_, ?_, ?_, ?_, ?_, ?_, ?_, ?_, ?_, ?_, ?_, ?_, ?_, ?_, ?_, ?_, ?_, ?_, ?_, ?_, ?_, ?_, ?_, ?_, ?_, ?_, ?_, ?_, ?_, ?_, ?_, ?_, ?_, ?_, ?_⟩
  · intro query ctx st u status body j h1 h2
    have hc : (Tools.get_api_client ctx st).1.search u query = Except.ok j := by
      show processResponse (u ⟨(Tools.get_api_client ctx st).1.base_url ++ ("/search"), [("q", query)]⟩) = Except.ok j
      rw [h1]
      exact processResponse_success status body j h2
    exact toolResult_ok _ _ _ j hc
  · intro query ctx st u status body j h1 h2
    have hc : (Tools.get_api_client ctx st).1.search_redirect u query = Except.ok j := by
      show processResponse (u ⟨(Tools.get_api_client ctx st).1.base_url ++ ("/search/check-redirect"), [("q", query)]⟩) = Except.ok j
      rw [h1]
      exact processResponse_success status body j h2
    exact toolResult_ok _ _ _ j hc
  · intro filter_type transaction_type method ctx st u status body j h1 h2
    have hc : (Tools.get_api_client ctx st).1.get_transactions u filter_type transaction_type method = Except.ok j := by
      show processResponse (u ⟨(Tools.get_api_client ctx st).1.base_url ++ ("/transactions"), optQueryParam "filter" filter_type ++ optQueryParam "type" transaction_type ++ optQueryParam "method" method⟩) = Except.ok j
      rw [h1]
      exact processResponse_success status body j h2
    exact toolResult_ok _ _ _ j hc
  · intro transaction_hash ctx st u status body j h1 h2
    have hc : (Tools.get_api_client ctx st).1.get_transaction u transaction_hash = Except.ok j := by
      show processResponse (u ⟨(Tools.get_api_client ctx st).1.base_url ++ ("/transactions/" ++ transaction_hash), []⟩) = Except.ok j
      rw [h1]
      exact processResponse_success status body j h2
    exact toolResult_ok _ _ _ j hc
  · intro transaction_hash token_type ctx st u status body j h1 h2
    have hc : (Tools.get_api_client ctx st).1.get_transaction_token_transfers u transaction_hash token_type = Except.ok j := by
      show processResponse (u ⟨(Tools.get_api_client ctx st).1.base_url ++ ("/transactions/" ++ transaction_hash ++ "/token-transfers"), optQueryParam "type" token_type⟩) = Except.ok j
      rw [h1]
      exact processResponse_success status body j h2
    exact toolResult_ok _ _ _ j hc
  · intro transaction_hash ctx st u status body j h1 h2
    have hc : (Tools.get_api_client ctx st).1.get_transaction_internal_transactions u transaction_hash = Except.ok j := by
      show processResponse (u ⟨(Tools.get_api_client ctx st).1.base_url ++ ("/transactions/" ++ transaction_hash ++ "/internal-transactions"), []⟩) = Except.ok j
      rw [h1]
      exact processResponse_success status body j h2
    exact toolResult_ok _ _ _ j hc
  · intro transaction_hash ctx st u status body j h1 h2
    have hc : (Tools.get_api_client ctx st).1.get_transaction_logs u transaction_hash = Except.ok j := by
      show processResponse (u ⟨(Tools.get_api_client ctx st).1.base_url ++ ("/transactions/" ++ transaction_hash ++ "/logs"), []⟩) = Except.ok j
      rw [h1]
      exact processResponse_success status body j h2
    exact toolResult_ok _ _ _ j hc
  · intro transaction_hash ctx st u status body j h1 h2
    have hc : (Tools.get_api_client ctx st).1.get_transaction_raw_trace u transaction_hash = Except.ok j := by
      show processResponse (u ⟨(Tools.get_api_client ctx st).1.base_url ++ ("/transactions/" ++ transaction_hash ++ "/raw-trace"), []⟩) = Except.ok j
      rw [h1]
      exact processResponse_success status body j h2
    exact toolResult_ok _ _ _ j hc
  · intro transaction_hash ctx st u status body j h1 h2
    have hc : (Tools.get_api_client ctx st).1.get_transaction_state_changes u transaction_hash = Except.ok j := by
      show processResponse (u ⟨(Tools.get_api_client ctx st).1.base_url ++ ("/transactions/" ++ transaction_hash ++ "/state-changes"), []⟩) = Except.ok j
      rw [h1]
      exact processResponse_success status body j h2
    exact toolResult_ok _ _ _ j hc
  · intro transaction_hash ctx st u status body j h1 h2
    have hc : (Tools.get_api_client ctx st).1.get_transaction_summary u transaction_hash = Except.ok j := by
      show processResponse (u ⟨(Tools.get_api_client ctx st).1.base_url ++ ("/transactions/" ++ transaction_hash ++ "/summary"), []⟩) = Except.ok j
      rw [h1]
      exact processResponse_success status body j h2
    exact toolResult_ok _ _ _ j hc
  · intro block_type ctx st u status body j h1 h2
    have hc : (Tools.get_api_client ctx st).1.get_blocks u block_type = Except.ok j := by
      show processResponse (u ⟨(Tools.get_api_client ctx st).1.base_url ++ ("/blocks"), optQueryParam "type" block_type⟩) = Except.ok j
      rw [h1]
      exact processResponse_success status body j h2
    exact toolResult_ok _ _ _ j hc
  · intro block_number_or_hash ctx st u status body j h1 h2
    have hc : (Tools.get_api_client ctx st).1.get_block u block_number_or_hash = Except.ok j := by
      show processResponse (u ⟨(Tools.get_api_client ctx st).1.base_url ++ ("/blocks/" ++ block_number_or_hash), []⟩) = Except.ok j
      rw [h1]
      exact processResponse_success status body j h2
    exact toolResult_ok _ _ _ j hc
  · intro block_number_or_hash ctx st u status body j h1 h2
    have hc : (Tools.get_api_client ctx st).1.get_block_transactions u block_number_or_hash = Except.ok j := by
      show processResponse (u ⟨(Tools.get_api_client ctx st).1.base_url ++ ("/blocks/" ++ block_number_or_hash ++ "/transactions"), []⟩) = Except.ok j
      rw [h1]
      exact processResponse_success status body j h2
    exact toolResult_ok _ _ _ j hc
  · intro block_number_or_hash ctx st u status body j h1 h2
    have hc : (Tools.get_api_client ctx st).1.get_block_withdrawals u block_number_or_hash = Except.ok j := by
      show processResponse (u ⟨(Tools.get_api_client ctx st).1.base_url ++ ("/blocks/" ++ block_number_or_hash ++ "/withdrawals"), []⟩) = Except.ok j
      rw [h1]
      exact processResponse_success status body j h2
    exact toolResult_ok _ _ _ j hc
  · intro ctx st u status body j h1 h2
    have hc : (Tools.get_api_client ctx st).1.get_token_transfers u = Except.ok j := by
      show processResponse (u ⟨(Tools.get_api_client ctx st).1.base_url ++ ("/token-transfers"), []⟩) = Except.ok j
      rw [h1]
      exact processResponse_success status body j h2
    exact toolResult_ok _ _ _ j hc
  · intro ctx st u status body j h1 h2
    have hc : (Tools.get_api_client ctx st).1.get_internal_transactions u = Except.ok j := by
      show processResponse (u ⟨(Tools.get_api_client ctx st).1.base_url ++ ("/internal-transactions"), []⟩) = Except.ok j
      rw [h1]
      exact processResponse_success status body j h2
    exact toolResult_ok _ _ _ j hc
  · intro ctx st u status body j h1 h2
    have hc : (Tools.get_api_client ctx st).1.get_main_page_transactions u = Except.ok j := by
      show processResponse (u ⟨(Tools.get_api_client ctx st).1.base_url ++ ("/main-page/transactions"), []⟩) = Except.ok j
      rw [h1]
      exact processResponse_success status body j h2
    exact toolResult_ok _ _ _ j hc
  · intro ctx st u status body j h1 h2
    have hc : (Tools.get_api_client ctx st).1.get_main_page_blocks u = Except.ok j := by
      show processResponse (u ⟨(Tools.get_api_client ctx st).1.base_url ++ ("/main-page/blocks"), []⟩) = Except.ok j
      rw [h1]
      exact processResponse_success status body j h2
    exact toolResult_ok _ _ _ j hc
  · intro ctx st u status body j h1 h2
    have hc : (Tools.get_api_client ctx st).1.get_indexing_status u = Except.ok j := by
      show processResponse (u ⟨(Tools.get_api_client ctx st).1.base_url ++ ("/main-page/indexing-status"), []⟩) = Except.ok j
      rw [h1]
      exact processResponse_success status body j h2
    exact toolResult_ok _ _ _ j hc
  · intro ctx st u status body j h1 h2
    have hc : (Tools.get_api_client ctx st).1.get_stats u = Except.ok j := by
      show processResponse (u ⟨(Tools.get_api_client ctx st).1.base_url ++ ("/stats"), []⟩) = Except.ok j
      rw [h1]
      exact processResponse_success status body j h2
    exact toolResult_ok _ _ _ j hc
  · intro ctx st u status body j h1 h2
    have hc : (Tools.get_api_client ctx st).1.get_transactions_chart u = Except.ok j := by
      show processResponse (u ⟨(Tools.get_api_client ctx st).1.base_url ++ ("/stats/charts/transactions"), []⟩) = Except.ok j
      rw [h1]
      exact processResponse_success status body j h2
    exact toolResult_ok _ _ _ j hc
  · intro ctx st u status body j h1 h2
    have hc : (Tools.get_api_client ctx st).1.get_market_chart u = Except.ok j := by
      show processResponse (u ⟨(Tools.get_api_client ctx st).1.base_url ++ ("/stats/charts/market"), []⟩) = Except.ok j
      rw [h1]
      exact processResponse_success status body j h2
    exact toolResult_ok _ _ _ j hc
  · intro ctx st u status body j h1 h2
    have hc : (Tools.get_api_client ctx st).1.get_addresses u = Except.ok j := by
      show processResponse (u ⟨(Tools.get_api_client ctx st).1.base_url ++ ("/addresses"), []⟩) = Except.ok j
      rw [h1]
      exact processResponse_success status body j h2
    exact toolResult_ok _ _ _ j hc
  · intro address_hash ctx st u status body j h1 h2
    have hc : (Tools.get_api_client ctx st).1.get_address u address_hash = Except.ok j := by
      show processResponse (u ⟨(Tools.get_api_client ctx st).1.base_url ++ ("/addresses/" ++ address_hash), []⟩) = Except.ok j
      rw [h1]
      exact processResponse_success status body j h2
    exact toolResult_ok _ _ _ j hc
  · intro address_hash ctx st u status body j h1 h2
    have hc : (Tools.get_api_client ctx st).1.get_address_counters u address_hash = Except.ok j := by
      show processResponse (u ⟨(Tools.get_api_client ctx st).1.base_url ++ ("/addresses/" ++ address_hash ++ "/counters"), []⟩) = Except.ok j
      rw [h1]
      exact processResponse_success status body j h2
    exact toolResult_ok _ _ _ j hc
  · intro address_hash ctx st u status body j h1 h2
    have hc : (Tools.get_api_client ctx st).1.get_address_transactions u address_hash = Except.ok j := by
      show processResponse (u ⟨(Tools.get_api_client ctx st).1.base_url ++ ("/addresses/" ++ address_hash ++ "/transactions"), []⟩) = Except.ok j
      rw [h1]
      exact processResponse_success status body j h2
    exact toolResult_ok _ _ _ j hc
  · intro address_hash ctx st u status body j h1 h2
    have hc : (Tools.get_api_client ctx st).1.get_address_token_transfers u address_hash = Except.ok j := by
      show processResponse (u ⟨(Tools.get_api_client ctx st).1.base_url ++ ("/addresses/" ++ address_hash ++ "/token-transfers"), []⟩) = Except.ok j
      rw [h1]
      exact processResponse_success status body j h2
    exact toolResult_ok _ _ _ j hc
  · intro address_hash ctx st u status body j h1 h2
    have hc : (Tools.get_api_client ctx st).1.get_address_internal_transactions u address_hash = Except.ok j := by
      show processResponse (u ⟨(Tools.get_api_client ctx st).1.base_url ++ ("/addresses/" ++ address_hash ++ "/internal-transactions"), []⟩) = Except.ok j
      rw [h1]
      exact processResponse_success status body j h2
    exact toolResult_ok _ _ _ j hc
  · intro address_hash ctx st u status body j h1 h2
    have hc : (Tools.get_api_client ctx st).1.get_address_logs u address_hash = Except.ok j := by
      show processResponse (u ⟨(Tools.get_api_client ctx st).1.base_url ++ ("/addresses/" ++ address_hash ++ "/logs"), []⟩) = Except.ok j
      rw [h1]
      exact processResponse_success status body j h2
    exact toolResult_ok _ _ _ j hc
  · intro address_hash ctx st u status body j h1 h2
    have hc : (Tools.get_api_client ctx st).1.get_address_blocks_validated u address_hash = Except.ok j := by
      show processResponse (u ⟨(Tools.get_api_client ctx st).1.base_url ++ ("/addresses/" ++ address_hash ++ "/blocks-validated"), []⟩) = Except.ok j
      rw [h1]
      exact processResponse_success status body j h2
    exact toolResult_ok _ _ _ j hc
  · intro address_hash ctx st u status body j h1 h2
    have hc : (Tools.get_api_client ctx st).1.get_address_token_balances u address_hash = Except.ok j := by
      show processResponse (u ⟨(Tools.get_api_client ctx st).1.base_url ++ ("/addresses/" ++ address_hash ++ "/token-balances"), []⟩) = Except.ok j
      rw [h1]
      exact processResponse_success status body j h2
    exact toolResult_ok _ _ _ j hc
  · intro address_hash ctx st u status body j h1 h2
    have hc : (Tools.get_api_client ctx st).1.get_address_tokens u address_hash = Except.ok j := by
      show processResponse (u ⟨(Tools.get_api_client ctx st).1.base_url ++ ("/addresses/" ++ address_hash ++ "/tokens"), []⟩) = Except.ok j
      rw [h1]
      exact processResponse_success status body j h2
    exact toolResult_ok _ _ _ j hc
  · intro address_hash ctx st u status body j h1 h2
    have hc : (Tools.get_api_client ctx st).1.get_address_coin_balance_history u address_hash = Except.ok j := by
      show processResponse (u ⟨(Tools.get_api_client ctx st).1.base_url ++ ("/addresses/" ++ address_hash ++ "/coin-balance-history"), []⟩) = Except.ok j
      rw [h1]
      exact processResponse_success status body j h2
    exact toolResult_ok _ _ _ j hc
  · intro address_hash ctx st u status body j h1 h2
    have hc : (Tools.get_api_client ctx st).1.get_address_coin_balance_history_by_day u address_hash = Except.ok j := by
      show processResponse (u ⟨(Tools.get_api_client ctx st).1.base_url ++ ("/addresses/" ++ address_hash ++ "/coin-balance-history-by-day"), []⟩) = Except.ok j
      rw [h1]
      exact processResponse_success status body j h2
    exact toolResult_ok _ _ _ j hc
  · intro address_hash ctx st u status body j h1 h2
    have hc : (Tools.get_api_client ctx st).1.get_address_withdrawals u address_hash = Except.ok j := by
      show processResponse (u ⟨(Tools.get_api_client ctx st).1.base_url ++ ("/addresses/" ++ address_hash ++ "/withdrawals"), []⟩) = Except.ok j
      rw [h1]
      exact processResponse_success status body j h2
    exact toolResult_ok _ _ _ j hc
  · intro address_hash ctx st u status body j h1 h2
    have hc : (Tools.get_api_client ctx st).1.get_address_nft u address_hash = Except.ok j := by
      show processResponse (u ⟨(Tools.get_api_client ctx st).1.base_url ++ ("/addresses/" ++ address_hash ++ "/nft"), []⟩) = Except.ok j
      rw [h1]
      exact processResponse_success status body j h2
    exact toolResult_ok _ _ _ j hc
  · intro address_hash ctx st u status body j h1 h2
    have hc : (Tools.get_api_client ctx st).1.get_address_nft_collections u address_hash = Except.ok j := by
      show processResponse (u ⟨(Tools.get_api_client ctx st).1.base_url ++ ("/addresses/" ++ address_hash ++ "/nft/collections"), []⟩) = Except.ok j
      rw [h1]
      exact processResponse_success status body j h2
    exact toolResult_ok _ _ _ j hc
  · intro ctx st u status body j h1 h2
    have hc : (Tools.get_api_client ctx st).1.get_tokens u = Except.ok j := by
      show processResponse (u ⟨(Tools.get_api_client ctx st).1.base_url ++ ("/tokens"), []⟩) = Except.ok j
      rw [h1]
      exact processResponse_success status body j h2
    exact toolResult_ok _ _ _ j hc
  · intro address_hash ctx st u status body j h1 h2
    have hc : (Tools.get_api_client ctx st).1.get_token u address_hash = Except.ok j := by
      show processResponse (u ⟨(Tools.get_api_client ctx st).1.base_url ++ ("/tokens/" ++ address_hash), []⟩) = Except.ok j
      rw [h1]
      exact processResponse_success status body j h2
    exact toolResult_ok _ _ _ j hc
  · intro address_hash ctx st u status body j h1 h2
    have hc : (Tools.get_api_client ctx st).1.get_token_transfers_by_token u address_hash = Except.ok j := by
      show processResponse (u ⟨(Tools.get_api_client ctx st).1.base_url ++ ("/tokens/" ++ address_hash ++ "/transfers"), []⟩) = Except.ok j
      rw [h1]
      exact processResponse_success status body j h2
    exact toolResult_ok _ _ _ j hc
  · intro address_hash ctx st u status body j h1 h2
    have hc : (Tools.get_api_client ctx st).1.get_token_holders u address_hash = Except.ok j := by
      show processResponse (u ⟨(Tools.get_api_client ctx st).1.base_url ++ ("/tokens/" ++ address_hash ++ "/holders"), []⟩) = Except.ok j
      rw [h1]
      exact processResponse_success status body j h2
    exact toolResult_ok _ _ _ j hc
  · intro address_hash ctx st u status body j h1 h2
    have hc : (Tools.get_api_client ctx st).1.get_token_counters u address_hash = Except.ok j := by
      show processResponse (u ⟨(Tools.get_api_client ctx st).1.base_url ++ ("/tokens/" ++ address_hash ++ "/counters"), []⟩) = Except.ok j
      rw [h1]
      exact processResponse_success status body j h2
    exact toolResult_ok _ _ _ j hc
  · intro address_hash ctx st u status body j h1 h2
    have hc : (Tools.get_api_client ctx st).1.get_token_instances u address_hash = Except.ok j := by
      show processResponse (u ⟨(Tools.get_api_client ctx st).1.base_url ++ ("/tokens/" ++ address_hash ++ "/instances"), []⟩) = Except.ok j
      rw [h1]
      exact processResponse_success status body j h2
    exact toolResult_ok _ _ _ j hc
  · intro address_hash instance_id ctx st u status body j h1 h2
    have hc : (Tools.get_api_client ctx st).1.get_token_instance u address_hash instance_id = Except.ok j := by
      show processResponse (u ⟨(Tools.get_api_client ctx st).1.base_url ++ ("/tokens/" ++ address_hash ++ "/instances/" ++ instance_id), []⟩) = Except.ok j
      rw [h1]
      exact processResponse_success status body j h2
    exact toolResult_ok _ _ _ j hc
  · intro address_hash instance_id ctx st u status body j h1 h2
    have hc : (Tools.get_api_client ctx st).1.get_token_instance_transfers u address_hash instance_id = Except.ok j := by
      show processResponse (u ⟨(Tools.get_api_client ctx st).1.base_url ++ ("/tokens/" ++ address_hash ++ "/instances/" ++ instance_id ++ "/transfers"), []⟩) = Except.ok j
      rw [h1]
      exact processResponse_success status body j h2
    exact toolResult_ok _ _ _ j hc
  · intro address_hash instance_id ctx st u status body j h1 h2
    have hc : (Tools.get_api_client ctx st).1.get_token_instance_holders u address_hash instance_id = Except.ok j := by
      show processResponse (u ⟨(Tools.get_api_client ctx st).1.base_url ++ ("/tokens/" ++ address_hash ++ "/instances/" ++ instance_id ++ "/holders"), []⟩) = Except.ok j
      rw [h1]
      exact processResponse_success status body j h2
    exact toolResult_ok _ _ _ j hc
  · intro address_hash instance_id ctx st u status body j h1 h2
    have hc : (Tools.get_api_client ctx st).1.get_token_instance_transfers_count u address_hash instance_id = Except.ok j := by
      show processResponse (u ⟨(Tools.get_api_client ctx st).1.base_url ++ ("/tokens/" ++ address_hash ++ "/instances/" ++ instance_id ++ "/transfers-count"), []⟩) = Except.ok j
      rw [h1]
      exact processResponse_success status body j h2
    exact toolResult_ok _ _ _ j hc
  · intro address_hash instance_id ctx st u status body j h1 h2
    have hc : (Tools.get_api_client ctx st).1.refetch_token_instance_metadata u address_hash instance_id = Except.ok j := by
      show processResponse (u ⟨(Tools.get_api_client ctx st).1.base_url ++ ("/tokens/" ++ address_hash ++ "/instances/" ++ instance_id ++ "/refetch-metadata"), []⟩) = Except.ok j
      rw [h1]
      exact processResponse_success status body j h2
    exact toolResult_ok _ _ _ j hc
  · intro ctx st u status body j h1 h2
    have hc : (Tools.get_api_client ctx st).1.get_smart_contracts u = Except.ok j := by
      show processResponse (u ⟨(Tools.get_api_client ctx st).1.base_url ++ ("/smart-contracts"), []⟩) = Except.ok j
      rw [h1]
      exact processResponse_success status body j h2
    exact toolResult_ok _ _ _ j hc
  · intro ctx st u status body j h1 h2
    have hc : (Tools.get_api_client ctx st).1.get_smart_contracts_counters u = Except.ok j := by
      show processResponse (u ⟨(Tools.get_api_client ctx st).1.base_url ++ ("/smart-contracts/counters"), []⟩) = Except.ok j
      rw [h1]
      exact processResponse_success status body j h2
    exact toolResult_ok _ _ _ j hc
  · intro address_hash ctx st u status body j h1 h2
    have hc : (Tools.get_api_client ctx st).1.get_smart_contract u address_hash = Except.ok j := by
      show processResponse (u ⟨(Tools.get_api_client ctx st).1.base_url ++ ("/smart-contracts/" ++ address_hash), []⟩) = Except.ok j
      rw [h1]
      exact processResponse_success status body j h2
    exact toolResult_ok _ _ _ j hc

/-- C3: for every tool handler, a non-2xx upstream response makes the API client
fail with an HTTP-status error carrying the status code and response body, and
the handler returns the `"Error <doing the operation>: ..."` string built from
that error's message (which spells out the status and body). -/
theorem c3_tools_report_http_status_errors :
    (∀ (query : String) (ctx : Option Context) (st : Option DuckChainAPI) (u : Upstream)
      (status : Nat) (body : String) (js : Option Json),
      u ⟨(Tools.get_api_client ctx st).1.base_url ++ ("/search"), [("q", query)]⟩ = .response status body js →
      ¬ (200 ≤ status ∧ status ≤ 299) →
      (Tools.get_api_client ctx st).1.search u query = .error (.httpStatus status body) ∧
      (Tools.search_blockchain query ctx st u).1 = "Error " ++ "searching blockchain" ++ ": " ++ (ApiError.httpStatus status body).message) ∧
    (∀ (query : String) (ctx : Option Context) (st : Option DuckChainAPI) (u : Upstream)
      (status : Nat) (body : String) (js : Option Json),
      u ⟨(Tools.get_api_client ctx st).1.base_url ++ ("/search/check-redirect"), [("q", query)]⟩ = .response status body js →
      ¬ (200 ≤ status ∧ status ≤ 299) →
      (Tools.get_api_client ctx st).1.search_redirect u query = .error (.httpStatus status body) ∧
      (Tools.check_search_redirect query ctx st u).1 = "Error " ++ "checking search redirect" ++ ": " ++ (ApiError.httpStatus status body).message) ∧
    (∀ (filter_type : Option String) (transaction_type : Option String) (method : Option String) (ctx : Option Context) (st : Option DuckChainAPI) (u : Upstream)
      (status : Nat) (body : String) (js : Option Json),
      u ⟨(Tools.get_api_client ctx st).1.base_url ++ ("/transactions"), optQueryParam "filter" filter_type ++ optQueryParam "type" transaction_type ++ optQueryParam "method" method⟩ = .response status body js →
      ¬ (200 ≤ status ∧ status ≤ 299) →
      (Tools.get_api_client ctx st).1.get_transactions u filter_type transaction_type method = .error (.httpStatus status body) ∧
      (Tools.get_transactions filter_type transaction_type method ctx st u).1 = "Error " ++ "getting transactions" ++ ": " ++ (ApiError.httpStatus status body).message) ∧
    (∀ (transaction_hash : String) (ctx : Option Context) (st : Option DuckChainAPI) (u : Upstream)
      (status : Nat) (body : String) (js : Option Json),
      u ⟨(Tools.get_api_client ctx st).1.base_url ++ ("/transactions/" ++ transaction_hash), []⟩ = .response status body js →
      ¬ (200 ≤ status ∧ status ≤ 299) →
      (Tools.get_api_client ctx st).1.get_transaction u transaction_hash = .error (.httpStatus status body) ∧
      (Tools.get_transaction_details transaction_hash ctx st u).1 = "Error " ++ "getting transaction details" ++ ": " ++ (ApiError.httpStatus status body).message) ∧
    (∀ (transaction_hash : String) (token_type : Option String) (ctx : Option Context) (st : Option DuckChainAPI) (u : Upstream)
      (status : Nat) (body : String) (js : Option Json),
      u ⟨(Tools.get_api_client ctx st).1.base_url ++ ("/transactions/" ++ transaction_hash ++ "/token-transfers"), optQueryParam "type" token_type⟩ = .response status body js →
      ¬ (200 ≤ status ∧ status ≤ 299) →
      (Tools.get_api_client ctx st).1.get_transaction_token_transfers u transaction_hash token_type = .error (.httpStatus status body) ∧
      (Tools.get_transaction_token_transfers transaction_hash token_type ctx st u).1 = "Error " ++ "getting transaction token transfers" ++ ": " ++ (ApiError.httpStatus status body).message) ∧
    (∀ (transaction_hash : String) (ctx : Option Context) (st : Option DuckChainAPI) (u : Upstream)
      (status : Nat) (body : String) (js : Option Json),
      u ⟨(Tools.get_api_client ctx st).1.base_url ++ ("/transactions/" ++ transaction_hash ++ "/internal-transactions"), []⟩ = .response status body js →
      ¬ (200 ≤ status ∧ status ≤ 299) →
      (Tools.get_api_client ctx st).1.get_transaction_internal_transactions u transaction_hash = .error (.httpStatus status body) ∧
      (Tools.get_transaction_internal_transactions transaction_hash ctx st u).1 = "Error " ++ "getting transaction internal transactions" ++ ": " ++ (ApiError.httpStatus status body).message) ∧
    (∀ (transaction_hash : String) (ctx : Option Context) (st : Option DuckChainAPI) (u : Upstream)
      (status : Nat) (body : String) (js : Option Json),
      u ⟨(Tools.get_api_client ctx st).1.base_url ++ ("/transactions/" ++ transaction_hash ++ "/logs"), []⟩ = .response status body js →
      ¬ (200 ≤ status ∧ status ≤ 299) →
      (Tools.get_api_client ctx st).1.get_transaction_logs u transaction_hash = .error (.httpStatus status body) ∧
      (Tools.get_transaction_logs transaction_hash ctx st u).1 = "Error " ++ "getting transaction logs" ++ ": " ++ (ApiError.httpStatus status body).message) ∧
    (∀ (transaction_hash : String) (ctx : Option Context) (st : Option DuckChainAPI) (u : Upstream)
      (status : Nat) (body : String) (js : Option Json),
      u ⟨(Tools.get_api_client ctx st).1.base_url ++ ("/transactions/" ++ transaction_hash ++ "/raw-trace"), []⟩ = .response status body js →
      ¬ (200 ≤ status ∧ status ≤ 299) →
      (Tools.get_api_client ctx st).1.get_transaction_raw_trace u transaction_hash = .error (.httpStatus status body) ∧
      (Tools.get_transaction_raw_trace transaction_hash ctx st u).1 = "Error " ++ "getting transaction raw trace" ++ ": " ++ (ApiError.httpStatus status body).message) ∧
    (∀ (transaction_hash : String) (ctx : Option Context) (st : Option DuckChainAPI) (u : Upstream)
      (status : Nat) (body : String) (js : Option Json),
      u ⟨(Tools.get_api_client ctx st).1.base_url ++ ("/transactions/" ++ transaction_hash ++ "/state-changes"), []⟩ = .response status body js →
      ¬ (200 ≤ status ∧ status ≤ 299) →
      (Tools.get_api_client ctx st).1.get_transaction_state_changes u transaction_hash = .error (.httpStatus status body) ∧
      (Tools.get_transaction_state_changes transaction_hash ctx st u).1 = "Error " ++ "getting transaction state changes" ++ ": " ++ (ApiError.httpStatus status body).message) ∧
    (∀ (transaction_hash : String) (ctx : Option Context) (st : Option DuckChainAPI) (u : Upstream)
      (status : Nat) (body : String) (js : Option Json),
      u ⟨(Tools.get_api_client ctx st).1.base_url ++ ("/transactions/" ++ transaction_hash ++ "/summary"), []⟩ = .response status body js →
      ¬ (200 ≤ status ∧ status ≤ 299) →
      (Tools.get_api_client ctx st).1.get_transaction_summary u transaction_hash = .error (.httpStatus status body) ∧
      (Tools.get_transaction_summary transaction_hash ctx st u).1 = "Error " ++ "getting transaction summary" ++ ": " ++ (ApiError.httpStatus status body).message) ∧
    (∀ (block_type : Option String) (ctx : Option Context) (st : Option DuckChainAPI) (u : Upstream)
      (status : Nat) (body : String) (js : Option Json),
      u ⟨(Tools.get_api_client ctx st).1.base_url ++ ("/blocks"), optQueryParam "type" block_type⟩ = .response status body js →
      ¬ (200 ≤ status ∧ status ≤ 299) →
      (Tools.get_api_client ctx st).1.get_blocks u block_type = .error (.httpStatus status body) ∧
      (Tools.get_blocks block_type ctx st u).1 = "Error " ++ "getting blocks" ++ ": " ++ (ApiError.httpStatus status body).message) ∧
    (∀ (block_number_or_hash : String) (ctx : Option Context) (st : Option DuckChainAPI) (u : Upstream)
      (status : Nat) (body : String) (js : Option Json),
      u ⟨(Tools.get_api_client ctx st).1.base_url ++ ("/blocks/" ++ block_number_or_hash), []⟩ = .response status body js →
      ¬ (200 ≤ status ∧ status ≤ 299) →
      (Tools.get_api_client ctx st).1.get_block u block_number_or_hash = .error (.httpStatus status body) ∧
      (Tools.get_block_details block_number_or_hash ctx st u).1 = "Error " ++ "getting block details" ++ ": " ++ (ApiError.httpStatus status body).message) ∧
    (∀ (block_number_or_hash : String) (ctx : Option Context) (st : Option DuckChainAPI) (u : Upstream)
      (status : Nat) (body : String) (js : Option Json),
      u ⟨(Tools.get_api_client ctx st).1.base_url ++ ("/blocks/" ++ block_number_or_hash ++ "/transactions"), []⟩ = .response status body js →
      ¬ (200 ≤ status ∧ status ≤ 299) →
      (Tools.get_api_client ctx st).1.get_block_transactions u block_number_or_hash = .error (.httpStatus status body) ∧
      (Tools.get_block_transactions block_number_or_hash ctx st u).1 = "Error " ++ "getting block transactions" ++ ": " ++ (ApiError.httpStatus status body).message) ∧
    (∀ (block_number_or_hash : String) (ctx : Option Context) (st : Option DuckChainAPI) (u : Upstream)
      (status : Nat) (body : String) (js : Option Json),
      u ⟨(Tools.get_api_client ctx st).1.base_url ++ ("/blocks/" ++ block_number_or_hash ++ "/withdrawals"), []⟩ = .response status body js →
      ¬ (200 ≤ status ∧ status ≤ 299) →
      (Tools.get_api_client ctx st).1.get_block_withdrawals u block_number_or_hash = .error (.httpStatus status body) ∧
      (Tools.get_block_withdrawals block_number_or_hash ctx st u).1 = "Error " ++ "getting block withdrawals" ++ ": " ++ (ApiError.httpStatus status body).message) ∧
    (∀ (ctx : Option Context) (st : Option DuckChainAPI) (u : Upstream)
      (status : Nat) (body : String) (js : Option Json),
      u ⟨(Tools.get_api_client ctx st).1.base_url ++ ("/token-transfers"), []⟩ = .response status body js →
      ¬ (200 ≤ status ∧ status ≤ 299) →
      (Tools.get_api_client ctx st).1.get_token_transfers u = .error (.httpStatus status body) ∧
      (Tools.get_token_transfers ctx st u).1 = "Error " ++ "getting token transfers" ++ ": " ++ (ApiError.httpStatus status body).message) ∧
    (∀ (ctx : Option Context) (st : Option DuckChainAPI) (u : Upstream)
      (status : Nat) (body : String) (js : Option Json),
      u ⟨(Tools.get_api_client ctx st).1.base_url ++ ("/internal-transactions"), []⟩ = .response status body js →
      ¬ (200 ≤ status ∧ status ≤ 299) →
      (Tools.get_api_client ctx st).1.get_internal_transactions u = .error (.httpStatus status body) ∧
      (Tools.get_internal_transactions ctx st u).1 = "Error " ++ "getting internal transactions" ++ ": " ++ (ApiError.httpStatus status body).message) ∧
    (∀ (ctx : Option Context) (st : Option DuckChainAPI) (u : Upstream)
      (status : Nat) (body : String) (js : Option Json),
      u ⟨(Tools.get_api_client ctx st).1.base_url ++ ("/main-page/transactions"), []⟩ = .response status body js →
      ¬ (200 ≤ status ∧ status ≤ 299) →
      (Tools.get_api_client ctx st).1.get_main_page_transactions u = .error (.httpStatus status body) ∧
      (Tools.get_main_page_transactions ctx st u).1 = "Error " ++ "getting main page transactions" ++ ": " ++ (ApiError.httpStatus status body).message) ∧
    (∀ (ctx : Option Context) (st : Option DuckChainAPI) (u : Upstream)
      (status : Nat) (body : String) (js : Option Json),
      u ⟨(Tools.get_api_client ctx st).1.base_url ++ ("/main-page/blocks"), []⟩ = .response status body js →
      ¬ (200 ≤ status ∧ status ≤ 299) →
      (Tools.get_api_client ctx st).1.get_main_page_blocks u = .error (.httpStatus status body) ∧
      (Tools.get_main_page_blocks ctx st u).1 = "Error " ++ "getting main page blocks" ++ ": " ++ (ApiError.httpStatus status body).message) ∧
    (∀ (ctx : Option Context) (st : Option DuckChainAPI) (u : Upstream)
      (status : Nat) (body : String) (js : Option Json),
      u ⟨(Tools.get_api_client ctx st).1.base_url ++ ("/main-page/indexing-status"), []⟩ = .response status body js →
      ¬ (200 ≤ status ∧ status ≤ 299) →
      (Tools.get_api_client ctx st).1.get_indexing_status u = .error (.httpStatus status body) ∧
      (Tools.get_indexing_status ctx st u).1 = "Error " ++ "getting indexing status" ++ ": " ++ (ApiError.httpStatus status body).message) ∧
    (∀ (ctx : Option Context) (st : Option DuckChainAPI) (u : Upstream)
      (status : Nat) (body : String) (js : Option Json),
      u ⟨(Tools.get_api_client ctx st).1.base_url ++ ("/stats"), []⟩ = .response status body js →
      ¬ (200 ≤ status ∧ status ≤ 299) →
      (Tools.get_api_client ctx st).1.get_stats u = .error (.httpStatus status body) ∧
      (Tools.get_blockchain_stats ctx st u).1 = "Error " ++ "getting blockchain stats" ++ ": " ++ (ApiError.httpStatus status body).message) ∧
    (∀ (ctx : Option Context) (st : Option DuckChainAPI) (u : Upstream)
      (status : Nat) (body : String) (js : Option Json),
      u ⟨(Tools.get_api_client ctx st).1.base_url ++ ("/stats/charts/transactions"), []⟩ = .response status body js →
      ¬ (200 ≤ status ∧ status ≤ 299) →
      (Tools.get_api_client ctx st).1.get_transactions_chart u = .error (.httpStatus status body) ∧
      (Tools.get_transactions_chart ctx st u).1 = "Error " ++ "getting transactions chart" ++ ": " ++ (ApiError.httpStatus status body).message) ∧
    (∀ (ctx : Option Context) (st : Option DuckChainAPI) (u : Upstream)
      (status : Nat) (body : String) (js : Option Json),
      u ⟨(Tools.get_api_client ctx st).1.base_url ++ ("/stats/charts/market"), []⟩ = .response status body js →
      ¬ (200 ≤ status ∧ status ≤ 299) →
      (Tools.get_api_client ctx st).1.get_market_chart u = .error (.httpStatus status body) ∧
      (Tools.get_market_chart ctx st u).1 = "Error " ++ "getting market chart" ++ ": " ++ (ApiError.httpStatus status body).message) ∧
    (∀ (ctx : Option Context) (st : Option DuckChainAPI) (u : Upstream)
      (status : Nat) (body : String) (js : Option Json),
      u ⟨(Tools.get_api_client ctx st).1.base_url ++ ("/addresses"), []⟩ = .response status body js →
      ¬ (200 ≤ status ∧ status ≤ 299) →
      (Tools.get_api_client ctx st).1.get_addresses u = .error (.httpStatus status body) ∧
      (Tools.get_addresses_list ctx st u).1 = "Error " ++ "getting addresses list" ++ ": " ++ (ApiError.httpStatus status body).message) ∧
    (∀ (address_hash : String) (ctx : Option Context) (st : Option DuckChainAPI) (u : Upstream)
      (status : Nat) (body : String) (js : Option Json),
      u ⟨(Tools.get_api_client ctx st).1.base_url ++ ("/addresses/" ++ address_hash), []⟩ = .response status body js →
      ¬ (200 ≤ status ∧ status ≤ 299) →
      (Tools.get_api_client ctx st).1.get_address u address_hash = .error (.httpStatus status body) ∧
      (Tools.get_address_details address_hash ctx st u).1 = "Error " ++ "getting address details" ++ ": " ++ (ApiError.httpStatus status body).message) ∧
    (∀ (address_hash : String) (ctx : Option Context) (st : Option DuckChainAPI) (u : Upstream)
      (status : Nat) (body : String) (js : Option Json),
      u ⟨(Tools.get_api_client ctx st).1.base_url ++ ("/addresses/" ++ address_hash ++ "/counters"), []⟩ = .response status body js →
      ¬ (200 ≤ status ∧ status ≤ 299) →
      (Tools.get_api_client ctx st).1.get_address_counters u address_hash = .error (.httpStatus status body) ∧
      (Tools.get_address_counters address_hash ctx st u).1 = "Error " ++ "getting address counters" ++ ": " ++ (ApiError.httpStatus status body).message) ∧
    (∀ (address_hash : String) (ctx : Option Context) (st : Option DuckChainAPI) (u : Upstream)
      (status : Nat) (body : String) (js : Option Json),
      u ⟨(Tools.get_api_client ctx st).1.base_url ++ ("/addresses/" ++ address_hash ++ "/transactions"), []⟩ = .response status body js →
      ¬ (200 ≤ status ∧ status ≤ 299) →
      (Tools.get_api_client ctx st).1.get_address_transactions u address_hash = .error (.httpStatus status body) ∧
      (Tools.get_address_transactions address_hash ctx st u).1 = "Error " ++ "getting address transactions" ++ ": " ++ (ApiError.httpStatus status body).message) ∧
    (∀ (address_hash : String) (ctx : Option Context) (st : Option DuckChainAPI) (u : Upstream)
      (status : Nat) (body : String) (js : Option Json),
      u ⟨(Tools.get_api_client ctx st).1.base_url ++ ("/addresses/" ++ address_hash ++ "/token-transfers"), []⟩ = .response status body js →
      ¬ (200 ≤ status ∧ status ≤ 299) →
      (Tools.get_api_client ctx st).1.get_address_token_transfers u address_hash = .error (.httpStatus status body) ∧
      (Tools.get_address_token_transfers address_hash ctx st u).1 = "Error " ++ "getting address token transfers" ++ ": " ++ (ApiError.httpStatus status body).message) ∧
    (∀ (address_hash : String) (ctx : Option Context) (st : Option DuckChainAPI) (u : Upstream)
      (status : Nat) (body : String) (js : Option Json),
      u ⟨(Tools.get_api_client ctx st).1.base_url ++ ("/addresses/" ++ address_hash ++ "/internal-transactions"), []⟩ = .response status body js →
      ¬ (200 ≤ status ∧ status ≤ 299) →
      (Tools.get_api_client ctx st).1.get_address_internal_transactions u address_hash = .error (.httpStatus status body) ∧
      (Tools.get_address_internal_transactions address_hash ctx st u).1 = "Error " ++ "getting address internal transactions" ++ ": " ++ (ApiError.httpStatus status body).message) ∧
    (∀ (address_hash : String) (ctx : Option Context) (st : Option DuckChainAPI) (u : Upstream)
      (status : Nat) (body : String) (js : Option Json),
      u ⟨(Tools.get_api_client ctx st).1.base_url ++ ("/addresses/" ++ address_hash ++ "/logs"), []⟩ = .response status body js →
      ¬ (200 ≤ status ∧ status ≤ 299) →
      (Tools.get_api_client ctx st).1.get_address_logs u address_hash = .error (.httpStatus status body) ∧
      (Tools.get_address_logs address_hash ctx st u).1 = "Error " ++ "getting address logs" ++ ": " ++ (ApiError.httpStatus status body).message) ∧
    (∀ (address_hash : String) (ctx : Option Context) (st : Option DuckChainAPI) (u : Upstream)
      (status : Nat) (body : String) (js : Option Json),
      u ⟨(Tools.get_api_client ctx st).1.base_url ++ ("/addresses/" ++ address_hash ++ "/blocks-validated"), []⟩ = .response status body js →
      ¬ (200 ≤ status ∧ status ≤ 299) →
      (Tools.get_api_client ctx st).1.get_address_blocks_validated u address_hash = .error (.httpStatus status body) ∧
      (Tools.get_address_blocks_validated address_hash ctx st u).1 = "Error " ++ "getting address blocks validated" ++ ": " ++ (ApiError.httpStatus status body).message) ∧
    (∀ (address_hash : String) (ctx : Option Context) (st : Option DuckChainAPI) (u : Upstream)
      (status : Nat) (body : String) (js : Option Json),
      u ⟨(Tools.get_api_client ctx st).1.base_url ++ ("/addresses/" ++ address_hash ++ "/token-balances"), []⟩ = .response status body js →
      ¬ (200 ≤ status ∧ status ≤ 299) →
      (Tools.get_api_client ctx st).1.get_address_token_balances u address_hash = .error (.httpStatus status body) ∧
      (Tools.get_address_token_balances address_hash ctx st u).1 = "Error " ++ "getting address token balances" ++ ": " ++ (ApiError.httpStatus status body).message) ∧
    (∀ (address_hash : String) (ctx : Option Context) (st : Option DuckChainAPI) (u : Upstream)
      (status : Nat) (body : String) (js : Option Json),
      u ⟨(Tools.get_api_client ctx st).1.base_url ++ ("/addresses/" ++ address_hash ++ "/tokens"), []⟩ = .response status body js →
      ¬ (200 ≤ status ∧ status ≤ 299) →
      (Tools.get_api_client ctx st).1.get_address_tokens u address_hash = .error (.httpStatus status body) ∧
      (Tools.get_address_tokens address_hash ctx st u).1 = "Error " ++ "getting address tokens" ++ ": " ++ (ApiError.httpStatus status body).message) ∧
    (∀ (address_hash : String) (ctx : Option Context) (st : Option DuckChainAPI) (u : Upstream)
      (status : Nat) (body : String) (js : Option Json),
      u ⟨(Tools.get_api_client ctx st).1.base_url ++ ("/addresses/" ++ address_hash ++ "/coin-balance-history"), []⟩ = .response status body js →
      ¬ (200 ≤ status ∧ status ≤ 299) →
      (Tools.get_api_client ctx st).1.get_address_coin_balance_history u address_hash = .error (.httpStatus status body) ∧
      (Tools.get_address_coin_balance_history address_hash ctx st u).1 = "Error " ++ "getting address coin balance history" ++ ": " ++ (ApiError.httpStatus status body).message) ∧
    (∀ (address_hash : String) (ctx : Option Context) (st : Option DuckChainAPI) (u : Upstream)
      (status : Nat) (body : String) (js : Option Json),
      u ⟨(Tools.get_api_client ctx st).1.base_url ++ ("/addresses/" ++ address_hash ++ "/coin-balance-history-by-day"), []⟩ = .response status body js →
      ¬ (200 ≤ status ∧ status ≤ 299) →
      (Tools.get_api_client ctx st).1.get_address_coin_balance_history_by_day u address_hash = .error (.httpStatus status body) ∧
      (Tools.get_address_coin_balance_history_by_day address_hash ctx st u).1 = "Error " ++ "getting address coin balance history by day" ++ ": " ++ (ApiError.httpStatus status body).message) ∧
    (∀ (address_hash : String) (ctx : Option Context) (st : Option DuckChainAPI) (u : Upstream)
      (status : Nat) (body : String) (js : Option Json),
      u ⟨(Tools.get_api_client ctx st).1.base_url ++ ("/addresses/" ++ address_hash ++ "/withdrawals"), []⟩ = .response status body js →
      ¬ (200 ≤ status ∧ status ≤ 299) →
      (Tools.get_api_client ctx st).1.get_address_withdrawals u address_hash = .error (.httpStatus status body) ∧
      (Tools.get_address_withdrawals address_hash ctx st u).1 = "Error " ++ "getting address withdrawals" ++ ": " ++ (ApiError.httpStatus status body).message) ∧
    (∀ (address_hash : String) (ctx : Option Context) (st : Option DuckChainAPI) (u : Upstream)
      (status : Nat) (body : String) (js : Option Json),
      u ⟨(Tools.get_api_client ctx st).1.base_url ++ ("/addresses/" ++ address_hash ++ "/nft"), []⟩ = .response status body js →
      ¬ (200 ≤ status ∧ status ≤ 299) →
      (Tools.get_api_client ctx st).1.get_address_nft u address_hash = .error (.httpStatus status body) ∧
      (Tools.get_address_nft address_hash ctx st u).1 = "Error " ++ "getting address NFT" ++ ": " ++ (ApiError.httpStatus status body).message) ∧
    (∀ (address_hash : String) (ctx : Option Context) (st : Option DuckChainAPI) (u : Upstream)
      (status : Nat) (body : String) (js : Option Json),
      u ⟨(Tools.get_api_client ctx st).1.base_url ++ ("/addresses/" ++ address_hash ++ "/nft/collections"), []⟩ = .response status body js →
      ¬ (200 ≤ status ∧ status ≤ 299) →
      (Tools.get_api_client ctx st).1.get_address_nft_collections u address_hash = .error (.httpStatus status body) ∧
      (Tools.get_address_nft_collections address_hash ctx st u).1 = "Error " ++ "getting address NFT collections" ++ ": " ++ (ApiError.httpStatus status body).message) ∧
    (∀ (ctx : Option Context) (st : Option DuckChainAPI) (u : Upstream)
      (status : Nat) (body : String) (js : Option Json),
      u ⟨(Tools.get_api_client ctx st).1.base_url ++ ("/tokens"), []⟩ = .response status body js →
      ¬ (200 ≤ status ∧ status ≤ 299) →
      (Tools.get_api_client ctx st).1.get_tokens u = .error (.httpStatus status body) ∧
      (Tools.get_tokens_list ctx st u).1 = "Error " ++ "getting tokens list" ++ ": " ++ (ApiError.httpStatus status body).message) ∧
    (∀ (address_hash : String) (ctx : Option Context) (st : Option DuckChainAPI) (u : Upstream)
      (status : Nat) (body : String) (js : Option Json),
      u ⟨(Tools.get_api_client ctx st).1.base_url ++ ("/tokens/" ++ address_hash), []⟩ = .response status body js →
      ¬ (200 ≤ status ∧ status ≤ 299) →
      (Tools.get_api_client ctx st).1.get_token u address_hash = .error (.httpStatus status body) ∧
      (Tools.get_token_details address_hash ctx st u).1 = "Error " ++ "getting token details" ++ ": " ++ (ApiError.httpStatus status body).message) ∧
    (∀ (address_hash : String) (ctx : Option Context) (st : Option DuckChainAPI) (u : Upstream)
      (status : Nat) (body : String) (js : Option Json),
      u ⟨(Tools.get_api_client ctx st).1.base_url ++ ("/tokens/" ++ address_hash ++ "/transfers"), []⟩ = .response status body js →
      ¬ (200 ≤ status ∧ status ≤ 299) →
      (Tools.get_api_client ctx st).1.get_token_transfers_by_token u address_hash = .error (.httpStatus status body) ∧
      (Tools.get_token_transfers_by_token address_hash ctx st u).1 = "Error " ++ "getting token transfers" ++ ": " ++ (ApiError.httpStatus status body).message) ∧
    (∀ (address_hash : String) (ctx : Option Context) (st : Option DuckChainAPI) (u : Upstream)
      (status : Nat) (body : String) (js : Option Json),
      u ⟨(Tools.get_api_client ctx st).1.base_url ++ ("/tokens/" ++ address_hash ++ "/holders"), []⟩ = .response status body js →
      ¬ (200 ≤ status ∧ status ≤ 299) →
      (Tools.get_api_client ctx st).1.get_token_holders u address_hash = .error (.httpStatus status body) ∧
      (Tools.get_token_holders address_hash ctx st u).1 = "Error " ++ "getting token holders" ++ ": " ++ (ApiError.httpStatus status body).message) ∧
    (∀ (address_hash : String) (ctx : Option Context) (st : Option DuckChainAPI) (u : Upstream)
      (status : Nat) (body : String) (js : Option Json),
      u ⟨(Tools.get_api_client ctx st).1.base_url ++ ("/tokens/" ++ address_hash ++ "/counters"), []⟩ = .response status body js →
      ¬ (200 ≤ status ∧ status ≤ 299) →
      (Tools.get_api_client ctx st).1.get_token_counters u address_hash = .error (.httpStatus status body) ∧
      (Tools.get_token_counters address_hash ctx st u).1 = "Error " ++ "getting token counters" ++ ": " ++ (ApiError.httpStatus status body).message) ∧
    (∀ (address_hash : String) (ctx : Option Context) (st : Option DuckChainAPI) (u : Upstream)
      (status : Nat) (body : String) (js : Option Json),
      u ⟨(Tools.get_api_client ctx st).1.base_url ++ ("/tokens/" ++ address_hash ++ "/instances"), []⟩ = .response status body js →
      ¬ (200 ≤ status ∧ status ≤ 299) →
      (Tools.get_api_client ctx st).1.get_token_instances u address_hash = .error (.httpStatus status body) ∧
      (Tools.get_token_instances address_hash ctx st u).1 = "Error " ++ "getting token instances" ++ ": " ++ (ApiError.httpStatus status body).message) ∧
    (∀ (address_hash : String) (instance_id : String) (ctx : Option Context) (st : Option DuckChainAPI) (u : Upstream)
      (status : Nat) (body : String) (js : Option Json),
      u ⟨(Tools.get_api_client ctx st).1.base_url ++ ("/tokens/" ++ address_hash ++ "/instances/" ++ instance_id), []⟩ = .response status body js →
      ¬ (200 ≤ status ∧ status ≤ 299) →
      (Tools.get_api_client ctx st).1.get_token_instance u address_hash instance_id = .error (.httpStatus status body) ∧
      (Tools.get_token_instance_details address_hash instance_id ctx st u).1 = "Error " ++ "getting token instance details" ++ ": " ++ (ApiError.httpStatus status body).message) ∧
    (∀ (address_hash : String) (instance_id : String) (ctx : Option Context) (st : Option DuckChainAPI) (u : Upstream)
      (status : Nat) (body : String) (js : Option Json),
      u ⟨(Tools.get_api_client ctx st).1.base_url ++ ("/tokens/" ++ address_hash ++ "/instances/" ++ instance_id ++ "/transfers"), []⟩ = .response status body js →
      ¬ (200 ≤ status ∧ status ≤ 299) →
      (Tools.get_api_client ctx st).1.get_token_instance_transfers u address_hash instance_id = .error (.httpStatus status body) ∧
      (Tools.get_token_instance_transfers address_hash instance_id ctx st u).1 = "Error " ++ "getting token instance transfers" ++ ": " ++ (ApiError.httpStatus status body).message) ∧
    (∀ (address_hash : String) (instance_id : String) (ctx : Option Context) (st : Option DuckChainAPI) (u : Upstream)
      (status : Nat) (body : String) (js : Option Json),
      u ⟨(Tools.get_api_client ctx st).1.base_url ++ ("/tokens/" ++ address_hash ++ "/instances/" ++ instance_id ++ "/holders"), []⟩ = .response status body js →
      ¬ (200 ≤ status ∧ status ≤ 299) →
      (Tools.get_api_client ctx st).1.get_token_instance_holders u address_hash instance_id = .error (.httpStatus status body) ∧
      (Tools.get_token_instance_holders address_hash instance_id ctx st u).1 = "Error " ++ "getting token instance holders" ++ ": " ++ (ApiError.httpStatus status body).message) ∧
    (∀ (address_hash : String) (instance_id : String) (ctx : Option Context) (st : Option DuckChainAPI) (u : Upstream)
      (status : Nat) (body : String) (js : Option Json),
      u ⟨(Tools.get_api_client ctx st).1.base_url ++ ("/tokens/" ++ address_hash ++ "/instances/" ++ instance_id ++ "/transfers-count"), []⟩ = .response status body js →
      ¬ (200 ≤ status ∧ status ≤ 299) →
      (Tools.get_api_client ctx st).1.get_token_instance_transfers_count u address_hash instance_id = .error (.httpStatus status body) ∧
      (Tools.get_token_instance_transfers_count address_hash instance_id ctx st u).1 = "Error " ++ "getting token instance transfers count" ++ ": " ++ (ApiError.httpStatus status body).message) ∧
    (∀ (address_hash : String) (instance_id : String) (ctx : Option Context) (st : Option DuckChainAPI) (u : Upstream)
      (status : Nat) (body : String) (js : Option Json),
      u ⟨(Tools.get_api_client ctx st).1.base_url ++ ("/tokens/" ++ address_hash ++ "/instances/" ++ instance_id ++ "/refetch-metadata"), []⟩ = .response status body js →
      ¬ (200 ≤ status ∧ status ≤ 299) →
      (Tools.get_api_client ctx st).1.refetch_token_instance_metadata u address_hash instance_id = .error (.httpStatus status body) ∧
      (Tools.refetch_token_instance_metadata_tool address_hash instance_id ctx st u).1 = "Error " ++ "refetching token instance metadata" ++ ": " ++ (ApiError.httpStatus status body).message) ∧
    (∀ (ctx : Option Context) (st : Option DuckChainAPI) (u : Upstream)
      (status : Nat) (body : String) (js : Option Json),
      u ⟨(Tools.get_api_client ctx st).1.base_url ++ ("/smart-contracts"), []⟩ = .response status body js →
      ¬ (200 ≤ status ∧ status ≤ 299) →
      (Tools.get_api_client ctx st).1.get_smart_contracts u = .error (.httpStatus status body) ∧
      (Tools.get_smart_contracts_list ctx st u).1 = "Error " ++ "getting smart contracts list" ++ ": " ++ (ApiError.httpStatus status body).message) ∧
    (∀ (ctx : Option Context) (st : Option DuckChainAPI) (u : Upstream)
      (status : Nat) (body : String) (js : Option Json),
      u ⟨(Tools.get_api_client ctx st).1.base_url ++ ("/smart-contracts/counters"), []⟩ = .response status body js →
      ¬ (200 ≤ status ∧ status ≤ 299) →
      (Tools.get_api_client ctx st).1.get_smart_contracts_counters u = .error (.httpStatus status body) ∧
      (Tools.get_smart_contracts_counters ctx st u).1 = "Error " ++ "getting smart contracts counters" ++ ": " ++ (ApiError.httpStatus status body).message) ∧
    (∀ (address_hash : String) (ctx : Option Context) (st : Option DuckChainAPI) (u : Upstream)
      (status : Nat) (body : String) (js : Option Json),
      u ⟨(Tools.get_api_client ctx st).1.base_url ++ ("/smart-contracts/" ++ address_hash), []⟩ = .response status body js →
      ¬ (200 ≤ status ∧ status ≤ 299) →
      (Tools.get_api_client ctx st).1.get_smart_contract u address_hash = .error (.httpStatus status body) ∧
      (Tools.get_smart_contract_details address_hash ctx st u).1 = "Error " ++ "getting smart contract details" ++ ": " ++ (ApiError.httpStatus status body).message) := by
  refine ⟨?_, ?_, ?_, ?_, ?_, ?_, ?_, ?_, ?_, ?_, ?_, ?_, ?_, ?_, ?_, ?_, ?_, ?_, ?_, ?_, ?_, ?_, ?_, ?_, ?_, ?_, ?_, ?_, ?_, ?_, ?_, ?_, ?_, ?_, ?_, ?_, ?_, ?_, ?_, ?_, ?_, ?_, ?_, ?_, ?_, ?_, ?_, ?_, ?_, ?_, ?_⟩
  · intro query ctx st u status body js h1 h2
    have hc : (Tools.get_api_client ctx st).1.search u query = Except.error (ApiError.httpStatus status body) := by
      show processResponse (u ⟨(Tools.get_api_client ctx st).1.base_url ++ ("/search"), [("q", query)]⟩) = Except.error (ApiError.httpStatus status body)
      rw [h1]
      exact processResponse_nonsuccess status body js h2
    exact ⟨hc, toolResult_error _ _ _ _ hc⟩
  · intro query ctx st u status body js h1 h2
    have hc : (Tools.get_api_client ctx st).1.search_redirect u query = Except.error (ApiError.httpStatus status body) := by
      show processResponse (u ⟨(Tools.get_api_client ctx st).1.base_url ++ ("/search/check-redirect"), [("q", query)]⟩) = Except.error (ApiError.httpStatus status body)
      rw [h1]
      exact processResponse_nonsuccess status body js h2
    exact ⟨hc, toolResult_error _ _ _ _ hc⟩
  · intro filter_type transaction_type method ctx st u status body js h1 h2
    have hc : (Tools.get_api_client ctx st).1.get_transactions u filter_type transaction_type method = Except.error (ApiError.httpStatus status body) := by
      show processResponse (u ⟨(Tools.get_api_client ctx st).1.base_url ++ ("/transactions"), optQueryParam "filter" filter_type ++ optQueryParam "type" transaction_type ++ optQueryParam "method" method⟩) = Except.error (ApiError.httpStatus status body)
      rw [h1]
      exact processResponse_nonsuccess status body js h2
    exact ⟨hc, toolResult_error _ _ _ _ hc⟩
  · intro transaction_hash ctx st u status body js h1 h2
    have hc : (Tools.get_api_client ctx st).1.get_transaction u transaction_hash = Except.error (ApiError.httpStatus status body) := by
      show processResponse (u ⟨(Tools.get_api_client ctx st).1.base_url ++ ("/transactions/" ++ transaction_hash), []⟩) = Except.error (ApiError.httpStatus status body)
      rw [h1]
      exact processResponse_nonsuccess status body js h2
    exact ⟨hc, toolResult_error _ _ _ _ hc⟩
  · intro transaction_hash token_type ctx st u status body js h1 h2
    have hc : (Tools.get_api_client ctx st).1.get_transaction_token_transfers u transaction_hash token_type = Except.error (ApiError.httpStatus status body) := by
      show processResponse (u ⟨(Tools.get_api_client ctx st).1.base_url ++ ("/transactions/" ++ transaction_hash ++ "/token-transfers"), optQueryParam "type" token_type⟩) = Except.error (ApiError.httpStatus status body)
      rw [h1]
      exact processResponse_nonsuccess status body js h2
    exact ⟨hc, toolResult_error _ _ _ _ hc⟩
  · intro transaction_hash ctx st u status body js h1 h2
    have hc : (Tools.get_api_client ctx st).1.get_transaction_internal_transactions u transaction_hash = Except.error (ApiError.httpStatus status body) := by
      show processResponse (u ⟨(Tools.get_api_client ctx st).1.base_url ++ ("/transactions/" ++ transaction_hash ++ "/internal-transactions"), []⟩) = Except.error (ApiError.httpStatus status body)
      rw [h1]
      exact processResponse_nonsuccess status body js h2
    exact ⟨hc, toolResult_error _ _ _ _ hc⟩
  · intro transaction_hash ctx st u status body js h1 h2
    have hc : (Tools.get_api_client ctx st).1.get_transaction_logs u transaction_hash = Except.error (ApiError.httpStatus status body) := by
      show processResponse (u ⟨(Tools.get_api_client ctx st).1.base_url ++ ("/transactions/" ++ transaction_hash ++ "/logs"), []⟩) = Except.error (ApiError.httpStatus status body)
      rw [h1]
      exact processResponse_nonsuccess status body js h2
    exact ⟨hc, toolResult_error _ _ _ _ hc⟩
  · intro transaction_hash ctx st u status body js h1 h2
    have hc : (Tools.get_api_client ctx st).1.get_transaction_raw_trace u transaction_hash = Except.error (ApiError.httpStatus status body) := by
      show processResponse (u ⟨(Tools.get_api_client ctx st).1.base_url ++ ("/transactions/" ++ transaction_hash ++ "/raw-trace"), []⟩) = Except.error (ApiError.httpStatus status body)
      rw [h1]
      exact processResponse_nonsuccess status body js h2
    exact ⟨hc, toolResult_error _ _ _ _ hc⟩
  · intro transaction_hash ctx st u status body js h1 h2
    have hc : (Tools.get_api_client ctx st).1.get_transaction_state_changes u transaction_hash = Except.error (ApiError.httpStatus status body) := by
      show processResponse (u ⟨(Tools.get_api_client ctx st).1.base_url ++ ("/transactions/" ++ transaction_hash ++ "/state-changes"), []⟩) = Except.error (ApiError.httpStatus status body)
      rw [h1]
      exact processResponse_nonsuccess status body js h2
    exact ⟨hc, toolResult_error _ _ _ _ hc⟩
  · intro transaction_hash ctx st u status body js h1 h2
    have hc : (Tools.get_api_client ctx st).1.get_transaction_summary u transaction_hash = Except.error (ApiError.httpStatus status body) := by
      show processResponse (u ⟨(Tools.get_api_client ctx st).1.base_url ++ ("/transactions/" ++ transaction_hash ++ "/summary"), []⟩) = Except.error (ApiError.httpStatus status body)
      rw [h1]
      exact processResponse_nonsuccess status body js h2
    exact ⟨hc, toolResult_error _ _ _ _ hc⟩
  · intro block_type ctx st u status body js h1 h2
    have hc : (Tools.get_api_client ctx st).1.get_blocks u block_type = Except.error (ApiError.httpStatus status body) := by
      show processResponse (u ⟨(Tools.get_api_client ctx st).1.base_url ++ ("/blocks"), optQueryParam "type" block_type⟩) = Except.error (ApiError.httpStatus status body)
      rw [h1]
      exact processResponse_nonsuccess status body js h2
    exact ⟨hc, toolResult_error _ _ _ _ hc⟩
  · intro block_number_or_hash ctx st u status body js h1 h2
    have hc : (Tools.get_api_client ctx st).1.get_block u block_number_or_hash = Except.error (ApiError.httpStatus status body) := by
      show processResponse (u ⟨(Tools.get_api_client ctx st).1.base_url ++ ("/blocks/" ++ block_number_or_hash), []⟩) = Except.error (ApiError.httpStatus status body)
      rw [h1]
      exact processResponse_nonsuccess status body js h2
    exact ⟨hc, toolResult_error _ _ _ _ hc⟩
  · intro block_number_or_hash ctx st u status body js h1 h2
    have hc : (Tools.get_api_client ctx st).1.get_block_transactions u block_number_or_hash = Except.error (ApiError.httpStatus status body) := by
      show processResponse (u ⟨(Tools.get_api_client ctx st).1.base_url ++ ("/blocks/" ++ block_number_or_hash ++ "/transactions"), []⟩) = Except.error (ApiError.httpStatus status body)
      rw [h1]
      exact processResponse_nonsuccess status body js h2
    exact ⟨hc, toolResult_error _ _ _ _ hc⟩
  · intro block_number_or_hash ctx st u status body js h1 h2
    have hc : (Tools.get_api_client ctx st).1.get_block_withdrawals u block_number_or_hash = Except.error (ApiError.httpStatus status body) := by
      show processResponse (u ⟨(Tools.get_api_client ctx st).1.base_url ++ ("/blocks/" ++ block_number_or_hash ++ "/withdrawals"), []⟩) = Except.error (ApiError.httpStatus status body)
      rw [h1]
      exact processResponse_nonsuccess status body js h2
    exact ⟨hc, toolResult_error _ _ _ _ hc⟩
  · intro ctx st u status body js h1 h2
    have hc : (Tools.get_api_client ctx st).1.get_token_transfers u = Except.error (ApiError.httpStatus status body) := by
      show processResponse (u ⟨(Tools.get_api_client ctx st).1.base_url ++ ("/token-transfers"), []⟩) = Except.error (ApiError.httpStatus status body)
      rw [h1]
      exact processResponse_nonsuccess status body js h2
    exact ⟨hc, toolResult_error _ _ _ _ hc⟩
  · intro ctx st u status body js h1 h2
    have hc : (Tools.get_api_client ctx st).1.get_internal_transactions u = Except.error (ApiError.httpStatus status body) := by
      show processResponse (u ⟨(Tools.get_api_client ctx st).1.base_url ++ ("/internal-transactions"), []⟩) = Except.error (ApiError.httpStatus status body)
      rw [h1]
      exact processResponse_nonsuccess status body js h2
    exact ⟨hc, toolResult_error _ _ _ _ hc⟩
  · intro ctx st u status body js h1 h2
    have hc : (Tools.get_api_client ctx st).1.get_main_page_transactions u = Except.error (ApiError.httpStatus status body) := by
      show processResponse (u ⟨(Tools.get_api_client ctx st).1.base_url ++ ("/main-page/transactions"), []⟩) = Except.error (ApiError.httpStatus status body)
      rw [h1]
      exact processResponse_nonsuccess status body js h2
    exact ⟨hc, toolResult_error _ _ _ _ hc⟩
  · intro ctx st u status body js h1 h2
    have hc : (Tools.get_api_client ctx st).1.get_main_page_blocks u = Except.error (ApiError.httpStatus status body) := by
      show processResponse (u ⟨(Tools.get_api_client ctx st).1.base_url ++ ("/main-page/blocks"), []⟩) = Except.error (ApiError.httpStatus status body)
      rw [h1]
      exact processResponse_nonsuccess status body js h2
    exact ⟨hc, toolResult_error _ _ _ _ hc⟩
  · intro ctx st u status body js h1 h2
    have hc : (Tools.get_api_client ctx st).1.get_indexing_status u = Except.error (ApiError.httpStatus status body) := by
      show processResponse (u ⟨(Tools.get_api_client ctx st).1.base_url ++ ("/main-page/indexing-status"), []⟩) = Except.error (ApiError.httpStatus status body)
      rw [h1]
      exact processResponse_nonsuccess status body js h2
    exact ⟨hc, toolResult_error _ _ _ _ hc⟩
  · intro ctx st u status body js h1 h2
    have hc : (Tools.get_api_client ctx st).1.get_stats u = Except.error (ApiError.httpStatus status body) := by
      show processResponse (u ⟨(Tools.get_api_client ctx st).1.base_url ++ ("/stats"), []⟩) = Except.error (ApiError.httpStatus status body)
      rw [h1]
      exact processResponse_nonsuccess status body js h2
    exact ⟨hc, toolResult_error _ _ _ _ hc⟩
  · intro ctx st u status body js h1 h2
    have hc : (Tools.get_api_client ctx st).1.get_transactions_chart u = Except.error (ApiError.httpStatus status body) := by
      show processResponse (u ⟨(Tools.get_api_client ctx st).1.base_url ++ ("/stats/charts/transactions"), []⟩) = Except.error (ApiError.httpStatus status body)
      rw [h1]
      exact processResponse_nonsuccess status body js h2
    exact ⟨hc, toolResult_error _ _ _ _ hc⟩
  · intro ctx st u status body js h1 h2
    have hc : (Tools.get_api_client ctx st).1.get_market_chart u = Except.error (ApiError.httpStatus status body) := by
      show processResponse (u ⟨(Tools.get_api_client ctx st).1.base_url ++ ("/stats/charts/market"), []⟩) = Except.error (ApiError.httpStatus status body)
      rw [h1]
      exact processResponse_nonsuccess status body js h2
    exact ⟨hc, toolResult_error _ _ _ _ hc⟩
  · intro ctx st u status body js h1 h2
    have hc : (Tools.get_api_client ctx st).1.get_addresses u = Except.error (ApiError.httpStatus status body) := by
      show processResponse (u ⟨(Tools.get_api_client ctx st).1.base_url ++ ("/addresses"), []⟩) = Except.error (ApiError.httpStatus status body)
      rw [h1]
      exact processResponse_nonsuccess status body js h2
    exact ⟨hc, toolResult_error _ _ _ _ hc⟩
  · intro address_hash ctx st u status body js h1 h2
    have hc : (Tools.get_api_client ctx st).1.get_address u address_hash = Except.error (ApiError.httpStatus status body) := by
      show processResponse (u ⟨(Tools.get_api_client ctx st).1.base_url ++ ("/addresses/" ++ address_hash), []⟩) = Except.error (ApiError.httpStatus status body)
      rw [h1]
      exact processResponse_nonsuccess status body js h2
    exact ⟨hc, toolResult_error _ _ _ _ hc⟩
  · intro address_hash ctx st u status body js h1 h2
    have hc : (Tools.get_api_client ctx st).1.get_address_counters u address_hash = Except.error (ApiError.httpStatus status body) := by
      show processResponse (u ⟨(Tools.get_api_client ctx st).1.base_url ++ ("/addresses/" ++ address_hash ++ "/counters"), []⟩) = Except.error (ApiError.httpStatus status body)
      rw [h1]
      exact processResponse_nonsuccess status body js h2
    exact ⟨hc, toolResult_error _ _ _ _ hc⟩
  · intro address_hash ctx st u status body js h1 h2
    have hc : (Tools.get_api_client ctx st).1.get_address_transactions u address_hash = Except.error (ApiError.httpStatus status body) := by
      show processResponse (u ⟨(Tools.get_api_client ctx st).1.base_url ++ ("/addresses/" ++ address_hash ++ "/transactions"), []⟩) = Except.error (ApiError.httpStatus status body)
      rw [h1]
      exact processResponse_nonsuccess status body js h2
    exact ⟨hc, toolResult_error _ _ _ _ hc⟩
  · intro address_hash ctx st u status body js h1 h2
    have hc : (Tools.get_api_client ctx st).1.get_address_token_transfers u address_hash = Except.error (ApiError.httpStatus status body) := by
      show processResponse (u ⟨(Tools.get_api_client ctx st).1.base_url ++ ("/addresses/" ++ address_hash ++ "/token-transfers"), []⟩) = Except.error (ApiError.httpStatus status body)
      rw [h1]
      exact processResponse_nonsuccess status body js h2
    exact ⟨hc, toolResult_error _ _ _ _ hc⟩
  · intro address_hash ctx st u status body js h1 h2
    have hc : (Tools.get_api_client ctx st).1.get_address_internal_transactions u address_hash = Except.error (ApiError.httpStatus status body) := by
      show processResponse (u ⟨(Tools.get_api_client ctx st).1.base_url ++ ("/addresses/" ++ address_hash ++ "/internal-transactions"), []⟩) = Except.error (ApiError.httpStatus status body)
      rw [h1]
      exact processResponse_nonsuccess status body js h2
    exact ⟨hc, toolResult_error _ _ _ _ hc⟩
  · intro address_hash ctx st u status body js h1 h2
    have hc : (Tools.get_api_client ctx st).1.get_address_logs u address_hash = Except.error (ApiError.httpStatus status body) := by
      show processResponse (u ⟨(Tools.get_api_client ctx st).1.base_url ++ ("/addresses/" ++ address_hash ++ "/logs"), []⟩) = Except.error (ApiError.httpStatus status body)
      rw [h1]
      exact processResponse_nonsuccess status body js h2
    exact ⟨hc, toolResult_error _ _ _ _ hc⟩
  · intro address_hash ctx st u status body js h1 h2
    have hc : (Tools.get_api_client ctx st).1.get_address_blocks_validated u address_hash = Except.error (ApiError.httpStatus status body) := by
      show processResponse (u ⟨(Tools.get_api_client ctx st).1.base_url ++ ("/addresses/" ++ address_hash ++ "/blocks-validated"), []⟩) = Except.error (ApiError.httpStatus status body)
      rw [h1]
      exact processResponse_nonsuccess status body js h2
    exact ⟨hc, toolResult_error _ _ _ _ hc⟩
  · intro address_hash ctx st u status body js h1 h2
    have hc : (Tools.get_api_client ctx st).1.get_address_token_balances u address_hash = Except.error (ApiError.httpStatus status body) := by
      show processResponse (u ⟨(Tools.get_api_client ctx st).1.base_url ++ ("/addresses/" ++ address_hash ++ "/token-balances"), []⟩) = Except.error (ApiError.httpStatus status body)
      rw [h1]
      exact processResponse_nonsuccess status body js h2
    exact ⟨hc, toolResult_error _ _ _ _ hc⟩
  · intro address_hash ctx st u status body js h1 h2
    have hc : (Tools.get_api_client ctx st).1.get_address_tokens u address_hash = Except.error (ApiError.httpStatus status body) := by
      show processResponse (u ⟨(Tools.get_api_client ctx st).1.base_url ++ ("/addresses/" ++ address_hash ++ "/tokens"), []⟩) = Except.error (ApiError.httpStatus status body)
      rw [h1]
      exact processResponse_nonsuccess status body js h2
    exact ⟨hc, toolResult_error _ _ _ _ hc⟩
  · intro address_hash ctx st u status body js h1 h2
    have hc : (Tools.get_api_client ctx st).1.get_address_coin_balance_history u address_hash = Except.error (ApiError.httpStatus status body) := by
      show processResponse (u ⟨(Tools.get_api_client ctx st).1.base_url ++ ("/addresses/" ++ address_hash ++ "/coin-balance-history"), []⟩) = Except.error (ApiError.httpStatus status body)
      rw [h1]
      exact processResponse_nonsuccess status body js h2
    exact ⟨hc, toolResult_error _ _ _ _ hc⟩
  · intro address_hash ctx st u status body js h1 h2
    have hc : (Tools.get_api_client ctx st).1.get_address_coin_balance_history_by_day u address_hash = Except.error (ApiError.httpStatus status body) := by
      show processResponse (u ⟨(Tools.get_api_client ctx st).1.base_url ++ ("/addresses/" ++ address_hash ++ "/coin-balance-history-by-day"), []⟩) = Except.error (ApiError.httpStatus status body)
      rw [h1]
      exact processResponse_nonsuccess status body js h2
    exact ⟨hc, toolResult_error _ _ _ _ hc⟩
  · intro address_hash ctx st u status body js h1 h2
    have hc : (Tools.get_api_client ctx st).1.get_address_withdrawals u address_hash = Except.error (ApiError.httpStatus status body) := by
      show processResponse (u ⟨(Tools.get_api_client ctx st).1.base_url ++ ("/addresses/" ++ address_hash ++ "/withdrawals"), []⟩) = Except.error (ApiError.httpStatus status body)
      rw [h1]
      exact processResponse_nonsuccess status body js h2
    exact ⟨hc, toolResult_error _ _ _ _ hc⟩
  · intro address_hash ctx st u status body js h1 h2
    have hc : (Tools.get_api_client ctx st).1.get_address_nft u address_hash = Except.error (ApiError.httpStatus status body) := by
      show processResponse (u ⟨(Tools.get_api_client ctx st).1.base_url ++ ("/addresses/" ++ address_hash ++ "/nft"), []⟩) = Except.error (ApiError.httpStatus status body)
      rw [h1]
      exact processResponse_nonsuccess status body js h2
    exact ⟨hc, toolResult_error _ _ _ _ hc⟩
  · intro address_hash ctx st u status body js h1 h2
    have hc : (Tools.get_api_client ctx st).1.get_address_nft_collections u address_hash = Except.error (ApiError.httpStatus status body) := by
      show processResponse (u ⟨(Tools.get_api_client ctx st).1.base_url ++ ("/addresses/" ++ address_hash ++ "/nft/collections"), []⟩) = Except.error (ApiError.httpStatus status body)
      rw [h1]
      exact processResponse_nonsuccess status body js h2
    exact ⟨hc, toolResult_error _ _ _ _ hc⟩
  · intro ctx st u status body js h1 h2
    have hc : (Tools.get_api_client ctx st).1.get_tokens u = Except.error (ApiError.httpStatus status body) := by
      show processResponse (u ⟨(Tools.get_api_client ctx st).1.base_url ++ ("/tokens"), []⟩) = Except.error (ApiError.httpStatus status body)
      rw [h1]
      exact processResponse_nonsuccess status body js h2
    exact ⟨hc, toolResult_error _ _ _ _ hc⟩
  · intro address_hash ctx st u status body js h1 h2
    have hc : (Tools.get_api_client ctx st).1.get_token u address_hash = Except.error (ApiError.httpStatus status body) := by
      show processResponse (u ⟨(Tools.get_api_client ctx st).1.base_url ++ ("/tokens/" ++ address_hash), []⟩) = Except.error (ApiError.httpStatus status body)
      rw [h1]
      exact processResponse_nonsuccess status body js h2
    exact ⟨hc, toolResult_error _ _ _ _ hc⟩
  · intro address_hash ctx st u status body js h1 h2
    have hc : (Tools.get_api_client ctx st).1.get_token_transfers_by_token u address_hash = Except.error (ApiError.httpStatus status body) := by
      show processResponse (u ⟨(Tools.get_api_client ctx st).1.base_url ++ ("/tokens/" ++ address_hash ++ "/transfers"), []⟩) = Except.error (ApiError.httpStatus status body)
      rw [h1]
      exact processResponse_nonsuccess status body js h2
    exact ⟨hc, toolResult_error _ _ _ _ hc⟩
  · intro address_hash ctx st u status body js h1 h2
    have hc : (Tools.get_api_client ctx st).1.get_token_holders u address_hash = Except.error (ApiError.httpStatus status body) := by
      show processResponse (u ⟨(Tools.get_api_client ctx st).1.base_url ++ ("/tokens/" ++ address_hash ++ "/holders"), []⟩) = Except.error (ApiError.httpStatus status body)
      rw [h1]
      exact processResponse_nonsuccess status body js h2
    exact ⟨hc, toolResult_error _ _ _ _ hc⟩
  · intro address_hash ctx st u status body js h1 h2
    have hc : (Tools.get_api_client ctx st).1.get_token_counters u address_hash = Except.error (ApiError.httpStatus status body) := by
      show processResponse (u ⟨(Tools.get_api_client ctx st).1.base_url ++ ("/tokens/" ++ address_hash ++ "/counters"), []⟩) = Except.error (ApiError.httpStatus status body)
      rw [h1]
      exact processResponse_nonsuccess status body js h2
    exact ⟨hc, toolResult_error _ _ _ _ hc⟩
  · intro address_hash ctx st u status body js h1 h2
    have hc : (Tools.get_api_client ctx st).1.get_token_instances u address_hash = Except.error (ApiError.httpStatus status body) := by
      show processResponse (u ⟨(Tools.get_api_client ctx st).1.base_url ++ ("/tokens/" ++ address_hash ++ "/instances"), []⟩) = Except.error (ApiError.httpStatus status body)
      rw [h1]
      exact processResponse_nonsuccess status body js h2
    exact ⟨hc, toolResult_error _ _ _ _ hc⟩
  · intro address_hash instance_id ctx st u status body js h1 h2
    have hc : (Tools.get_api_client ctx st).1.get_token_instance u address_hash instance_id = Except.error (ApiError.httpStatus status body) := by
      show processResponse (u ⟨(Tools.get_api_client ctx st).1.base_url ++ ("/tokens/" ++ address_hash ++ "/instances/" ++ instance_id), []⟩) = Except.error (ApiError.httpStatus status body)
      rw [h1]
      exact processResponse_nonsuccess status body js h2
    exact ⟨hc, toolResult_error _ _ _ _ hc⟩
  · intro address_hash instance_id ctx st u status body js h1 h2
    have hc : (Tools.get_api_client ctx st).1.get_token_instance_transfers u address_hash instance_id = Except.error (ApiError.httpStatus status body) := by
      show processResponse (u ⟨(Tools.get_api_client ctx st).1.base_url ++ ("/tokens/" ++ address_hash ++ "/instances/" ++ instance_id ++ "/transfers"), []⟩) = Except.error (ApiError.httpStatus status body)
      rw [h1]
      exact processResponse_nonsuccess status body js h2
    exact ⟨hc, toolResult_error _ _ _ _ hc⟩
  · intro address_hash instance_id ctx st u status body js h1 h2
    have hc : (Tools.get_api_client ctx st).1.get_token_instance_holders u address_hash instance_id = Except.error (ApiError.httpStatus status body) := by
      show processResponse (u ⟨(Tools.get_api_client ctx st).1.base_url ++ ("/tokens/" ++ address_hash ++ "/instances/" ++ instance_id ++ "/holders"), []⟩) = Except.error (ApiError.httpStatus status body)
      rw [h1]
      exact processResponse_nonsuccess status body js h2
    exact ⟨hc, toolResult_error _ _ _ _ hc⟩
  · intro address_hash instance_id ctx st u status body js h1 h2
    have hc : (Tools.get_api_client ctx st).1.get_token_instance_transfers_count u address_hash instance_id = Except.error (ApiError.httpStatus status body) := by
      show processResponse (u ⟨(Tools.get_api_client ctx st).1.base_url ++ ("/tokens/" ++ address_hash ++ "/instances/" ++ instance_id ++ "/transfers-count"), []⟩) = Except.error (ApiError.httpStatus status body)
      rw [h1]
      exact processResponse_nonsuccess status body js h2
    exact ⟨hc, toolResult_error _ _ _ _ hc⟩
  · intro address_hash instance_id ctx st u status body js h1 h2
    have hc : (Tools.get_api_client ctx st).1.refetch_token_instance_metadata u address_hash instance_id = Except.error (ApiError.httpStatus status body) := by
      show processResponse (u ⟨(Tools.get_api_client ctx st).1.base_url ++ ("/tokens/" ++ address_hash ++ "/instances/" ++ instance_id ++ "/refetch-metadata"), []⟩) = Except.error (ApiError.httpStatus status body)
      rw [h1]
      exact processResponse_nonsuccess status body js h2
    exact ⟨hc, toolResult_error _ _ _ _ hc⟩
  · intro ctx st u status body js h1 h2
    have hc : (Tools.get_api_client ctx st).1.get_smart_contracts u = Except.error (ApiError.httpStatus status body) := by
      show processResponse (u ⟨(Tools.get_api_client ctx st).1.base_url ++ ("/smart-contracts"), []⟩) = Except.error (ApiError.httpStatus status body)
      rw [h1]
      exact processResponse_nonsuccess status body js h2
    exact ⟨hc, toolResult_error _ _ _ _ hc⟩
  · intro ctx st u status body js h1 h2
    have hc : (Tools.get_api_client ctx st).1.get_smart_contracts_counters u = Except.error (ApiError.httpStatus status body) := by
      show processResponse (u ⟨(Tools.get_api_client ctx st).1.base_url ++ ("/smart-contracts/counters"), []⟩) = Except.error (ApiError.httpStatus status body)
      rw [h1]
      exact processResponse_nonsuccess status body js h2
    exact ⟨hc, toolResult_error _ _ _ _ hc⟩
  · intro address_hash ctx st u status body js h1 h2
    have hc : (Tools.get_api_client ctx st).1.get_smart_contract u address_hash = Except.error (ApiError.httpStatus status body) := by
      show processResponse (u ⟨(Tools.get_api_client ctx st).1.base_url ++ ("/smart-contracts/" ++ address_hash), []⟩) = Except.error (ApiError.httpStatus status body)
      rw [h1]
      exact processResponse_nonsuccess status body js h2
    exact ⟨hc, toolResult_error _ _ _ _ hc⟩

/-- C5: every caller-supplied path parameter is substituted verbatim into the
endpoint path of the outgoing request (the client itself applies no validation
or transformation; URL encoding is left to the HTTP library); in particular
`get_address_details "0xABC"` requests `/addresses/0xABC` and
`get_token_instance_holders "0xTOKEN" "7"` requests
`/tokens/0xTOKEN/instances/7/holders` (witnessed end to end through a spy
upstream that echoes the request it receives). -/
theorem c5_path_params_verbatim :
    (∀ (api : DuckChainAPI) (u : Upstream) (block_number_or_hash : String),
      api.get_block u block_number_or_hash = processResponse (u ⟨api.base_url ++ ("/blocks/" ++ block_number_or_hash), []⟩)) ∧
    (∀ (api : DuckChainAPI) (u : Upstream) (block_number_or_hash : String),
      api.get_block_transactions u block_number_or_hash = processResponse (u ⟨api.base_url ++ ("/blocks/" ++ block_number_or_hash ++ "/transactions"), []⟩)) ∧
    (∀ (api : DuckChainAPI) (u : Upstream) (block_number_or_hash : String),
      api.get_block_withdrawals u block_number_or_hash = processResponse (u ⟨api.base_url ++ ("/blocks/" ++ block_number_or_hash ++ "/withdrawals"), []⟩)) ∧
    (∀ (api : DuckChainAPI) (u : Upstream) (address_hash : String),
      api.get_address u address_hash = processResponse (u ⟨api.base_url ++ ("/addresses/" ++ address_hash), []⟩)) ∧
    (∀ (api : DuckChainAPI) (u : Upstream) (address_hash : String),
      api.get_address_counters u address_hash = processResponse (u ⟨api.base_url ++ ("/addresses/" ++ address_hash ++ "/counters"), []⟩)) ∧
    (∀ (api : DuckChainAPI) (u : Upstream) (address_hash : String),
      api.get_address_transactions u address_hash = processResponse (u ⟨api.base_url ++ ("/addresses/" ++ address_hash ++ "/transactions"), []⟩)) ∧
    (∀ (api : DuckChainAPI) (u : Upstream) (address_hash : String),
      api.get_address_token_transfers u address_hash = processResponse (u ⟨api.base_url ++ ("/addresses/" ++ address_hash ++ "/token-transfers"), []⟩)) ∧
    (∀ (api : DuckChainAPI) (u : Upstream) (address_hash : String),
      api.get_address_internal_transactions u address_hash = processResponse (u ⟨api.base_url ++ ("/addresses/" ++ address_hash ++ "/internal-transactions"), []⟩)) ∧
    (∀ (api : DuckChainAPI) (u : Upstream) (address_hash : String),
      api.get_address_logs u address_hash = processResponse (u ⟨api.base_url ++ ("/addresses/" ++ address_hash ++ "/logs"), []⟩)) ∧
    (∀ (api : DuckChainAPI) (u : Upstream) (address_hash : String),
      api.get_address_blocks_validated u address_hash = processResponse (u ⟨api.base_url ++ ("/addresses/" ++ address_hash ++ "/blocks-validated"), []⟩)) ∧
    (∀ (api : DuckChainAPI) (u : Upstream) (address_hash : String),
      api.get_address_token_balances u address_hash = processResponse (u ⟨api.base_url ++ ("/addresses/" ++ address_hash ++ "/token-balances"), []⟩)) ∧
    (∀ (api : DuckChainAPI) (u : Upstream) (address_hash : String),
      api.get_address_tokens u address_hash = processResponse (u ⟨api.base_url ++ ("/addresses/" ++ address_hash ++ "/tokens"), []⟩)) ∧
    (∀ (api : DuckChainAPI) (u : Upstream) (address_hash : String),
      api.get_address_coin_balance_history u address_hash = processResponse (u ⟨api.base_url ++ ("/addresses/" ++ address_hash ++ "/coin-balance-history"), []⟩)) ∧
    (∀ (api : DuckChainAPI) (u : Upstream) (address_hash : String),
      api.get_address_coin_balance_history_by_day u address_hash = processResponse (u ⟨api.base_url ++ ("/addresses/" ++ address_hash ++ "/coin-balance-history-by-day"), []⟩)) ∧
    (∀ (api : DuckChainAPI) (u : Upstream) (address_hash : String),
      api.get_address_withdrawals u address_hash = processResponse (u ⟨api.base_url ++ ("/addresses/" ++ address_hash ++ "/withdrawals"), []⟩)) ∧
    (∀ (api : DuckChainAPI) (u : Upstream) (address_hash : String),
      api.get_address_nft u address_hash = processResponse (u ⟨api.base_url ++ ("/addresses/" ++ address_hash ++ "/nft"), []⟩)) ∧
    (∀ (api : DuckChainAPI) (u : Upstream) (address_hash : String),
      api.get_address_nft_collections u address_hash = processResponse (u ⟨api.base_url ++ ("/addresses/" ++ address_hash ++ "/nft/collections"), []⟩)) ∧
    (∀ (api : DuckChainAPI) (u : Upstream) (address_hash : String),
      api.get_token u address_hash = processResponse (u ⟨api.base_url ++ ("/tokens/" ++ address_hash), []⟩)) ∧
    (∀ (api : DuckChainAPI) (u : Upstream) (address_hash : String),
      api.get_token_transfers_by_token u address_hash = processResponse (u ⟨api.base_url ++ ("/tokens/" ++ address_hash ++ "/transfers"), []⟩)) ∧
    (∀ (api : DuckChainAPI) (u : Upstream) (address_hash : String),
      api.get_token_holders u address_hash = processResponse (u ⟨api.base_url ++ ("/tokens/" ++ address_hash ++ "/holders"), []⟩)) ∧
    (∀ (api : DuckChainAPI) (u : Upstream) (address_hash : String),
      api.get_token_counters u address_hash = processResponse (u ⟨api.base_url ++ ("/tokens/" ++ address_hash ++ "/counters"), []⟩)) ∧
    (∀ (api : DuckChainAPI) (u : Upstream) (address_hash : String),
      api.get_token_instances u address_hash = processResponse (u ⟨api.base_url ++ ("/tokens/" ++ address_hash ++ "/instances"), []⟩)) ∧
    (∀ (api : DuckChainAPI) (u : Upstream) (address_hash : String) (instance_id : String),
      api.get_token_instance u address_hash instance_id = processResponse (u ⟨api.base_url ++ ("/tokens/" ++ address_hash ++ "/instances/" ++ instance_id), []⟩)) ∧
    (∀ (api : DuckChainAPI) (u : Upstream) (address_hash : String) (instance_id : String),
      api.get_token_instance_transfers u address_hash instance_id = processResponse (u ⟨api.base_url ++ ("/tokens/" ++ address_hash ++ "/instances/" ++ instance_id ++ "/transfers"), []⟩)) ∧
    (∀ (api : DuckChainAPI) (u : Upstream) (address_hash : String) (instance_id : String),
      api.get_token_instance_holders u address_hash instance_id = processResponse (u ⟨api.base_url ++ ("/tokens/" ++ address_hash ++ "/instances/" ++ instance_id ++ "/holders"), []⟩)) ∧
    (∀ (api : DuckChainAPI) (u : Upstream) (address_hash : String) (instance_id : String),
      api.get_token_instance_transfers_count u address_hash instance_id = processResponse (u ⟨api.base_url ++ ("/tokens/" ++ address_hash ++ "/instances/" ++ instance_id ++ "/transfers-count"), []⟩)) ∧
    (∀ (api : DuckChainAPI) (u : Upstream) (address_hash : String) (instance_id : String),
      api.refetch_token_instance_metadata u address_hash instance_id = processResponse (u ⟨api.base_url ++ ("/tokens/" ++ address_hash ++ "/instances/" ++ instance_id ++ "/refetch-metadata"), []⟩)) ∧
    (∀ (api : DuckChainAPI) (u : Upstream) (address_hash : String),
      api.get_smart_contract u address_hash = processResponse (u ⟨api.base_url ++ ("/smart-contracts/" ++ address_hash), []⟩)) ∧
    (∀ (api : DuckChainAPI) (u : Upstream) (transaction_hash : String),
      api.get_transaction u transaction_hash = processResponse (u ⟨api.base_url ++ ("/transactions/" ++ transaction_hash), []⟩)) ∧
    (∀ (api : DuckChainAPI) (u : Upstream) (transaction_hash : String) (type : Option String),
      api.get_transaction_token_transfers u transaction_hash type = processResponse (u ⟨api.base_url ++ ("/transactions/" ++ transaction_hash ++ "/token-transfers"), optQueryParam "type" type⟩)) ∧
    (∀ (api : DuckChainAPI) (u : Upstream) (transaction_hash : String),
      api.get_transaction_internal_transactions u transaction_hash = processResponse (u ⟨api.base_url ++ ("/transactions/" ++ transaction_hash ++ "/internal-transactions"), []⟩)) ∧
    (∀ (api : DuckChainAPI) (u : Upstream) (transaction_hash : String),
      api.get_transaction_logs u transaction_hash = processResponse (u ⟨api.base_url ++ ("/transactions/" ++ transaction_hash ++ "/logs"), []⟩)) ∧
    (∀ (api : DuckChainAPI) (u : Upstream) (transaction_hash : String),
      api.get_transaction_raw_trace u transaction_hash = processResponse (u ⟨api.base_url ++ ("/transactions/" ++ transaction_hash ++ "/raw-trace"), []⟩)) ∧
    (∀ (api : DuckChainAPI) (u : Upstream) (transaction_hash : String),
      api.get_transaction_state_changes u transaction_hash = processResponse (u ⟨api.base_url ++ ("/transactions/" ++ transaction_hash ++ "/state-changes"), []⟩)) ∧
    (∀ (api : DuckChainAPI) (u : Upstream) (transaction_hash : String),
      api.get_transaction_summary u transaction_hash = processResponse (u ⟨api.base_url ++ ("/transactions/" ++ transaction_hash ++ "/summary"), []⟩)) ∧
    (∀ (u : Upstream), DuckChainAPI.init.get_address u "0xABC" =
      processResponse (u ⟨"https://scan.duckchain.io/api/v2/addresses/0xABC", []⟩)) ∧
    ((Tools.get_address_details "0xABC" none none spyUpstream).1 =
      "Error getting address details: https://scan.duckchain.io/api/v2/addresses/0xABC") ∧
    (∀ (u : Upstream), DuckChainAPI.init.get_token_instance_holders u "0xTOKEN" "7" =
      processResponse (u ⟨"https://scan.duckchain.io/api/v2/tokens/0xTOKEN/instances/7/holders", []⟩)) ∧
    ((Tools.get_token_instance_holders "0xTOKEN" "7" none none spyUpstream).1 =
      "Error getting token instance holders: https://scan.duckchain.io/api/v2/tokens/0xTOKEN/instances/7/holders") := by
  refine ⟨?_, ?_, ?_, ?_, ?_, ?_, ?_, ?_, ?_, ?_, ?_, ?_, ?_, ?_, ?_, ?_, ?_, ?_, ?_, ?_, ?_, ?_, ?_, ?_, ?_, ?_, ?_, ?_, ?_, ?_, ?_, ?_, ?_, ?_, ?_, ?_, ?_, ?_, ?_⟩
  · exact fun api u block_number_or_hash => rfl
  · exact fun api u block_number_or_hash => rfl
  · exact fun api u block_number_or_hash => rfl
  · exact fun api u address_hash => rfl
  · exact fun api u address_hash => rfl
  · exact fun api u address_hash => rfl
  · exact fun api u address_hash => rfl
  · exact fun api u address_hash => rfl
  · exact fun api u address_hash => rfl
  · exact fun api u address_hash => rfl
  · exact fun api u address_hash => rfl
  · exact fun api u address_hash => rfl
  · exact fun api u address_hash => rfl
  · exact fun api u address_hash => rfl
  · exact fun api u address_hash => rfl
  · exact fun api u address_hash => rfl
  · exact fun api u address_hash => rfl
  · exact fun api u address_hash => rfl
  · exact fun api u address_hash => rfl
  · exact fun api u address_hash => rfl
  · exact fun api u address_hash => rfl
  · exact fun api u address_hash => rfl
  · exact fun api u address_hash instance_id => rfl
  · exact fun api u address_hash instance_id => rfl
  · exact fun api u address_hash instance_id => rfl
  · exact fun api u address_hash instance_id => rfl
  · exact fun api u address_hash instance_id => rfl
  · exact fun api u address_hash => rfl
  · exact fun api u transaction_hash => rfl
  · exact fun api u transaction_hash type => rfl
  · exact fun api u transaction_hash => rfl
  · exact fun api u transaction_hash => rfl
  · exact fun api u transaction_hash => rfl
  · exact fun api u transaction_hash => rfl
  · exact fun api u transaction_hash => rfl
  · exact fun u => rfl
  · rfl
  · exact fun u => rfl
  · rfl

/-- C10: `get_api_client` ignores the context value it receives, and every tool
handler's result (string and state alike) is the same for any two context
values - including `none`, the absent-context case - given the same data
arguments, the same client state and the same upstream behaviour. -/
theorem c10_tools_ignore_context :
    (∀ (st : Option DuckChainAPI) (c c' : Option Context),
      Tools.get_api_client c st = Tools.get_api_client c' st) ∧
    (∀ (query : String) (st : Option DuckChainAPI) (u : Upstream) (c c' : Option Context),
      Tools.search_blockchain query c st u = Tools.search_blockchain query c' st u) ∧
    (∀ (query : String) (st : Option DuckChainAPI) (u : Upstream) (c c' : Option Context),
      Tools.check_search_redirect query c st u = Tools.check_search_redirect query c' st u) ∧
    (∀ (filter_type : Option String) (transaction_type : Option String) (method : Option String) (st : Option DuckChainAPI) (u : Upstream) (c c' : Option Context),
      Tools.get_transactions filter_type transaction_type method c st u = Tools.get_transactions filter_type transaction_type method c' st u) ∧
    (∀ (transaction_hash : String) (st : Option DuckChainAPI) (u : Upstream) (c c' : Option Context),
      Tools.get_transaction_details transaction_hash c st u = Tools.get_transaction_details transaction_hash c' st u) ∧
    (∀ (transaction_hash : String) (token_type : Option String) (st : Option DuckChainAPI) (u : Upstream) (c c' : Option Context),
      Tools.get_transaction_token_transfers transaction_hash token_type c st u = Tools.get_transaction_token_transfers transaction_hash token_type c' st u) ∧
    (∀ (transaction_hash : String) (st : Option DuckChainAPI) (u : Upstream) (c c' : Option Context),
      Tools.get_transaction_internal_transactions transaction_hash c st u = Tools.get_transaction_internal_transactions transaction_hash c' st u) ∧
    (∀ (transaction_hash : String) (st : Option DuckChainAPI) (u : Upstream) (c c' : Option Context),
      Tools.get_transaction_logs transaction_hash c st u = Tools.get_transaction_logs transaction_hash c' st u) ∧
    (∀ (transaction_hash : String) (st : Option DuckChainAPI) (u : Upstream) (c c' : Option Context),
      Tools.get_transaction_raw_trace transaction_hash c st u = Tools.get_transaction_raw_trace transaction_hash c' st u) ∧
    (∀ (transaction_hash : String) (st : Option DuckChainAPI) (u : Upstream) (c c' : Option Context),
      Tools.get_transaction_state_changes transaction_hash c st u = Tools.get_transaction_state_changes transaction_hash c' st u) ∧
    (∀ (transaction_hash : String) (st : Option DuckChainAPI) (u : Upstream) (c c' : Option Context),
      Tools.get_transaction_summary transaction_hash c st u = Tools.get_transaction_summary transaction_hash c' st u) ∧
    (∀ (block_type : Option String) (st : Option DuckChainAPI) (u : Upstream) (c c' : Option Context),
      Tools.get_blocks block_type c st u = Tools.get_blocks block_type c' st u) ∧
    (∀ (block_number_or_hash : String) (st : Option DuckChainAPI) (u : Upstream) (c c' : Option Context),
      Tools.get_block_details block_number_or_hash c st u = Tools.get_block_details block_number_or_hash c' st u) ∧
    (∀ (block_number_or_hash : String) (st : Option DuckChainAPI) (u : Upstream) (c c' : Option Context),
      Tools.get_block_transactions block_number_or_hash c st u = Tools.get_block_transactions block_number_or_hash c' st u) ∧
    (∀ (block_number_or_hash : String) (st : Option DuckChainAPI) (u : Upstream) (c c' : Option Context),
      Tools.get_block_withdrawals block_number_or_hash c st u = Tools.get_block_withdrawals block_number_or_hash c' st u) ∧
    (∀ (st : Option DuckChainAPI) (u : Upstream) (c c' : Option Context),
      Tools.get_token_transfers c st u = Tools.get_token_transfers c' st u) ∧
    (∀ (st : Option DuckChainAPI) (u : Upstream) (c c' : Option Context),
      Tools.get_internal_transactions c st u = Tools.get_internal_transactions c' st u) ∧
    (∀ (st : Option DuckChainAPI) (u : Upstream) (c c' : Option Context),
      Tools.get_main_page_transactions c st u = Tools.get_main_page_transactions c' st u) ∧
    (∀ (st : Option DuckChainAPI) (u : Upstream) (c c' : Option Context),
      Tools.get_main_page_blocks c st u = Tools.get_main_page_blocks c' st u) ∧
    (∀ (st : Option DuckChainAPI) (u : Upstream) (c c' : Option Context),
      Tools.get_indexing_status c st u = Tools.get_indexing_status c' st u) ∧
    (∀ (st : Option DuckChainAPI) (u : Upstream) (c c' : Option Context),
      Tools.get_blockchain_stats c st u = Tools.get_blockchain_stats c' st u) ∧
    (∀ (st : Option DuckChainAPI) (u : Upstream) (c c' : Option Context),
      Tools.get_transactions_chart c st u = Tools.get_transactions_chart c' st u) ∧
    (∀ (st : Option DuckChainAPI) (u : Upstream) (c c' : Option Context),
      Tools.get_market_chart c st u = Tools.get_market_chart c' st u) ∧
    (∀ (st : Option DuckChainAPI) (u : Upstream) (c c' : Option Context),
      Tools.get_addresses_list c st u = Tools.get_addresses_list c' st u) ∧
    (∀ (address_hash : String) (st : Option DuckChainAPI) (u : Upstream) (c c' : Option Context),
      Tools.get_address_details address_hash c st u = Tools.get_address_details address_hash c' st u) ∧
    (∀ (address_hash : String) (st : Option DuckChainAPI) (u : Upstream) (c c' : Option Context),
      Tools.get_address_counters address_hash c st u = Tools.get_address_counters address_hash c' st u) ∧
    (∀ (address_hash : String) (st : Option DuckChainAPI) (u : Upstream) (c c' : Option Context),
      Tools.get_address_transactions address_hash c st u = Tools.get_address_transactions address_hash c' st u) ∧
    (∀ (address_hash : String) (st : Option DuckChainAPI) (u : Upstream) (c c' : Option Context),
      Tools.get_address_token_transfers address_hash c st u = Tools.get_address_token_transfers address_hash c' st u) ∧
    (∀ (address_hash : String) (st : Option DuckChainAPI) (u : Upstream) (c c' : Option Context),
      Tools.get_address_internal_transactions address_hash c st u = Tools.get_address_internal_transactions address_hash c' st u) ∧
    (∀ (address_hash : String) (st : Option DuckChainAPI) (u : Upstream) (c c' : Option Context),
      Tools.get_address_logs address_hash c st u = Tools.get_address_logs address_hash c' st u) ∧
    (∀ (address_hash : String) (st : Option DuckChainAPI) (u : Upstream) (c c' : Option Context),
      Tools.get_address_blocks_validated address_hash c st u = Tools.get_address_blocks_validated address_hash c' st u) ∧
    (∀ (address_hash : String) (st : Option DuckChainAPI) (u : Upstream) (c c' : Option Context),
      Tools.get_address_token_balances address_hash c st u = Tools.get_address_token_balances address_hash c' st u) ∧
    (∀ (address_hash : String) (st : Option DuckChainAPI) (u : Upstream) (c c' : Option Context),
      Tools.get_address_tokens address_hash c st u = Tools.get_address_tokens address_hash c' st u) ∧
    (∀ (address_hash : String) (st : Option DuckChainAPI) (u : Upstream) (c c' : Option Context),
      Tools.get_address_coin_balance_history address_hash c st u = Tools.get_address_coin_balance_history address_hash c' st u) ∧
    (∀ (address_hash : String) (st : Option DuckChainAPI) (u : Upstream) (c c' : Option Context),
      Tools.get_address_coin_balance_history_by_day address_hash c st u = Tools.get_address_coin_balance_history_by_day address_hash c' st u) ∧
    (∀ (address_hash : String) (st : Option DuckChainAPI) (u : Upstream) (c c' : Option Context),
      Tools.get_address_withdrawals address_hash c st u = Tools.get_address_withdrawals address_hash c' st u) ∧
    (∀ (address_hash : String) (st : Option DuckChainAPI) (u : Upstream) (c c' : Option Context),
      Tools.get_address_nft address_hash c st u = Tools.get_address_nft address_hash c' st u) ∧
    (∀ (address_hash : String) (st : Option DuckChainAPI) (u : Upstream) (c c' : Option Context),
      Tools.get_address_nft_collections address_hash c st u = Tools.get_address_nft_collections address_hash c' st u) ∧
    (∀ (st : Option DuckChainAPI) (u : Upstream) (c c' : Option Context),
      Tools.get_tokens_list c st u = Tools.get_tokens_list c' st u) ∧
    (∀ (address_hash : String) (st : Option DuckChainAPI) (u : Upstream) (c c' : Option Context),
      Tools.get_token_details address_hash c st u = Tools.get_token_details address_hash c' st u) ∧
    (∀ (address_hash : String) (st : Option DuckChainAPI) (u : Upstream) (c c' : Option Context),
      Tools.get_token_transfers_by_token address_hash c st u = Tools.get_token_transfers_by_token address_hash c' st u) ∧
    (∀ (address_hash : String) (st : Option DuckChainAPI) (u : Upstream) (c c' : Option Context),
      Tools.get_token_holders address_hash c st u = Tools.get_token_holders address_hash c' st u) ∧
    (∀ (address_hash : String) (st : Option DuckChainAPI) (u : Upstream) (c c' : Option Context),
      Tools.get_token_counters address_hash c st u = Tools.get_token_counters address_hash c' st u) ∧
    (∀ (address_hash : String) (st : Option DuckChainAPI) (u : Upstream) (c c' : Option Context),
      Tools.get_token_instances address_hash c st u = Tools.get_token_instances address_hash c' st u) ∧
    (∀ (address_hash : String) (instance_id : String) (st : Option DuckChainAPI) (u : Upstream) (c c' : Option Context),
      Tools.get_token_instance_details address_hash instance_id c st u = Tools.get_token_instance_details address_hash instance_id c' st u) ∧
    (∀ (address_hash : String) (instance_id : String) (st : Option DuckChainAPI) (u : Upstream) (c c' : Option Context),
      Tools.get_token_instance_transfers address_hash instance_id c st u = Tools.get_token_instance_transfers address_hash instance_id c' st u) ∧
    (∀ (address_hash : String) (instance_id : String) (st : Option DuckChainAPI) (u : Upstream) (c c' : Option Context),
      Tools.get_token_instance_holders address_hash instance_id c st u = Tools.get_token_instance_holders address_hash instance_id c' st u) ∧
    (∀ (address_hash : String) (instance_id : String) (st : Option DuckChainAPI) (u : Upstream) (c c' : Option Context),
      Tools.get_token_instance_transfers_count address_hash instance_id c st u = Tools.get_token_instance_transfers_count address_hash instance_id c' st u) ∧
    (∀ (address_hash : String) (instance_id : String) (st : Option DuckChainAPI) (u : Upstream) (c c' : Option Context),
      Tools.refetch_token_instance_metadata_tool address_hash instance_id c st u = Tools.refetch_token_instance_metadata_tool address_hash instance_id c' st u) ∧
    (∀ (st : Option DuckChainAPI) (u : Upstream) (c c' : Option Context),
      Tools.get_smart_contracts_list c st u = Tools.get_smart_contracts_list c' st u) ∧
    (∀ (st : Option DuckChainAPI) (u : Upstream) (c c' : Option Context),
      Tools.get_smart_contracts_counters c st u = Tools.get_smart_contracts_counters c' st u) ∧
    (∀ (address_hash : String) (st : Option DuckChainAPI) (u : Upstream) (c c' : Option Context),
      Tools.get_smart_contract_details address_hash c st u = Tools.get_smart_contract_details address_hash c' st u) := by
  refine ⟨?_, ?_, ?_, ?_, ?_, ?_, ?_, ?_, ?_, ?_, ?_, ?_, ?_, ?_, ?_, ?_, ?_, ?_, ?_, ?_, ?_, ?_, ?_, ?_, ?_, ?_, ?_, ?_, ?_, ?_, ?_, ?_, ?_, ?_, ?_, ?_, ?_, ?_, ?_, ?_, ?_, ?_, ?_, ?_, ?_, ?_, ?_, ?_, ?_, ?_, ?_, ?_⟩
  · exact fun st c c' => rfl
  · exact fun query st u c c' => rfl
  · exact fun query st u c c' => rfl
  · exact fun filter_type transaction_type method st u c c' => rfl
  · exact fun transaction_hash st u c c' => rfl
  · exact fun transaction_hash token_type st u c c' => rfl
  · exact fun transaction_hash st u c c' => rfl
  · exact fun transaction_hash st u c c' => rfl
  · exact fun transaction_hash st u c c' => rfl
  · exact fun transaction_hash st u c c' => rfl
  · exact fun transaction_hash st u c c' => rfl
  · exact fun block_type st u c c' => rfl
  · exact fun block_number_or_hash st u c c' => rfl
  · exact fun block_number_or_hash st u c c' => rfl
  · exact fun block_number_or_hash st u c c' => rfl
  · exact fun st u c c' => rfl
  · exact fun st u c c' => rfl
  · exact fun st u c c' => rfl
  · exact fun st u c c' => rfl
  · exact fun st u c c' => rfl
  · exact fun st u c c' => rfl
  · exact fun st u c c' => rfl
  · exact fun st u c c' => rfl
  · exact fun st u c c' => rfl
  · exact fun address_hash st u c c' => rfl
  · exact fun address_hash st u c c' => rfl
  · exact fun address_hash st u c c' => rfl
  · exact fun address_hash st u c c' => rfl
  · exact fun address_hash st u c c' => rfl
  · exact fun address_hash st u c c' => rfl
  · exact fun address_hash st u c c' => rfl
  · exact fun address_hash st u c c' => rfl
  · exact fun address_hash st u c c' => rfl
  · exact fun address_hash st u c c' => rfl
  · exact fun address_hash st u c c' => rfl
  · exact fun address_hash st u c c' => rfl
  · exact fun address_hash st u c c' => rfl
  · exact fun address_hash st u c c' => rfl
  · exact fun st u c c' => rfl
  · exact fun address_hash st u c c' => rfl
  · exact fun address_hash st u c c' => rfl
  · exact fun address_hash st u c c' => rfl
  · exact fun address_hash st u c c' => rfl
  · exact fun address_hash st u c c' => rfl
  · exact fun address_hash instance_id st u c c' => rfl
  · exact fun address_hash instance_id st u c c' => rfl
  · exact fun address_hash instance_id st u c c' => rfl
  · exact fun address_hash instance_id st u c c' => rfl
  · exact fun address_hash instance_id st u c c' => rfl
  · exact fun st u c c' => rfl
  · exact fun st u c c' => rfl
  · exact fun address_hash st u c c' => rfl

/-- Witness for C1: a concrete transport failure on `search_blockchain` is
returned as an error string. -/
theorem c1_tools_wrap_client_errors_witness :
    (Tools.search_blockchain "duck" none none errUpstream).1 =
      "Error searching blockchain: connection refused" :=
  c1_tools_wrap_client_errors.1 "duck" none none errUpstream (.transport "connection refused") rfl

/-- Witness for C2: a concrete 200 response with JSON body `[]` on
`search_blockchain` yields the labelled result string. -/
theorem c2_tools_format_success_witness :
    (Tools.search_blockchain "duck" none none okUpstream).1 =
      "Search results for \x27duck\x27:\n[]" :=
  c2_tools_format_success.1 "duck" none none okUpstream 200 "[]" (Json.arr []) rfl (by decide)

/-- Witness for C3, the claim's own scenario: upstream answers 404 for
`get_block_details "999999999"` and the tool returns the error string built
from the status and body. -/
theorem c3_tools_report_http_status_errors_witness :
    (Tools.get_block_details "999999999" none none notFoundUpstream).1 =
      "Error getting block details: HTTP status 404: Block not found" :=
  (c3_tools_report_http_status_errors.2.2.2.2.2.2.2.2.2.2.2.1 "999999999" none none notFoundUpstream 404 "Block not found" none rfl (by decide)).2


/-- C4 counterexample: `get_transactions` called with the supplied (non-None)
argument `filter_type = ""` sends a request carrying no query parameters at
all, observed end to end through the spy network - the supplied argument does
not appear in the outgoing query string, because the source guards each
parameter with Python truthiness (`if filter_type:`), which drops the empty
string just like `None`. -/
theorem c4_empty_string_filter_counterexample :
    DuckChainAPI.init.get_transactions spyUpstream (some "") none none =
      .error (.transport "https://scan.duckchain.io/api/v2/transactions") ∧
    optQueryParam "filter" (some "") ++ optQueryParam "type" none ++
      optQueryParam "method" none = [] :=
  ⟨rfl, rfl⟩

/-- C4 (amended): for every operation with optional filter arguments, an
argument that is omitted, `None`, or the empty string does not appear in the
outgoing query string, and a supplied non-empty argument appears under its
exact upstream parameter name with its exact value; in particular
`get_transactions` with `filter_type="validated"` and the other two filters
`None` issues `GET /transactions` with exactly the query `filter=validated`. -/
theorem c4_optional_params_truthy :
    (∀ (api : DuckChainAPI) (u : Upstream) (filter_type transaction_type method : Option String),
      api.get_transactions u filter_type transaction_type method =
        processResponse (u ⟨api.base_url ++ ("/transactions"),
          optQueryParam "filter" filter_type ++ optQueryParam "type" transaction_type ++
            optQueryParam "method" method⟩)) ∧
    (∀ (api : DuckChainAPI) (u : Upstream) (block_type : Option String),
      api.get_blocks u block_type =
        processResponse (u ⟨api.base_url ++ ("/blocks"), optQueryParam "type" block_type⟩)) ∧
    (∀ (api : DuckChainAPI) (u : Upstream) (transaction_hash : String) (token_type : Option String),
      api.get_transaction_token_transfers u transaction_hash token_type =
        processResponse (u ⟨api.base_url ++ ("/transactions/" ++ transaction_hash ++ "/token-transfers"),
          optQueryParam "type" token_type⟩)) ∧
    (∀ (name : String) (o : Option String) (n v : String),
      ((n, v) ∈ optQueryParam name o ↔ n = name ∧ o = some v ∧ 0 < v.length)) ∧
    (∀ (u : Upstream),
      DuckChainAPI.init.get_transactions u (some "validated") none none =
        processResponse (u ⟨"https://scan.duckchain.io/api/v2/transactions",
          [("filter", "validated")]⟩)) :=
  ⟨fun api u ft tt m => rfl, fun api u bt => rfl, fun api u th tt => rfl,
    mem_optQueryParam, fun u => rfl⟩

/-- C6: under single-threaded sequential use the API client is constructed
lazily at most once per process - starting from the initial `None` singleton
state, a sequence of `get_api_client` calls performs at most one
`DuckChainAPI()` construction, every call returns the instance created by the
first call, and the timeout fixed at that first construction (30, installed
in the connection pool as well) is the one every subsequent call sees. -/
theorem c6_client_singleton (ctxs : List (Option Context)) :
    runClients ctxs none = List.replicate ctxs.length DuckChainAPI.init ∧
    countConstructions ctxs none ≤ 1 ∧
    DuckChainAPI.init.timeout = 30 ∧ DuckChainAPI.init.client.timeout = 30 := by
  cases ctxs with
  | nil => exact ⟨rfl, by decide, rfl, rfl⟩
  | cons hd tl =>
    refine ⟨?_, ?_, rfl, rfl⟩
    · show DuckChainAPI.init :: runClients tl (some DuckChainAPI.init) =
        DuckChainAPI.init :: List.replicate tl.length DuckChainAPI.init
      rw [runClients_some]
    · show constructedHere none + countConstructions tl (some DuckChainAPI.init) ≤ 1
      rw [countConstructions_some]
      decide

/-- C7 counterexample: the source constructor takes no configuration at all -
`DuckChainAPI.__init__` has no parameters and hardcodes `self.timeout = 30`
(the module notes "Configuration is no longer needed", server.py line 15, and
the api-docs resource advertises "No configuration required") - so the
constructor described by the claim, which accepts a timeout option (modelled
from the spec as `initSpecTimeout`), is not realised by the source: a caller
configuring 60 would have to obtain timeout 60, but the only client the
source can construct has timeout 30. -/
theorem c7_no_timeout_config_counterexample :
    DuckChainAPI.init.timeout = 30 ∧ initSpecTimeout (some 60) = 60 ∧
    DuckChainAPI.init.timeout < initSpecTimeout (some 60) :=
  ⟨rfl, rfl, by decide⟩

/-- C7 (amended): API-client construction takes no configuration; the request
timeout is fixed at 30 seconds, that same value is installed in the
connection pool, and the base URL is likewise fixed, so the constructor has
no runtime configuration surface. -/
theorem c7_timeout_fixed_30 :
    DuckChainAPI.init.timeout = 30 ∧
    DuckChainAPI.init.client.timeout = DuckChainAPI.init.timeout ∧
    DuckChainAPI.init.base_url = "https://scan.duckchain.io/api/v2" :=
  ⟨rfl, rfl, rfl⟩

/-- C9: the two resource handlers return fixed static text independent of the
singleton state and of the network, and each of the three prompt handlers
returns, for every state and network, its fixed natural-language template
instantiated with exactly the single caller-supplied token; each of the five
is thereby a pure function of its argument, performing no validation and no
network access. -/
theorem c9_static_resources_and_prompts :
    (∀ (st st' : Option DuckChainAPI) (u u' : Upstream),
      Resources.api_documentation st u = Resources.api_documentation st' u') ∧
    (∀ (st st' : Option DuckChainAPI) (u u' : Upstream),
      Resources.supported_chains st u = Resources.supported_chains st' u') ∧
    (∀ (st : Option DuckChainAPI) (u : Upstream) (transaction_hash : String),
      Prompts.analyze_transaction st u transaction_hash =
        [ { role := "user"
          , content := "Analyze this blockchain transaction: " ++ transaction_hash ++
              ". Provide details about the transaction, its purpose, gas usage, and any token transfers involved." } ]) ∧
    (∀ (st : Option DuckChainAPI) (u : Upstream) (address : String),
      Prompts.explore_address st u address =
        [ { role := "user"
          , content := "Explore this blockchain address: " ++ address ++
              ". Find information about its transactions, token holdings, and activity patterns." } ]) ∧
    (∀ (st : Option DuckChainAPI) (u : Upstream) (token_symbol : String),
      Prompts.research_token st u token_symbol =
        [ { role := "user"
          , content := "Research the token " ++ token_symbol ++
              ". Find its contract address, market data, holders, and recent activity." } ]) :=
  ⟨fun _ _ _ _ => rfl, fun _ _ _ _ => rfl, fun _ _ _ => rfl, fun _ _ _ => rfl,
    fun _ _ _ => rfl⟩
